import Mathlib

/-!
The dock RPC server of opensds (`pkg/dock/dock.go`)

A shallow embedding of the handlers of the dock server, and of the fake
transport of the client tests (`client/volume_test.go`) with the client SDK
operations it is tested through.

* The collaborators of the server that live outside `dock.go` (the storage
  driver, the persistence handle `db.C`, the connector registry and the JSON
  decoder) are the fields of one record `Env σ`, where `σ` is the state of the
  outside world.  Persistence lookups read the world; driver, connector and
  persistence-delete calls may change it.
* Every handler returns, besides its Go results, the list of collaborator
  calls it made, in program order (`Call`), so that "the driver is never
  invoked" is a statement about that list.
* A Go `error` is `Option GoError`; `none` is `nil`.
-/

namespace Dock

/-! ## Domain model (`pkg/model`) -/

/-- A Go `error` value: either the `*model.NotImplementError` sentinel or an
error of any other dynamic type, each with the text its `Error()` method returns. -/
inductive GoError where
  | notImplement (s : String)
  | other (msg : String)
deriving DecidableEq, Repr

/-- The method `Error()` of a Go error. -/
def GoError.Error : GoError → String
  | .notImplement s => s
  | .other msg => msg

/-- The type assertion `_, ok := err.(*model.NotImplementError)`. -/
def GoError.isNotImplement : GoError → Bool
  | .notImplement _ => true
  | .other _ => false

/-- The function `errors.New(msg)`, also used for `fmt.Errorf` once its text is formatted. -/
def errorsNew (msg : String) : GoError := .other msg

/-- Modelled from the spec: `model.BaseModel`, the attribute shared by every
entity (its declaration is not among the sources): the identifier, and the
timestamps the spec calls implied. -/
structure BaseModel where
  Id : String := ""
  CreatedAt : String := ""
  UpdatedAt : String := ""
deriving DecidableEq, Repr

/-- Modelled from the spec: `model.VolumeSpec` (declaration not among the
sources), with the fields of section 3 of the spec. -/
structure VolumeSpec where
  BaseModel : BaseModel := {}
  Name : String := ""
  Description : String := ""
  Size : Int := 0
  Status : String := ""
  AttachStatus : String := ""
  PoolId : String := ""
  ProfileId : String := ""
  Metadata : List (String × String) := []
deriving DecidableEq, Repr

/-- The promoted field `vol.Id`. -/
def VolumeSpec.Id (v : VolumeSpec) : String := v.BaseModel.Id

/-- Modelled from the spec: `model.VolumeGroupSpec` (declaration not among the sources). -/
structure VolumeGroupSpec where
  BaseModel : BaseModel := {}
  Status : String := ""
  Name : String := ""
  PoolId : String := ""
  ProfileId : String := ""
  AddVolumes : List String := []
  RemoveVolumes : List String := []
deriving DecidableEq, Repr

/-- The promoted field `vg.Id`. -/
def VolumeGroupSpec.Id (g : VolumeGroupSpec) : String := g.BaseModel.Id

/-- Modelled from the spec: the status constant `model.VolumeAvailable` (*available*). -/
def VolumeAvailable : String := "available"
/-- Modelled from the spec: the status constant `model.VolumeInUse` (*in-use*). -/
def VolumeInUse : String := "in-use"
/-- Modelled from the spec: the status constant `model.VolumeError` (*error*). -/
def VolumeError : String := "error"
/-- Modelled from the spec: the status constant `model.VolumeErrorDeleting` (*error-deleting*). -/
def VolumeErrorDeleting : String := "error-deleting"
/-- Modelled from the spec: the attach-status constant `model.VolumeAttached` (*attached*). -/
def VolumeAttached : String := "attached"
/-- Modelled from the spec: the group status constant `model.VolumeGroupError` (*error*). -/
def VolumeGroupError : String := "error"

/-- Modelled from the spec: `utils.Contained`, the "is member of" predicate
(value, candidate set) → boolean of section 4.2. -/
def Contained (obj : String) (target : List String) : Bool := target.contains obj

/-! ## Request context (`pkg/context`) -/

/-- Modelled from the spec: the opaque request context; it is kept as the
serialized form it was constructed from. -/
structure Context where
  json : String
deriving DecidableEq, Repr

/-- Modelled from the spec: `c.NewContextFromJson`, construction of the context
from the textual form carried in the RPC payload. -/
def NewContextFromJson (s : String) : Context := ⟨s⟩

/-! ## Wire messages (`pkg/model/proto`) -/

/-- The fields of `pb.CreateVolumeOpts` the handlers read. -/
structure CreateVolumeOpts where
  Id : String := ""
  Name : String := ""
  DriverName : String := ""
  Context : String := ""
deriving DecidableEq, Repr

/-- The fields of `pb.DeleteVolumeOpts` the handlers read or set. -/
structure DeleteVolumeOpts where
  Id : String := ""
  Metadata : List (String × String) := []
  DriverName : String := ""
  Context : String := ""
deriving DecidableEq, Repr

/-- The fields of `pb.CreateVolumeGroupOpts` the handlers read. -/
structure CreateVolumeGroupOpts where
  Id : String := ""
  DriverName : String := ""
  Context : String := ""
deriving DecidableEq, Repr

/-- The fields of `pb.UpdateVolumeGroupOpts` the handlers read. -/
structure UpdateVolumeGroupOpts where
  Id : String := ""
  AddVolumes : List String := []
  RemoveVolumes : List String := []
  DriverName : String := ""
  Context : String := ""
deriving DecidableEq, Repr

/-- The fields of `pb.DeleteVolumeGroupOpts` the handlers read. -/
structure DeleteVolumeGroupOpts where
  Id : String := ""
  DriverName : String := ""
  Context : String := ""
deriving DecidableEq, Repr

/-- The fields of `pb.AttachVolumeOpts` the handlers read. -/
structure AttachVolumeOpts where
  AccessProtocol : String := ""
  ConnectionData : String := ""
deriving DecidableEq, Repr

/-- The fields of `pb.DetachVolumeOpts` the handlers read. -/
structure DetachVolumeOpts where
  AccessProtocol : String := ""
  ConnectionData : String := ""
deriving DecidableEq, Repr

/-- The decoded connection data, `map[string]interface{}`: a string-keyed map
whose values are kept in textual form. -/
abbrev ConnData := List (String × String)

/-- Modelled from the spec: `model.HostInfo` (declaration not among the
sources), the requesting host and its storage initiator. -/
structure HostInfo where
  Platform : String := ""
  OsType : String := ""
  Ip : String := ""
  Host : String := ""
  Initiator : String := ""
deriving DecidableEq, Repr

/-- Modelled from the spec: `model.ConnectionInfo` (declaration not among the
sources), the protocol key and the protocol-specific parameters. -/
structure ConnectionInfo where
  DriverVolumeType : String := ""
  ConnectionData : ConnData := []
deriving DecidableEq, Repr

/-- Modelled from the spec: `model.VolumeAttachmentSpec` (declaration not among the sources). -/
structure VolumeAttachmentSpec where
  BaseModel : BaseModel := {}
  Status : String := ""
  VolumeId : String := ""
  HostInfo : HostInfo := {}
  ConnectionInfo : ConnectionInfo := {}
  Metadata : List (String × String) := []
deriving DecidableEq, Repr

/-- Modelled from the spec: `model.VolumeSnapshotSpec` (declaration not among the sources). -/
structure VolumeSnapshotSpec where
  BaseModel : BaseModel := {}
  Name : String := ""
  Description : String := ""
  Size : Int := 0
  Status : String := ""
  VolumeId : String := ""
deriving DecidableEq, Repr

/-- Modelled from the spec: `model.ReplicationSpec` (declaration not among the
sources), the result of the replication operations. -/
structure ReplicationSpec where
  BaseModel : BaseModel := {}
  Name : String := ""
  PoolId : String := ""
  ProfileId : String := ""
deriving DecidableEq, Repr

/-- The fields of `pb.ExtendVolumeOpts` the handlers read. -/
structure ExtendVolumeOpts where
  Id : String := ""
  Size : Int := 0
  DriverName : String := ""
  Context : String := ""
deriving DecidableEq, Repr

/-- The fields of `pb.CreateVolumeAttachmentOpts` the handlers read; `HostInfo`
is a pointer whose getters return the empty string on nil. -/
structure CreateVolumeAttachmentOpts where
  Id : String := ""
  VolumeId : String := ""
  HostInfo : Option HostInfo := none
  Metadata : List (String × String) := []
  DriverName : String := ""
  Context : String := ""
deriving DecidableEq, Repr

/-- The fields of `pb.DeleteVolumeAttachmentOpts` the handlers read. -/
structure DeleteVolumeAttachmentOpts where
  Id : String := ""
  VolumeId : String := ""
  DriverName : String := ""
  Context : String := ""
deriving DecidableEq, Repr

/-- The fields of `pb.CreateVolumeSnapshotOpts` the handlers read. -/
structure CreateVolumeSnapshotOpts where
  Id : String := ""
  Name : String := ""
  VolumeId : String := ""
  DriverName : String := ""
  Context : String := ""
deriving DecidableEq, Repr

/-- The fields of `pb.DeleteVolumeSnapshotOpts` the handlers read. -/
structure DeleteVolumeSnapshotOpts where
  Id : String := ""
  VolumeId : String := ""
  DriverName : String := ""
  Context : String := ""
deriving DecidableEq, Repr

/-- The fields of `pb.CreateReplicationOpts` the handlers read. -/
structure CreateReplicationOpts where
  Id : String := ""
  Name : String := ""
  PoolId : String := ""
  ProfileId : String := ""
  DriverName : String := ""
  Context : String := ""
deriving DecidableEq, Repr

/-- The fields of `pb.DeleteReplicationOpts` the handlers read. -/
structure DeleteReplicationOpts where
  Id : String := ""
  DriverName : String := ""
  Context : String := ""
deriving DecidableEq, Repr

/-- The fields of `pb.EnableReplicationOpts` the handlers read. -/
structure EnableReplicationOpts where
  Id : String := ""
  DriverName : String := ""
  Context : String := ""
deriving DecidableEq, Repr

/-- The fields of `pb.DisableReplicationOpts` the handlers read. -/
structure DisableReplicationOpts where
  Id : String := ""
  DriverName : String := ""
  Context : String := ""
deriving DecidableEq, Repr

/-- The fields of `pb.FailoverReplicationOpts` the handlers read. -/
structure FailoverReplicationOpts where
  Id : String := ""
  DriverName : String := ""
  Context : String := ""
deriving DecidableEq, Repr

/-- The value handed to the success constructor of the envelope (`interface{}`). -/
inductive Payload where
  | nil
  | text (s : String)
  | volume (v : VolumeSpec)
  | volumeGroup (g : VolumeGroupSpec)
  | attachment (a : VolumeAttachmentSpec)
  | snapshot (p : VolumeSnapshotSpec)
  | replication (r : ReplicationSpec)
deriving DecidableEq, Repr

/-- The `Reply` of a generic response: a result or a `{code, message}` error pair. -/
inductive Reply where
  | result (message : Payload)
  | error (code : String) (description : String)
deriving DecidableEq, Repr

/-- The envelope `pb.GenericResponse`; `var res pb.GenericResponse` is the zero
value, whose `Reply` is nil. -/
structure GenericResponse where
  Reply : Option Reply := none
deriving DecidableEq, Repr

/-- Whether the envelope was built by the error constructor. -/
def GenericResponse.isError (r : GenericResponse) : Bool :=
  match r.Reply with
  | some (.error _ _) => true
  | _ => false

/-- Whether the envelope was built by the success constructor. -/
def GenericResponse.isResult (r : GenericResponse) : Bool :=
  match r.Reply with
  | some (.result _) => true
  | _ => false

/-- Modelled from the spec: `pb.GenericResponseResult` (not among the sources),
the success constructor wrapping a result payload. -/
def pbGenericResponseResult (message : Payload) : GenericResponse :=
  { Reply := some (.result message) }

/-- Modelled from the spec: `pb.GenericResponseError` (not among the sources),
the error constructor wrapping a failure code and the message of the error.
The handlers pass it only the error; the code it stamps is the parameter `code`. -/
def pbGenericResponseError (code : String) (err : GoError) : GenericResponse :=
  { Reply := some (.error code err.Error) }

/-- Modelled from the spec: the two-argument `GenericResponseError(code, msg)`
of package dock (not among the sources), which builds the error reply. -/
def GenericResponseError (code : String) (msg : String) : Option Reply :=
  some (.error code msg)

/-! ## Collaborators -/

/-- A `drivers.VolumeDriver` interface value, identified by the instance it holds. -/
structure VolumeDriver where
  ref : Nat
deriving DecidableEq, Repr

/-- A `connector.Connector` interface value, identified by the instance it holds. -/
structure Connector where
  ref : Nat
deriving DecidableEq, Repr

/-- A `drivers.ReplicationDriver` interface value, identified by the instance it holds. -/
structure ReplicationDriver where
  ref : Nat
deriving DecidableEq, Repr

/-- One call on a collaborator, with its arguments. -/
inductive Call where
  | driversInit (driverName : String)
  | driversClean (d : VolumeDriver)
  | dbGetVolume (ctx : Context) (id : String)
  | dbListVolumesByGroupId (ctx : Context) (id : String)
  | dbGetVolumeGroup (ctx : Context) (id : String)
  | dbDeleteVolume (ctx : Context) (id : String)
  | drvCreateVolume (d : VolumeDriver) (opt : CreateVolumeOpts)
  | drvDeleteVolume (d : VolumeDriver) (opt : DeleteVolumeOpts)
  | drvCreateVolumeGroup (d : VolumeDriver) (opt : CreateVolumeGroupOpts) (vg : VolumeGroupSpec)
  | drvUpdateVolumeGroup (d : VolumeDriver) (opt : UpdateVolumeGroupOpts) (group : VolumeGroupSpec)
      (addVolumesRef removeVolumesRef : List VolumeSpec)
  | drvDeleteVolumeGroup (d : VolumeDriver) (opt : DeleteVolumeGroupOpts) (group : VolumeGroupSpec)
      (volumes : List VolumeSpec)
  | jsonUnmarshal (data : String)
  | newConnector (accessProtocol : String)
  | conAttach (c : Connector) (connData : ConnData)
  | conDetach (c : Connector) (connData : ConnData)
  | drvExtendVolume (d : VolumeDriver) (opt : ExtendVolumeOpts)
  | drvInitializeConnection (d : VolumeDriver) (opt : CreateVolumeAttachmentOpts)
  | drvTerminateConnection (d : VolumeDriver) (opt : DeleteVolumeAttachmentOpts)
  | drvCreateSnapshot (d : VolumeDriver) (opt : CreateVolumeSnapshotOpts)
  | drvDeleteSnapshot (d : VolumeDriver) (opt : DeleteVolumeSnapshotOpts)
  | initReplicationDriver (driverName : String)
  | cleanReplicationDriver (d : Option ReplicationDriver)
  | repCreateReplication (d : ReplicationDriver) (opt : CreateReplicationOpts)
  | repDeleteReplication (d : ReplicationDriver) (opt : DeleteReplicationOpts)
  | repEnableReplication (d : ReplicationDriver) (opt : EnableReplicationOpts)
  | repDisableReplication (d : ReplicationDriver) (opt : DisableReplicationOpts)
  | repFailoverReplication (d : ReplicationDriver) (opt : FailoverReplicationOpts)
deriving DecidableEq, Repr

/-- Whether the call is a method call on a storage driver instance. -/
def Call.isDriverMethod : Call → Bool
  | .drvCreateVolume _ _ => true
  | .drvDeleteVolume _ _ => true
  | .drvCreateVolumeGroup _ _ _ => true
  | .drvUpdateVolumeGroup _ _ _ _ _ => true
  | .drvDeleteVolumeGroup _ _ _ _ => true
  | .drvExtendVolume _ _ => true
  | .drvInitializeConnection _ _ => true
  | .drvTerminateConnection _ _ => true
  | .drvCreateSnapshot _ _ => true
  | .drvDeleteSnapshot _ _ => true
  | _ => false

/-- Whether the call is the driver's `UpdateVolumeGroup`. -/
def Call.isDrvUpdateVolumeGroup : Call → Bool
  | .drvUpdateVolumeGroup _ _ _ _ _ => true
  | _ => false

/-- Whether the call is the driver's `DeleteVolume`. -/
def Call.isDrvDeleteVolume : Call → Bool
  | .drvDeleteVolume _ _ => true
  | _ => false

/-- Whether the call is the persistence `DeleteVolume`. -/
def Call.isDbDeleteVolume : Call → Bool
  | .dbDeleteVolume _ _ => true
  | _ => false

/-- Whether the call is a connector's `Attach` or `Detach`. -/
def Call.isConnectorMethod : Call → Bool
  | .conAttach _ _ => true
  | .conDetach _ _ => true
  | _ => false

/-- Whether the call is an operation of a replication driver instance. -/
def Call.isReplicationMethod : Call → Bool
  | .repCreateReplication _ _ => true
  | .repDeleteReplication _ _ => true
  | .repEnableReplication _ _ => true
  | .repDisableReplication _ _ => true
  | .repFailoverReplication _ _ => true
  | _ => false

/-- Whether the call initialises or cleans a driver of either kind. -/
def Call.isInitOrClean : Call → Bool
  | .driversInit _ => true
  | .driversClean _ => true
  | .initReplicationDriver _ => true
  | .cleanReplicationDriver _ => true
  | _ => false

/-- The collaborators of the dock server over a world state `σ`. -/
structure Env (σ : Type) where
  /-- The call `drivers.Init(driverName)`. -/
  Init : String → σ → VolumeDriver × σ
  /-- The call `drivers.Clean(driver)`. -/
  Clean : VolumeDriver → σ → σ
  /-- The driver method `CreateVolume`. -/
  drvCreateVolume : VolumeDriver → CreateVolumeOpts → σ → (Option VolumeSpec × Option GoError) × σ
  /-- The driver method `DeleteVolume`. -/
  drvDeleteVolume : VolumeDriver → DeleteVolumeOpts → σ → Option GoError × σ
  /-- The driver method `CreateVolumeGroup`. -/
  drvCreateVolumeGroup : VolumeDriver → CreateVolumeGroupOpts → VolumeGroupSpec → σ →
    (Option VolumeGroupSpec × Option GoError) × σ
  /-- The driver method `UpdateVolumeGroup`; of its four results the handler keeps the error. -/
  drvUpdateVolumeGroup : VolumeDriver → UpdateVolumeGroupOpts → VolumeGroupSpec →
    List VolumeSpec → List VolumeSpec → σ → Option GoError × σ
  /-- The driver method `DeleteVolumeGroup`. -/
  drvDeleteVolumeGroup : VolumeDriver → DeleteVolumeGroupOpts → VolumeGroupSpec →
    List VolumeSpec → σ → (Option VolumeGroupSpec × List VolumeSpec × Option GoError) × σ
  /-- The lookup `db.C.GetVolume(ctx, id)`. -/
  GetVolume : σ → Context → String → Except GoError VolumeSpec
  /-- The lookup `db.C.ListVolumesByGroupId(ctx, id)`. -/
  ListVolumesByGroupId : σ → Context → String → Except GoError (List VolumeSpec)
  /-- The lookup `db.C.GetVolumeGroup(ctx, id)`. -/
  GetVolumeGroup : σ → Context → String → Except GoError VolumeGroupSpec
  /-- The call `db.C.DeleteVolume(ctx, id)`. -/
  dbDeleteVolume : Context → String → σ → Option GoError × σ
  /-- The call `json.Unmarshal` into a string-keyed map. -/
  jsonUnmarshal : String → Except GoError ConnData
  /-- The call `connector.NewConnector(accessProtocol)`; `none` is the nil connector. -/
  NewConnector : σ → String → Option Connector
  /-- The connector method `Attach`. -/
  Attach : Connector → ConnData → σ → Except GoError String × σ
  /-- The connector method `Detach`. -/
  Detach : Connector → ConnData → σ → Option GoError × σ
  /-- The failure code `pb.GenericResponseError` stamps on an error envelope. -/
  errCode : String
  /-- The driver method `ExtendVolume`. -/
  drvExtendVolume : VolumeDriver → ExtendVolumeOpts → σ → (Option VolumeSpec × Option GoError) × σ
  /-- The driver method `InitializeConnection`. -/
  drvInitializeConnection : VolumeDriver → CreateVolumeAttachmentOpts → σ →
    (Option ConnectionInfo × Option GoError) × σ
  /-- The driver method `TerminateConnection`. -/
  drvTerminateConnection : VolumeDriver → DeleteVolumeAttachmentOpts → σ → Option GoError × σ
  /-- The driver method `CreateSnapshot`. -/
  drvCreateSnapshot : VolumeDriver → CreateVolumeSnapshotOpts → σ →
    (Option VolumeSnapshotSpec × Option GoError) × σ
  /-- The driver method `DeleteSnapshot`. -/
  drvDeleteSnapshot : VolumeDriver → DeleteVolumeSnapshotOpts → σ → Option GoError × σ
  /-- The call `drivers.InitReplicationDriver(driverName)`: the driver (`none` is
  the nil interface value) and the error of the resolution. -/
  InitReplicationDriver : String → σ → (Option ReplicationDriver × Option GoError) × σ
  /-- The call `drivers.CleanReplicationDriver(driver)`. -/
  CleanReplicationDriver : Option ReplicationDriver → σ → σ
  /-- The replication driver method `CreateReplication`. -/
  repCreateReplication : ReplicationDriver → CreateReplicationOpts → σ →
    (Option ReplicationSpec × Option GoError) × σ
  /-- The replication driver method `DeleteReplication`. -/
  repDeleteReplication : ReplicationDriver → DeleteReplicationOpts → σ → Option GoError × σ
  /-- The replication driver method `EnableReplication`. -/
  repEnableReplication : ReplicationDriver → EnableReplicationOpts → σ → Option GoError × σ
  /-- The replication driver method `DisableReplication`. -/
  repDisableReplication : ReplicationDriver → DisableReplicationOpts → σ → Option GoError × σ
  /-- The replication driver method `FailoverReplication`. -/
  repFailoverReplication : ReplicationDriver → FailoverReplicationOpts → σ → Option GoError × σ

/-- What an RPC handler returns (`(*pb.GenericResponse, error)`), with the
collaborator calls it made and the world it leaves. -/
structure Rpc (σ : Type) where
  res : GenericResponse
  err : Option GoError
  calls : List Call
  state : σ

/-- The prologue of a driver-backed handler:
`ds.Driver = drivers.Init(name); defer drivers.Clean(ds.Driver)`.  The deferred
call has its argument evaluated at the `defer` statement and runs when the
handler returns, on every return path. -/
def initDeferClean {σ : Type} (env : Env σ) (driverName : String) (s : σ)
    (body : VolumeDriver → σ → Rpc σ) : Rpc σ :=
  let (drv, s1) := env.Init driverName s
  let r := body drv s1
  { res := r.res, err := r.err,
    calls := Call.driversInit driverName :: (r.calls ++ [Call.driversClean drv]),
    state := env.Clean drv r.state }

/-! ## Handlers of `dock.go` -/

/-- The handler `CreateVolume`. -/
def CreateVolume {σ : Type} (env : Env σ) (s : σ) (opt : CreateVolumeOpts) : Rpc σ :=
  initDeferClean env opt.DriverName s fun drv s1 =>
    match env.drvCreateVolume drv opt s1 with
    | ((_, some err), s2) =>
      { res := pbGenericResponseError env.errCode err, err := some err,
        calls := [Call.drvCreateVolume drv opt], state := s2 }
    | ((vol, none), s2) =>
      { res := pbGenericResponseResult (match vol with | some v => .volume v | none => .nil),
        err := none, calls := [Call.drvCreateVolume drv opt], state := s2 }

/-- The body of `CreateVolumeGroup`, after the driver is initialised. -/
def CreateVolumeGroupBody {σ : Type} (env : Env σ) (drv : VolumeDriver) (s1 : σ)
    (opt : CreateVolumeGroupOpts) : Rpc σ :=
    let ctx := NewContextFromJson opt.Context
    match env.GetVolumeGroup s1 ctx opt.Id with
    | .error err =>
      { res := pbGenericResponseError env.errCode err, err := some err,
        calls := [Call.dbGetVolumeGroup ctx opt.Id], state := s1 }
    | .ok vg =>
      let calls := [Call.dbGetVolumeGroup ctx opt.Id, Call.drvCreateVolumeGroup drv opt vg]
      match env.drvCreateVolumeGroup drv opt vg s1 with
      | ((_, some err), s2) =>
        if !err.isNotImplement then
          { res := pbGenericResponseError env.errCode err, err := some err, calls := calls, state := s2 }
        else
          { res := pbGenericResponseResult (.volumeGroup vg), err := none, calls := calls, state := s2 }
      | ((_, none), s2) =>
        { res := pbGenericResponseResult (.volumeGroup vg), err := none, calls := calls, state := s2 }

/-- The handler `CreateVolumeGroup`. -/
def CreateVolumeGroup {σ : Type} (env : Env σ) (s : σ) (opt : CreateVolumeGroupOpts) : Rpc σ :=
  initDeferClean env opt.DriverName s fun drv s1 => CreateVolumeGroupBody env drv s1 opt

/-- The text of the status error of `getVolumesForGroup`. -/
def wrongStatusMsg (vol : VolumeSpec) : String :=
  "Update group failed, wrong status for volume " ++ vol.Id ++ " " ++ vol.Status

/-- The loop of `getVolumesForGroup`: `volumesRef` is the slice built so far,
`calls` the lookups made so far. -/
def getVolumesForGroupLoop {σ : Type} (env : Env σ) (s : σ) (opt : UpdateVolumeGroupOpts)
    (add : Bool) : List String → List VolumeSpec → List Call →
    Except GoError (List VolumeSpec) × List Call
  | [], volumesRef, calls => (.ok volumesRef, calls)
  | v :: rest, volumesRef, calls =>
    let ctx := NewContextFromJson opt.Context
    let calls := calls ++ [Call.dbGetVolume ctx v]
    match env.GetVolume s ctx v with
    | .error err => (.error err, calls)
    | .ok vol =>
      if add == true && !Contained vol.Status [VolumeAvailable, VolumeInUse] then
        (.error (errorsNew (wrongStatusMsg vol)), calls)
      else if add == false &&
          !Contained vol.Status [VolumeAvailable, VolumeInUse, VolumeError, VolumeErrorDeleting] then
        (.error (errorsNew (wrongStatusMsg vol)), calls)
      else
        getVolumesForGroupLoop env s opt add rest (volumesRef ++ [vol]) calls

/-- The method `getVolumesForGroup`: the resolved specs or the error, and the lookups made. -/
def getVolumesForGroup {σ : Type} (env : Env σ) (s : σ) (opt : UpdateVolumeGroupOpts)
    (volumes : List String) (add : Bool) : Except GoError (List VolumeSpec) × List Call :=
  getVolumesForGroupLoop env s opt add volumes [] []

/-- The body of `UpdateVolumeGroup`, after the driver is initialised. -/
def UpdateVolumeGroupBody {σ : Type} (env : Env σ) (drv : VolumeDriver) (s1 : σ)
    (opt : UpdateVolumeGroupOpts) : Rpc σ :=
    match getVolumesForGroup env s1 opt opt.AddVolumes true with
    | (.error err, c1) =>
      { res := pbGenericResponseError env.errCode err, err := some err, calls := c1, state := s1 }
    | (.ok addVolumesRef, c1) =>
      match getVolumesForGroup env s1 opt opt.RemoveVolumes false with
      | (.error err, c2) =>
        { res := pbGenericResponseError env.errCode err, err := some err, calls := c1 ++ c2, state := s1 }
      | (.ok removeVolumesRef, c2) =>
        let ctx := NewContextFromJson opt.Context
        let c3 := c1 ++ c2 ++ [Call.dbGetVolumeGroup ctx opt.Id]
        match env.GetVolumeGroup s1 ctx opt.Id with
        | .error err =>
          { res := pbGenericResponseError env.errCode err, err := some err, calls := c3, state := s1 }
        | .ok group =>
          let c4 := c3 ++ [Call.drvUpdateVolumeGroup drv opt group addVolumesRef removeVolumesRef]
          match env.drvUpdateVolumeGroup drv opt group addVolumesRef removeVolumesRef s1 with
          | (some err, s2) =>
            if !err.isNotImplement then
              let err := errorsNew ("Error occurred when updating group" ++ opt.Id ++ "," ++ err.Error)
              { res := pbGenericResponseError env.errCode err, err := some err, calls := c4, state := s2 }
            else
              { res := pbGenericResponseResult .nil, err := none, calls := c4, state := s2 }
          | (none, s2) =>
            { res := pbGenericResponseResult .nil, err := none, calls := c4, state := s2 }

/-- The handler `UpdateVolumeGroup`. -/
def UpdateVolumeGroup {σ : Type} (env : Env σ) (s : σ) (opt : UpdateVolumeGroupOpts) : Rpc σ :=
  initDeferClean env opt.DriverName s fun drv s1 => UpdateVolumeGroupBody env drv s1 opt

/-- The running state of the loop of `deleteGroupGeneric`. -/
structure GenericDelete (σ : Type) where
  vgUpdate : VolumeGroupSpec
  volumesUpdate : List VolumeSpec
  calls : List Call
  state : σ

/-- One iteration of the loop of `deleteGroupGeneric`, for the member `volumeRef`. -/
def deleteGroupGenericStep {σ : Type} (env : Env σ) (driver : VolumeDriver)
    (opt : DeleteVolumeGroupOpts) (acc : GenericDelete σ) (volumeRef : VolumeSpec) :
    GenericDelete σ :=
  let v : VolumeSpec := { BaseModel := { Id := volumeRef.Id } }
  let dopt : DeleteVolumeOpts := { Metadata := volumeRef.Metadata }
  match env.drvDeleteVolume driver dopt acc.state with
  | (some _, s1) =>
    { vgUpdate := { acc.vgUpdate with Status := VolumeGroupError },
      volumesUpdate := acc.volumesUpdate ++ [{ v with Status := VolumeError }],
      calls := acc.calls ++ [Call.drvDeleteVolume driver dopt],
      state := s1 }
  | (none, s1) =>
    let ctx := NewContextFromJson opt.Context
    let calls := acc.calls ++ [Call.drvDeleteVolume driver dopt, Call.dbDeleteVolume ctx volumeRef.Id]
    match env.dbDeleteVolume ctx volumeRef.Id s1 with
    | (some _, s2) =>
      { vgUpdate := { acc.vgUpdate with Status := VolumeGroupError },
        volumesUpdate := acc.volumesUpdate, calls := calls, state := s2 }
    | (none, s2) =>
      { vgUpdate := acc.vgUpdate, volumesUpdate := acc.volumesUpdate, calls := calls, state := s2 }

/-- The method `deleteGroupGeneric`: the group update and the volume updates
it returns, with the calls it made and the world it leaves. -/
def deleteGroupGeneric {σ : Type} (env : Env σ) (s : σ) (driver : VolumeDriver)
    (vg : VolumeGroupSpec) (volumes : List VolumeSpec) (opt : DeleteVolumeGroupOpts) :
    GenericDelete σ :=
  let vgUpdate : VolumeGroupSpec := { BaseModel := { Id := vg.Id }, Status := vg.Status }
  volumes.foldl (deleteGroupGenericStep env driver opt)
    { vgUpdate := vgUpdate, volumesUpdate := [], calls := [], state := s }

/-- The attach check of `DeleteVolumeGroup`: the member at which the loop over
`volumes` returns, if it does. -/
def firstAttached : List VolumeSpec → Option VolumeSpec
  | [] => none
  | vol :: rest => if vol.AttachStatus == VolumeAttached then some vol else firstAttached rest

/-- The text of the attach error of `DeleteVolumeGroup`. -/
def stillAttachedMsg (vol : VolumeSpec) : String :=
  "Volume " ++ vol.Id ++ " is still attached, need to detach first."

/-- What `DeleteVolumeGroup` returns: its last statement returns the group
update and the volume updates ahead of the envelope and the error; the early
returns leave the two updates nil. -/
structure DeleteGroupRpc (σ : Type) where
  groupUpdate : Option VolumeGroupSpec := none
  volumesUpdate : List VolumeSpec := []
  res : GenericResponse
  err : Option GoError
  calls : List Call
  state : σ

/-- The body of `DeleteVolumeGroup`, after the driver is initialised. -/
def DeleteVolumeGroupBody {σ : Type} (env : Env σ) (drv : VolumeDriver) (s1 : σ)
    (opt : DeleteVolumeGroupOpts) : DeleteGroupRpc σ :=
  let ctx := NewContextFromJson opt.Context
  let c1 := [Call.dbListVolumesByGroupId ctx opt.Id]
  match env.ListVolumesByGroupId s1 ctx opt.Id with
  | .error err =>
    { res := { Reply := GenericResponseError "400" err.Error }, err := some err, calls := c1, state := s1 }
  | .ok volumes =>
    match firstAttached volumes with
    | some vol =>
      let err := errorsNew (stillAttachedMsg vol)
      { res := { Reply := GenericResponseError "400" err.Error }, err := some err, calls := c1, state := s1 }
    | none =>
      let c2 := c1 ++ [Call.dbGetVolumeGroup ctx opt.Id]
      match env.GetVolumeGroup s1 ctx opt.Id with
      | .error err =>
        { res := { Reply := GenericResponseError "400" err.Error }, err := some err, calls := c2, state := s1 }
      | .ok group =>
        let c3 := c2 ++ [Call.drvDeleteVolumeGroup drv opt group volumes]
        match env.drvDeleteVolumeGroup drv opt group volumes s1 with
        | ((groupUpdate, volumesUpdate, some err), s2) =>
          if err.isNotImplement then
            let g := deleteGroupGeneric env s2 drv group volumes opt
            { groupUpdate := some g.vgUpdate, volumesUpdate := g.volumesUpdate,
              res := {}, err := some err, calls := c3 ++ g.calls, state := g.state }
          else
            { groupUpdate := groupUpdate, volumesUpdate := volumesUpdate,
              res := { Reply := GenericResponseError "400" err.Error }, err := some err,
              calls := c3, state := s2 }
        | ((groupUpdate, volumesUpdate, none), s2) =>
          { groupUpdate := groupUpdate, volumesUpdate := volumesUpdate,
            res := {}, err := none, calls := c3, state := s2 }

/-- The handler `DeleteVolumeGroup`. -/
def DeleteVolumeGroup {σ : Type} (env : Env σ) (s : σ) (opt : DeleteVolumeGroupOpts) :
    DeleteGroupRpc σ :=
  let (drv, s1) := env.Init opt.DriverName s
  let r := DeleteVolumeGroupBody env drv s1 opt
  { groupUpdate := r.groupUpdate, volumesUpdate := r.volumesUpdate, res := r.res, err := r.err,
    calls := Call.driversInit opt.DriverName :: (r.calls ++ [Call.driversClean drv]),
    state := env.Clean drv r.state }

/-- The text of the connector error of `AttachVolume` and `DetachVolume`. -/
def noConnectorMsg (accessProtocol : String) : String :=
  "Can not find connector (" ++ accessProtocol ++ ")!"

/-- The handler `AttachVolume`. -/
def AttachVolume {σ : Type} (env : Env σ) (s : σ) (opt : AttachVolumeOpts) : Rpc σ :=
  let c1 := [Call.jsonUnmarshal opt.ConnectionData]
  match env.jsonUnmarshal opt.ConnectionData with
  | .error err =>
    { res := pbGenericResponseError env.errCode err, err := some err, calls := c1, state := s }
  | .ok connData =>
    let c2 := c1 ++ [Call.newConnector opt.AccessProtocol]
    match env.NewConnector s opt.AccessProtocol with
    | none =>
      let err := errorsNew (noConnectorMsg opt.AccessProtocol)
      { res := pbGenericResponseError env.errCode err, err := some err, calls := c2, state := s }
    | some con =>
      let c3 := c2 ++ [Call.conAttach con connData]
      match env.Attach con connData s with
      | (.error err, s1) =>
        { res := pbGenericResponseError env.errCode err, err := some err, calls := c3, state := s1 }
      | (.ok atc, s1) =>
        { res := pbGenericResponseResult (.text atc), err := none, calls := c3, state := s1 }

/-- The handler `DetachVolume`. -/
def DetachVolume {σ : Type} (env : Env σ) (s : σ) (opt : DetachVolumeOpts) : Rpc σ :=
  let c1 := [Call.jsonUnmarshal opt.ConnectionData]
  match env.jsonUnmarshal opt.ConnectionData with
  | .error err =>
    { res := pbGenericResponseError env.errCode err, err := some err, calls := c1, state := s }
  | .ok connData =>
    let c2 := c1 ++ [Call.newConnector opt.AccessProtocol]
    match env.NewConnector s opt.AccessProtocol with
    | none =>
      let err := errorsNew (noConnectorMsg opt.AccessProtocol)
      { res := pbGenericResponseError env.errCode err, err := some err, calls := c2, state := s }
    | some con =>
      let c3 := c2 ++ [Call.conDetach con connData]
      match env.Detach con connData s with
      | (some err, s1) =>
        { res := pbGenericResponseError env.errCode err, err := some err, calls := c3, state := s1 }
      | (none, s1) =>
        { res := pbGenericResponseResult .nil, err := none, calls := c3, state := s1 }

/-! ## The remaining handlers of `dock.go` -/

/-- The handler `DeleteVolume`. -/
def DeleteVolume {σ : Type} (env : Env σ) (s : σ) (opt : DeleteVolumeOpts) : Rpc σ :=
  initDeferClean env opt.DriverName s fun drv s1 =>
    match env.drvDeleteVolume drv opt s1 with
    | (some err, s2) =>
      { res := pbGenericResponseError env.errCode err, err := some err,
        calls := [Call.drvDeleteVolume drv opt], state := s2 }
    | (none, s2) =>
      { res := pbGenericResponseResult .nil, err := none,
        calls := [Call.drvDeleteVolume drv opt], state := s2 }

/-- The handler `ExtendVolume`. -/
def ExtendVolume {σ : Type} (env : Env σ) (s : σ) (opt : ExtendVolumeOpts) : Rpc σ :=
  initDeferClean env opt.DriverName s fun drv s1 =>
    match env.drvExtendVolume drv opt s1 with
    | ((_, some err), s2) =>
      { res := pbGenericResponseError env.errCode err, err := some err,
        calls := [Call.drvExtendVolume drv opt], state := s2 }
    | ((vol, none), s2) =>
      { res := pbGenericResponseResult (match vol with | some v => .volume v | none => .nil),
        err := none, calls := [Call.drvExtendVolume drv opt], state := s2 }

/-- What a handler that may dereference a nil pointer comes to: it returns, or
it panics; the deferred calls run in both cases. -/
inductive Ret (σ : Type) where
  | returned (r : Rpc σ)
  | panicked (calls : List Call) (state : σ)

/-- The collaborator calls made, whether the handler returned or panicked. -/
def Ret.calls {σ : Type} : Ret σ → List Call
  | .returned r => r.calls
  | .panicked calls _ => calls

/-- The prologue `ds.Driver = drivers.Init(name); defer drivers.Clean(ds.Driver)`
of a handler that may panic: the deferred call also runs when the body panics. -/
def initDeferCleanRet {σ : Type} (env : Env σ) (driverName : String) (s : σ)
    (body : VolumeDriver → σ → Ret σ) : Ret σ :=
  let (drv, s1) := env.Init driverName s
  match body drv s1 with
  | .returned r =>
    .returned { res := r.res, err := r.err,
                calls := Call.driversInit driverName :: (r.calls ++ [Call.driversClean drv]),
                state := env.Clean drv r.state }
  | .panicked calls s2 =>
    .panicked (Call.driversInit driverName :: (calls ++ [Call.driversClean drv]))
      (env.Clean drv s2)

/-- The handler `CreateVolumeAttachment`; `*connInfo` panics on a nil pointer. -/
def CreateVolumeAttachment {σ : Type} (env : Env σ) (s : σ)
    (opt : CreateVolumeAttachmentOpts) : Ret σ :=
  initDeferCleanRet env opt.DriverName s fun drv s1 =>
    match env.drvInitializeConnection drv opt s1 with
    | ((_, some err), s2) =>
      .returned { res := pbGenericResponseError env.errCode err, err := some err,
                  calls := [Call.drvInitializeConnection drv opt], state := s2 }
    | ((none, none), s2) => .panicked [Call.drvInitializeConnection drv opt] s2
    | ((some connInfo, none), s2) =>
      let host : HostInfo := opt.HostInfo.getD {}
      let atc : VolumeAttachmentSpec :=
        { BaseModel := { Id := opt.Id },
          VolumeId := opt.VolumeId,
          HostInfo := { Platform := host.Platform, OsType := host.OsType, Ip := host.Ip,
                        Host := host.Host, Initiator := host.Initiator },
          ConnectionInfo := connInfo,
          Metadata := opt.Metadata }
      .returned { res := pbGenericResponseResult (.attachment atc), err := none,
                  calls := [Call.drvInitializeConnection drv opt], state := s2 }

/-- The handler `DeleteVolumeAttachment`. -/
def DeleteVolumeAttachment {σ : Type} (env : Env σ) (s : σ)
    (opt : DeleteVolumeAttachmentOpts) : Rpc σ :=
  initDeferClean env opt.DriverName s fun drv s1 =>
    match env.drvTerminateConnection drv opt s1 with
    | (some err, s2) =>
      { res := pbGenericResponseError env.errCode err, err := some err,
        calls := [Call.drvTerminateConnection drv opt], state := s2 }
    | (none, s2) =>
      { res := pbGenericResponseResult .nil, err := none,
        calls := [Call.drvTerminateConnection drv opt], state := s2 }

/-- The handler `CreateVolumeSnapshot`. -/
def CreateVolumeSnapshot {σ : Type} (env : Env σ) (s : σ)
    (opt : CreateVolumeSnapshotOpts) : Rpc σ :=
  initDeferClean env opt.DriverName s fun drv s1 =>
    match env.drvCreateSnapshot drv opt s1 with
    | ((_, some err), s2) =>
      { res := pbGenericResponseError env.errCode err, err := some err,
        calls := [Call.drvCreateSnapshot drv opt], state := s2 }
    | ((snp, none), s2) =>
      { res := pbGenericResponseResult (match snp with | some p => .snapshot p | none => .nil),
        err := none, calls := [Call.drvCreateSnapshot drv opt], state := s2 }

/-- The handler `DeleteVolumeSnapshot`. -/
def DeleteVolumeSnapshot {σ : Type} (env : Env σ) (s : σ)
    (opt : DeleteVolumeSnapshotOpts) : Rpc σ :=
  initDeferClean env opt.DriverName s fun drv s1 =>
    match env.drvDeleteSnapshot drv opt s1 with
    | (some err, s2) =>
      { res := pbGenericResponseError env.errCode err, err := some err,
        calls := [Call.drvDeleteSnapshot drv opt], state := s2 }
    | (none, s2) =>
      { res := pbGenericResponseResult .nil, err := none,
        calls := [Call.drvDeleteSnapshot drv opt], state := s2 }

/-- The prologue of a replication handler:
`driver, _ := drivers.InitReplicationDriver(name); defer drivers.CleanReplicationDriver(driver)`.
The error of the resolution is assigned to the blank identifier; the deferred
call runs when the handler returns and when it panics. -/
def initReplicationDeferClean {σ : Type} (env : Env σ) (driverName : String) (s : σ)
    (body : Option ReplicationDriver → σ → Ret σ) : Ret σ :=
  match env.InitReplicationDriver driverName s with
  | ((driver, _), s1) =>
    match body driver s1 with
    | .returned r =>
      .returned { res := r.res, err := r.err,
                  calls := Call.initReplicationDriver driverName ::
                    (r.calls ++ [Call.cleanReplicationDriver driver]),
                  state := env.CleanReplicationDriver driver r.state }
    | .panicked calls s2 =>
      .panicked (Call.initReplicationDriver driverName ::
        (calls ++ [Call.cleanReplicationDriver driver]))
        (env.CleanReplicationDriver driver s2)

/-- The handler `CreateReplication`; a method call on a nil driver and the
assignment `replica.PoolId = ...` on a nil replica panic. -/
def CreateReplication {σ : Type} (env : Env σ) (s : σ) (opt : CreateReplicationOpts) : Ret σ :=
  initReplicationDeferClean env opt.DriverName s fun driver s1 =>
    match driver with
    | none => .panicked [] s1
    | some d =>
      match env.repCreateReplication d opt s1 with
      | ((_, some err), s2) =>
        .returned { res := pbGenericResponseError env.errCode err, err := some err,
                    calls := [Call.repCreateReplication d opt], state := s2 }
      | ((none, none), s2) => .panicked [Call.repCreateReplication d opt] s2
      | ((some replica, none), s2) =>
        let replica : ReplicationSpec :=
          { replica with PoolId := opt.PoolId, ProfileId := opt.ProfileId, Name := opt.Name }
        .returned { res := pbGenericResponseResult (.replication replica), err := none,
                    calls := [Call.repCreateReplication d opt], state := s2 }

/-- The common shape of `DeleteReplication`, `EnableReplication`,
`DisableReplication` and `FailoverReplication`: one driver operation `op`,
recorded as `call`, whose error decides the envelope. -/
def replicationOp {σ : Type} (env : Env σ) (driverName : String) (s : σ)
    (op : ReplicationDriver → σ → Option GoError × σ) (call : ReplicationDriver → Call) :
    Ret σ :=
  initReplicationDeferClean env driverName s fun driver s1 =>
    match driver with
    | none => .panicked [] s1
    | some d =>
      match op d s1 with
      | (some err, s2) =>
        .returned { res := pbGenericResponseError env.errCode err, err := some err,
                    calls := [call d], state := s2 }
      | (none, s2) =>
        .returned { res := pbGenericResponseResult .nil, err := none,
                    calls := [call d], state := s2 }

/-- The handler `DeleteReplication`. -/
def DeleteReplication {σ : Type} (env : Env σ) (s : σ) (opt : DeleteReplicationOpts) : Ret σ :=
  replicationOp env opt.DriverName s (fun d => env.repDeleteReplication d opt)
    (fun d => Call.repDeleteReplication d opt)

/-- The handler `EnableReplication`. -/
def EnableReplication {σ : Type} (env : Env σ) (s : σ) (opt : EnableReplicationOpts) : Ret σ :=
  replicationOp env opt.DriverName s (fun d => env.repEnableReplication d opt)
    (fun d => Call.repEnableReplication d opt)

/-- The handler `DisableReplication`. -/
def DisableReplication {σ : Type} (env : Env σ) (s : σ) (opt : DisableReplicationOpts) : Ret σ :=
  replicationOp env opt.DriverName s (fun d => env.repDisableReplication d opt)
    (fun d => Call.repDisableReplication d opt)

/-- The handler `FailoverReplication`. -/
def FailoverReplication {σ : Type} (env : Env σ) (s : σ) (opt : FailoverReplicationOpts) :
    Ret σ :=
  replicationOp env opt.DriverName s (fun d => env.repFailoverReplication d opt)
    (fun d => Call.repFailoverReplication d opt)

/-- One request to the dock server: the methods of the provisioning contract
and of the attach contract registered in `Run`, each with its options. -/
inductive Request where
  | createVolume (opt : CreateVolumeOpts)
  | deleteVolume (opt : DeleteVolumeOpts)
  | extendVolume (opt : ExtendVolumeOpts)
  | createVolumeAttachment (opt : CreateVolumeAttachmentOpts)
  | deleteVolumeAttachment (opt : DeleteVolumeAttachmentOpts)
  | createVolumeSnapshot (opt : CreateVolumeSnapshotOpts)
  | deleteVolumeSnapshot (opt : DeleteVolumeSnapshotOpts)
  | attachVolume (opt : AttachVolumeOpts)
  | detachVolume (opt : DetachVolumeOpts)
  | createReplication (opt : CreateReplicationOpts)
  | deleteReplication (opt : DeleteReplicationOpts)
  | enableReplication (opt : EnableReplicationOpts)
  | disableReplication (opt : DisableReplicationOpts)
  | failoverReplication (opt : FailoverReplicationOpts)
  | createVolumeGroup (opt : CreateVolumeGroupOpts)
  | updateVolumeGroup (opt : UpdateVolumeGroupOpts)
  | deleteVolumeGroup (opt : DeleteVolumeGroupOpts)

/-- The collaborator calls the handler of a request makes, in program order, on
whichever path it leaves. -/
def callsOf {σ : Type} (env : Env σ) (s : σ) : Request → List Call
  | .createVolume opt => (CreateVolume env s opt).calls
  | .deleteVolume opt => (DeleteVolume env s opt).calls
  | .extendVolume opt => (ExtendVolume env s opt).calls
  | .createVolumeAttachment opt => (CreateVolumeAttachment env s opt).calls
  | .deleteVolumeAttachment opt => (DeleteVolumeAttachment env s opt).calls
  | .createVolumeSnapshot opt => (CreateVolumeSnapshot env s opt).calls
  | .deleteVolumeSnapshot opt => (DeleteVolumeSnapshot env s opt).calls
  | .attachVolume opt => (AttachVolume env s opt).calls
  | .detachVolume opt => (DetachVolume env s opt).calls
  | .createReplication opt => (CreateReplication env s opt).calls
  | .deleteReplication opt => (DeleteReplication env s opt).calls
  | .enableReplication opt => (EnableReplication env s opt).calls
  | .disableReplication opt => (DisableReplication env s opt).calls
  | .failoverReplication opt => (FailoverReplication env s opt).calls
  | .createVolumeGroup opt => (CreateVolumeGroup env s opt).calls
  | .updateVolumeGroup opt => (UpdateVolumeGroup env s opt).calls
  | .deleteVolumeGroup opt => (DeleteVolumeGroup env s opt).calls

/-! ## The fake transport of the client tests (`client/volume_test.go`) -/

/-- The output target `out interface{}` of the transport, by its dynamic type:
a pointer to one of the six shapes the fake decodes into, with the value it
points to; the nil interface value; or a value of any other type. -/
inductive Out where
  | nil
  | volume (v : VolumeSpec)
  | volumes (l : List VolumeSpec)
  | attachment (a : VolumeAttachmentSpec)
  | attachments (l : List VolumeAttachmentSpec)
  | snapshot (p : VolumeSnapshotSpec)
  | snapshots (l : List VolumeSnapshotSpec)
  | other (typeName : String)
deriving DecidableEq, Repr

/-- What the fake transport depends on outside the test file: the canned texts
of `testutils/collection`, `json.Unmarshal` at each of the six target types (it
returns its error and the target as it leaves it), and the upper-case mapping of
the runes outside ASCII used by `strings.ToUpper`. -/
structure Fixture where
  ByteVolume : String
  ByteVolumes : String
  ByteAttachment : String
  ByteAttachments : String
  ByteSnapshot : String
  ByteSnapshots : String
  unmarshalVolume : String → VolumeSpec → Option GoError × VolumeSpec
  unmarshalVolumes : String → List VolumeSpec → Option GoError × List VolumeSpec
  unmarshalAttachment : String → VolumeAttachmentSpec → Option GoError × VolumeAttachmentSpec
  unmarshalAttachments :
    String → List VolumeAttachmentSpec → Option GoError × List VolumeAttachmentSpec
  unmarshalSnapshot : String → VolumeSnapshotSpec → Option GoError × VolumeSnapshotSpec
  unmarshalSnapshots : String → List VolumeSnapshotSpec → Option GoError × List VolumeSnapshotSpec
  upperRune : Char → Char

/-- The upper-case mapping of an ASCII character. -/
def asciiUpper (c : Char) : Char :=
  if 'a' ≤ c ∧ c ≤ 'z' then Char.ofNat (c.toNat - 32) else c

/-- The function `strings.ToUpper`: ASCII letters are mapped here, every other
rune by `upperRune`. -/
def stringsToUpper (upperRune : Char → Char) (s : String) : String :=
  ⟨s.data.map (fun c => if c.toNat < 128 then asciiUpper c else upperRune c)⟩

/-- The error of an output target the fake does not decode into. -/
def errOutputFormat : GoError := errorsNew "output format not supported!"

/-- The error of a verb the fake does not know. -/
def errMethodFormat : GoError := errorsNew "inputed method format not supported!"

/-- The method `fakeVolumeReceiver.Recv(f, url, method, in, out)`: the error it
returns and the output target as it leaves it.  The request function `f`, the
url and the input are not used by the fake. -/
def Recv (fx : Fixture) (_url : String) (method : String) (_input : Out) (out : Out) :
    Option GoError × Out :=
  let m := stringsToUpper fx.upperRune method
  if m = "POST" ∨ m = "PUT" then
    match out with
    | .volume v =>
      match fx.unmarshalVolume fx.ByteVolume v with
      | (some err, v1) => (some err, .volume v1)
      | (none, v1) => (none, .volume v1)
    | .attachment a =>
      match fx.unmarshalAttachment fx.ByteAttachment a with
      | (some err, a1) => (some err, .attachment a1)
      | (none, a1) => (none, .attachment a1)
    | .snapshot p =>
      match fx.unmarshalSnapshot fx.ByteSnapshot p with
      | (some err, p1) => (some err, .snapshot p1)
      | (none, p1) => (none, .snapshot p1)
    | _ => (some errOutputFormat, out)
  else if m = "GET" then
    match out with
    | .volume v =>
      match fx.unmarshalVolume fx.ByteVolume v with
      | (some err, v1) => (some err, .volume v1)
      | (none, v1) => (none, .volume v1)
    | .volumes l =>
      match fx.unmarshalVolumes fx.ByteVolumes l with
      | (some err, l1) => (some err, .volumes l1)
      | (none, l1) => (none, .volumes l1)
    | .attachment a =>
      match fx.unmarshalAttachment fx.ByteAttachment a with
      | (some err, a1) => (some err, .attachment a1)
      | (none, a1) => (none, .attachment a1)
    | .attachments l =>
      match fx.unmarshalAttachments fx.ByteAttachments l with
      | (some err, l1) => (some err, .attachments l1)
      | (none, l1) => (none, .attachments l1)
    | .snapshot p =>
      match fx.unmarshalSnapshot fx.ByteSnapshot p with
      | (some err, p1) => (some err, .snapshot p1)
      | (none, p1) => (none, .snapshot p1)
    | .snapshots l =>
      match fx.unmarshalSnapshots fx.ByteSnapshots l with
      | (some err, l1) => (some err, .snapshots l1)
      | (none, l1) => (none, .snapshots l1)
    | _ => (some errOutputFormat, out)
  else if m = "DELETE" then
    (none, out)
  else
    (some errMethodFormat, out)

/-! ## The volume client SDK (`client`) -/

/-- The transport contract `Receiver`: perform `method` against `url` with the
input, decode the response into the output target. -/
abbrev Receiver := String → String → Out → Out → Option GoError × Out

/-- The value `NewFakeVolumeReceiver()`. -/
def NewFakeVolumeReceiver (fx : Fixture) : Receiver := Recv fx

/-- The SDK object `VolumeMgr`, holding the injected transport. -/
structure VolumeMgr where
  Receiver : Receiver

/-- The test variable `fv`. -/
def fv (fx : Fixture) : VolumeMgr := { Receiver := NewFakeVolumeReceiver fx }

/-- The volume held by an output target after the call. -/
def Out.asVolume : Out → VolumeSpec
  | .volume v => v
  | _ => {}

/-- The volume sequence held by an output target after the call. -/
def Out.asVolumes : Out → List VolumeSpec
  | .volumes l => l
  | _ => []

/-- The attachment held by an output target after the call. -/
def Out.asAttachment : Out → VolumeAttachmentSpec
  | .attachment a => a
  | _ => {}

/-- The attachment sequence held by an output target after the call. -/
def Out.asAttachments : Out → List VolumeAttachmentSpec
  | .attachments l => l
  | _ => []

/-- The snapshot held by an output target after the call. -/
def Out.asSnapshot : Out → VolumeSnapshotSpec
  | .snapshot p => p
  | _ => {}

/-- The snapshot sequence held by an output target after the call. -/
def Out.asSnapshots : Out → List VolumeSnapshotSpec
  | .snapshots l => l
  | _ => []

/-- Modelled from the spec: the shape of every SDK operation that returns a
result (the SDK sources are not among the sources): perform `method` against
the resource path with the input, decode into a fresh target `out`, and return
the error, or the target read back by `get`. -/
def sdkCall {α : Type} (m : VolumeMgr) (url method : String) (input out : Out)
    (get : Out → α) : Except GoError α :=
  match m.Receiver url method input out with
  | (some err, _) => .error err
  | (none, res) => .ok (get res)

/-- Modelled from the spec: `VolumeMgr.CreateVolume(spec)`, POST on the volumes collection. -/
def VolumeMgr.CreateVolume (m : VolumeMgr) (body : VolumeSpec) : Except GoError VolumeSpec :=
  sdkCall m "volumes" "POST" (.volume body) (.volume {}) Out.asVolume

/-- Modelled from the spec: `VolumeMgr.GetVolume(id)`, GET on volumes/{id}. -/
def VolumeMgr.GetVolume (m : VolumeMgr) (id : String) : Except GoError VolumeSpec :=
  sdkCall m ("volumes/" ++ id) "GET" .nil (.volume {}) Out.asVolume

/-- Modelled from the spec: `VolumeMgr.ListVolumes()`, GET on the volumes collection. -/
def VolumeMgr.ListVolumes (m : VolumeMgr) : Except GoError (List VolumeSpec) :=
  sdkCall m "volumes" "GET" .nil (.volumes []) Out.asVolumes

/-- Modelled from the spec: `VolumeMgr.UpdateVolume(id, spec)`, PUT on volumes/{id}. -/
def VolumeMgr.UpdateVolume (m : VolumeMgr) (id : String) (body : VolumeSpec) :
    Except GoError VolumeSpec :=
  sdkCall m ("volumes/" ++ id) "PUT" (.volume body) (.volume {}) Out.asVolume

/-- Modelled from the spec: `VolumeMgr.DeleteVolume(id, spec)`, DELETE on
volumes/{id}, with no output target. -/
def VolumeMgr.DeleteVolume (m : VolumeMgr) (id : String) (body : VolumeSpec) : Option GoError :=
  (m.Receiver ("volumes/" ++ id) "DELETE" (.volume body) .nil).1

/-- Modelled from the spec: `VolumeMgr.CreateVolumeAttachment(spec)`, POST on the
attachments collection. -/
def VolumeMgr.CreateVolumeAttachment (m : VolumeMgr) (body : VolumeAttachmentSpec) :
    Except GoError VolumeAttachmentSpec :=
  sdkCall m "attachments" "POST" (.attachment body) (.attachment {}) Out.asAttachment

/-- Modelled from the spec: `VolumeMgr.GetVolumeAttachment(id)`, GET on attachments/{id}. -/
def VolumeMgr.GetVolumeAttachment (m : VolumeMgr) (id : String) :
    Except GoError VolumeAttachmentSpec :=
  sdkCall m ("attachments/" ++ id) "GET" .nil (.attachment {}) Out.asAttachment

/-- Modelled from the spec: `VolumeMgr.ListVolumeAttachments()`, GET on the
attachments collection. -/
def VolumeMgr.ListVolumeAttachments (m : VolumeMgr) :
    Except GoError (List VolumeAttachmentSpec) :=
  sdkCall m "attachments" "GET" .nil (.attachments []) Out.asAttachments

/-- Modelled from the spec: `VolumeMgr.UpdateVolumeAttachment(id, spec)`, PUT on
attachments/{id}. -/
def VolumeMgr.UpdateVolumeAttachment (m : VolumeMgr) (id : String)
    (body : VolumeAttachmentSpec) : Except GoError VolumeAttachmentSpec :=
  sdkCall m ("attachments/" ++ id) "PUT" (.attachment body) (.attachment {}) Out.asAttachment

/-- Modelled from the spec: `VolumeMgr.DeleteVolumeAttachment(id, spec)`, DELETE on
attachments/{id}, with no output target. -/
def VolumeMgr.DeleteVolumeAttachment (m : VolumeMgr) (id : String)
    (body : VolumeAttachmentSpec) : Option GoError :=
  (m.Receiver ("attachments/" ++ id) "DELETE" (.attachment body) .nil).1

/-- Modelled from the spec: `VolumeMgr.CreateVolumeSnapshot(spec)`, POST on the
snapshots collection. -/
def VolumeMgr.CreateVolumeSnapshot (m : VolumeMgr) (body : VolumeSnapshotSpec) :
    Except GoError VolumeSnapshotSpec :=
  sdkCall m "snapshots" "POST" (.snapshot body) (.snapshot {}) Out.asSnapshot

/-- Modelled from the spec: `VolumeMgr.GetVolumeSnapshot(id)`, GET on snapshots/{id}. -/
def VolumeMgr.GetVolumeSnapshot (m : VolumeMgr) (id : String) :
    Except GoError VolumeSnapshotSpec :=
  sdkCall m ("snapshots/" ++ id) "GET" .nil (.snapshot {}) Out.asSnapshot

/-- Modelled from the spec: `VolumeMgr.ListVolumeSnapshots()`, GET on the
snapshots collection. -/
def VolumeMgr.ListVolumeSnapshots (m : VolumeMgr) : Except GoError (List VolumeSnapshotSpec) :=
  sdkCall m "snapshots" "GET" .nil (.snapshots []) Out.asSnapshots

/-- Modelled from the spec: `VolumeMgr.UpdateVolumeSnapshot(id, spec)`, PUT on
snapshots/{id}. -/
def VolumeMgr.UpdateVolumeSnapshot (m : VolumeMgr) (id : String) (body : VolumeSnapshotSpec) :
    Except GoError VolumeSnapshotSpec :=
  sdkCall m ("snapshots/" ++ id) "PUT" (.snapshot body) (.snapshot {}) Out.asSnapshot

/-- Modelled from the spec: `VolumeMgr.DeleteVolumeSnapshot(id, spec)`, DELETE on
snapshots/{id}, with no output target. -/
def VolumeMgr.DeleteVolumeSnapshot (m : VolumeMgr) (id : String) (body : VolumeSnapshotSpec) :
    Option GoError :=
  (m.Receiver ("snapshots/" ++ id) "DELETE" (.snapshot body) .nil).1

/-! ## Specification-side definitions -/

/-- The status allow-list of a mode, in the words of the spec: adds require
*available* or *in-use*; removes additionally allow *error* and *error-deleting*. -/
def allowedStatuses (add : Bool) : List String :=
  if add then [VolumeAvailable, VolumeInUse]
  else [VolumeAvailable, VolumeInUse, VolumeError, VolumeErrorDeleting]

/-- What the deletion of one member of a group came to: the driver refused to
delete it, the driver deleted it and the persistence layer then refused to
delete its record, or both deletions went through. -/
inductive MemberOutcome where
  | driverFailed
  | dbFailed
  | deleted
deriving DecidableEq, Repr

/-- The answers of the collaborators along a member-by-member deletion that
starts in the world `s`: each member is handed to the driver's DeleteVolume in
turn, and to the persistence DeleteVolume when the driver raised no error. -/
def memberOutcomes {σ : Type} (env : Env σ) (driver : VolumeDriver)
    (opt : DeleteVolumeGroupOpts) : σ → List VolumeSpec → List MemberOutcome
  | _, [] => []
  | s, volumeRef :: rest =>
    match env.drvDeleteVolume driver { Metadata := volumeRef.Metadata } s with
    | (some _, s1) => .driverFailed :: memberOutcomes env driver opt s1 rest
    | (none, s1) =>
      match env.dbDeleteVolume (NewContextFromJson opt.Context) volumeRef.Id s1 with
      | (some _, s2) => .dbFailed :: memberOutcomes env driver opt s2 rest
      | (none, s2) => .deleted :: memberOutcomes env driver opt s2 rest

/-- The volume update that marks the member `v` with status Error: its Id and nothing else. -/
def errorUpdate (v : VolumeSpec) : VolumeSpec :=
  { BaseModel := { Id := v.Id }, Status := VolumeError }

/-- The driver call that deletes the member `v`. -/
def driverDeleteCall (driver : VolumeDriver) (v : VolumeSpec) : Call :=
  Call.drvDeleteVolume driver { Metadata := v.Metadata }

/-- The persistence call that deletes the record of the member `v`. -/
def dbDeleteCall (opt : DeleteVolumeGroupOpts) (v : VolumeSpec) : Call :=
  Call.dbDeleteVolume (NewContextFromJson opt.Context) v.Id

/-- The handler returns the error envelope of `err` together with `err`. -/
def errorReturn {σ : Type} (env : Env σ) (err : GoError) (calls : List Call) (state : σ) :
    Ret σ :=
  .returned { res := pbGenericResponseError env.errCode err, err := some err,
              calls := calls, state := state }

/-- The handler returns the success envelope wrapping `message` together with a nil error. -/
def successReturn {σ : Type} (message : Payload) (calls : List Call) (state : σ) : Ret σ :=
  .returned { res := pbGenericResponseResult message, err := none,
              calls := calls, state := state }

/-- The host-side requests, which go to a connector and not to a storage driver. -/
def Request.isHostSide : Request → Bool
  | .attachVolume _ => true
  | .detachVolume _ => true
  | _ => false

/-- The initialisation call a driver-backed request starts with: the volume
driver's `drivers.Init`, or for a replication request `drivers.InitReplicationDriver`,
on the driver name of the request. -/
def Request.initCall : Request → Option Call
  | .createVolume opt => some (.driversInit opt.DriverName)
  | .deleteVolume opt => some (.driversInit opt.DriverName)
  | .extendVolume opt => some (.driversInit opt.DriverName)
  | .createVolumeAttachment opt => some (.driversInit opt.DriverName)
  | .deleteVolumeAttachment opt => some (.driversInit opt.DriverName)
  | .createVolumeSnapshot opt => some (.driversInit opt.DriverName)
  | .deleteVolumeSnapshot opt => some (.driversInit opt.DriverName)
  | .attachVolume _ => none
  | .detachVolume _ => none
  | .createReplication opt => some (.initReplicationDriver opt.DriverName)
  | .deleteReplication opt => some (.initReplicationDriver opt.DriverName)
  | .enableReplication opt => some (.initReplicationDriver opt.DriverName)
  | .disableReplication opt => some (.initReplicationDriver opt.DriverName)
  | .failoverReplication opt => some (.initReplicationDriver opt.DriverName)
  | .createVolumeGroup opt => some (.driversInit opt.DriverName)
  | .updateVolumeGroup opt => some (.driversInit opt.DriverName)
  | .deleteVolumeGroup opt => some (.driversInit opt.DriverName)

/-- The clean call on the driver that the initialisation of this request
returned in the world `s`. -/
def Request.cleanCall {σ : Type} (env : Env σ) (s : σ) : Request → Option Call
  | .createVolume opt => some (.driversClean (env.Init opt.DriverName s).1)
  | .deleteVolume opt => some (.driversClean (env.Init opt.DriverName s).1)
  | .extendVolume opt => some (.driversClean (env.Init opt.DriverName s).1)
  | .createVolumeAttachment opt => some (.driversClean (env.Init opt.DriverName s).1)
  | .deleteVolumeAttachment opt => some (.driversClean (env.Init opt.DriverName s).1)
  | .createVolumeSnapshot opt => some (.driversClean (env.Init opt.DriverName s).1)
  | .deleteVolumeSnapshot opt => some (.driversClean (env.Init opt.DriverName s).1)
  | .attachVolume _ => none
  | .detachVolume _ => none
  | .createReplication opt =>
    some (.cleanReplicationDriver (env.InitReplicationDriver opt.DriverName s).1.1)
  | .deleteReplication opt =>
    some (.cleanReplicationDriver (env.InitReplicationDriver opt.DriverName s).1.1)
  | .enableReplication opt =>
    some (.cleanReplicationDriver (env.InitReplicationDriver opt.DriverName s).1.1)
  | .disableReplication opt =>
    some (.cleanReplicationDriver (env.InitReplicationDriver opt.DriverName s).1.1)
  | .failoverReplication opt =>
    some (.cleanReplicationDriver (env.InitReplicationDriver opt.DriverName s).1.1)
  | .createVolumeGroup opt => some (.driversClean (env.Init opt.DriverName s).1)
  | .updateVolumeGroup opt => some (.driversClean (env.Init opt.DriverName s).1)
  | .deleteVolumeGroup opt => some (.driversClean (env.Init opt.DriverName s).1)

/-- The calls of a request are bracketed by an initialisation and a clean: they
start with `init`, end with `clean`, and hold no other initialisation or clean. -/
def Bracketed (calls : List Call) (init clean : Call) : Prop :=
  ∃ middle, calls = init :: (middle ++ [clean]) ∧ ∀ c ∈ middle, c.isInitOrClean = false

/-- The six output shapes of the spec: VolumeSpec, []VolumeSpec,
VolumeAttachmentSpec, []VolumeAttachmentSpec, VolumeSnapshotSpec, []VolumeSnapshotSpec. -/
def Out.isSupportedShape : Out → Bool
  | .volume _ => true
  | .volumes _ => true
  | .attachment _ => true
  | .attachments _ => true
  | .snapshot _ => true
  | .snapshots _ => true
  | _ => false

/-- The local error mirrors the envelope: it is non-nil exactly when the
envelope is an error envelope, and nil exactly when it is a success envelope. -/
def Mirrors (res : GenericResponse) (err : Option GoError) : Prop :=
  (err.isSome = true ↔ res.isError = true) ∧ (err.isNone = true ↔ res.isResult = true)

/-- The volume `vol` of the request is offending: it is the record of an id of
`AddVolumes` with a status outside the add allow-list, or of an id of
`RemoveVolumes` with a status outside the remove allow-list. -/
def Offending {σ : Type} (env : Env σ) (s1 : σ) (opt : UpdateVolumeGroupOpts)
    (vol : VolumeSpec) : Prop :=
  (∃ v ∈ opt.AddVolumes, env.GetVolume s1 (NewContextFromJson opt.Context) v = .ok vol ∧
    vol.Status ∉ allowedStatuses true) ∨
  (∃ v ∈ opt.RemoveVolumes, env.GetVolume s1 (NewContextFromJson opt.Context) v = .ok vol ∧
    vol.Status ∉ allowedStatuses false)

/-- The text `msg` names `part`: `part` occurs in it. -/
def Names (msg part : String) : Prop := ∃ pre post : String, msg = pre ++ part ++ post

/-! ## A sample world

A small concrete backend on which the statements below are evaluated.  The
world is the list of the ids of the persistence records deleted so far. -/

/-- A sample volume record. -/
def sampleVolume (id status attachStatus : String) : VolumeSpec :=
  { BaseModel := { Id := id }, Status := status, AttachStatus := attachStatus,
    Metadata := [("id", id)] }

/-- A sample group record. -/
def sampleGroup (id status : String) : VolumeGroupSpec :=
  { BaseModel := { Id := id }, Status := status }

/-- The sample collaborators: a driver that implements none of the group
operations and fails to delete the volume "v-err", a persistence layer with
four volumes and four groups, a connector registry knowing only "iscsi", and a
replication driver registry that resolves "sample", resolves "broken" with a
setup error, and resolves no other name. -/
def sampleEnv : Env (List String) where
  Init := fun _ s => (⟨0⟩, s)
  Clean := fun _ s => s
  drvCreateVolume := fun _ opt s =>
    ((some { BaseModel := { Id := opt.Id }, Name := opt.Name }, none), s)
  drvDeleteVolume := fun _ opt s =>
    (if opt.Metadata = [("id", "v-err")] then some (.other "backend failure") else none, s)
  drvCreateVolumeGroup := fun _ _ _ s => ((none, some (.notImplement "not implemented")), s)
  drvUpdateVolumeGroup := fun _ _ _ _ _ s => (some (.notImplement "not implemented"), s)
  drvDeleteVolumeGroup := fun _ _ _ _ s => ((none, [], some (.notImplement "not implemented")), s)
  GetVolume := fun s _ id =>
    if id ∈ s then .error (.other "volume not found")
    else if id = "v-ok" then .ok (sampleVolume "v-ok" VolumeAvailable "")
    else if id = "v-use" then .ok (sampleVolume "v-use" VolumeInUse VolumeAttached)
    else if id = "v-err" then .ok (sampleVolume "v-err" VolumeError "")
    else if id = "v-new" then .ok (sampleVolume "v-new" "creating" "")
    else .error (.other "volume not found")
  ListVolumesByGroupId := fun _ _ id =>
    if id = "g1" then .ok [sampleVolume "v-err" VolumeError "", sampleVolume "v-ok" VolumeAvailable ""]
    else if id = "g2" then
      .ok [sampleVolume "v-ok" VolumeAvailable "", sampleVolume "v-use" VolumeInUse VolumeAttached]
    else if id = "g3" then .ok []
    else if id = "g4" then .ok []
    else .error (.other "group not found")
  GetVolumeGroup := fun _ _ id =>
    if id = "g1" then .ok (sampleGroup "g1" "available")
    else if id = "g2" then .ok (sampleGroup "g2" "available")
    else if id = "g3" then .ok (sampleGroup "g3" "available")
    else if id = "g4" then .ok (sampleGroup "g4" VolumeGroupError)
    else .error (.other "group not found")
  dbDeleteVolume := fun _ id s => (none, s ++ [id])
  jsonUnmarshal := fun data => if data = "\x7b\x7d" then .ok [] else .error (.other "invalid json")
  NewConnector := fun _ accessProtocol => if accessProtocol = "iscsi" then some ⟨0⟩ else none
  Attach := fun _ _ s => (.ok "/dev/sdb", s)
  Detach := fun _ _ s => (none, s)
  errCode := "400"
  drvExtendVolume := fun _ opt s =>
    ((some { BaseModel := { Id := opt.Id }, Size := opt.Size }, none), s)
  drvInitializeConnection := fun _ _ s => ((some { DriverVolumeType := "iscsi" }, none), s)
  drvTerminateConnection := fun _ _ s => (none, s)
  drvCreateSnapshot := fun _ opt s =>
    ((some { BaseModel := { Id := opt.Id }, Name := opt.Name, VolumeId := opt.VolumeId }, none), s)
  drvDeleteSnapshot := fun _ _ s => (none, s)
  InitReplicationDriver := fun driverName s =>
    if driverName = "sample" then ((some ⟨0⟩, none), s)
    else if driverName = "broken" then ((some ⟨1⟩, some (.other "replication driver setup failed")), s)
    else ((none, some (.other "unknown replication driver")), s)
  CleanReplicationDriver := fun _ s => s
  repCreateReplication := fun _ opt s => ((some { BaseModel := { Id := opt.Id } }, none), s)
  repDeleteReplication := fun _ _ s => (none, s)
  repEnableReplication := fun _ _ s => (none, s)
  repDisableReplication := fun _ _ s => (none, s)
  repFailoverReplication := fun _ _ s => (none, s)

/-- A sample update request: add "v-ok", remove "v-new" (whose status is "creating"). -/
def sampleUpdateBadRemove : UpdateVolumeGroupOpts :=
  { Id := "g1", AddVolumes := ["v-ok"], RemoveVolumes := ["v-new"] }

/-- A sample update request: add the unknown id "v-gone" and then "v-err" (whose status is error). -/
def sampleUpdateMissingFirst : UpdateVolumeGroupOpts :=
  { Id := "g1", AddVolumes := ["v-gone", "v-err"] }

/-- A sample delete request for the group "g2", whose second member is attached. -/
def sampleDeleteAttached : DeleteVolumeGroupOpts := { Id := "g2", DriverName := "sample" }

/-- A sample delete request for the group "g1": the driver fails on its first
member "v-err" and deletes its second member "v-ok". -/
def sampleDeletePartial : DeleteVolumeGroupOpts := { Id := "g1", DriverName := "sample" }

/-- A sample create request for the group "g1". -/
def sampleCreateGroup : CreateVolumeGroupOpts := { Id := "g1", DriverName := "sample" }

/-- A sample delete request for the group "g3", which has no member volumes. -/
def sampleDeleteEmpty : DeleteVolumeGroupOpts := { Id := "g3", DriverName := "sample" }

/-- A sample attach request for the protocol "nvme", which has no registered connector. -/
def sampleAttachUnknown : AttachVolumeOpts :=
  { AccessProtocol := "nvme", ConnectionData := "\x7b\x7d" }

/-- A sample attach request for the registered protocol "iscsi". -/
def sampleAttachIscsi : AttachVolumeOpts :=
  { AccessProtocol := "iscsi", ConnectionData := "\x7b\x7d" }

/-- A sample replication request whose driver name no replication driver is registered for. -/
def sampleReplicationUnknown : CreateReplicationOpts :=
  { Id := "r1", Name := "replica", PoolId := "p1", ProfileId := "f1", DriverName := "nowhere" }

/-- A sample replication request whose driver resolves with a setup error. -/
def sampleReplicationBroken : CreateReplicationOpts :=
  { Id := "r1", Name := "replica", PoolId := "p1", ProfileId := "f1", DriverName := "broken" }

/-- The volume record the client tests expect. -/
def sampleCannedVolume : VolumeSpec :=
  { BaseModel := { Id := "bd5b12a8-a101-11e7-941e-d77981b584d8" },
    Name := "sample-volume",
    Description := "This is a sample volume for testing",
    Size := 1,
    Status := "available",
    PoolId := "084bf71e-a102-11e7-88a8-e31fe6d52248",
    ProfileId := "1106b972-66ef-11e7-b172-db03f3689c9c" }

/-- The attachment record the client tests expect. -/
def sampleCannedAttachment : VolumeAttachmentSpec :=
  { BaseModel := { Id := "f2dda3d2-bf79-11e7-8665-f750b088f63e" },
    Status := "available",
    VolumeId := "bd5b12a8-a101-11e7-941e-d77981b584d8",
    HostInfo := {},
    ConnectionInfo :=
      { DriverVolumeType := "iscsi",
        ConnectionData := [("targetDiscovered", "true"),
          ("targetIqn", "iqn.2017-10.io.opensds:volume:00000001"),
          ("targetPortal", "127.0.0.0.1:3260"), ("discard", "false")] } }

/-- The first snapshot record the client tests expect. -/
def sampleCannedSnapshot : VolumeSnapshotSpec :=
  { BaseModel := { Id := "3769855c-a102-11e7-b772-17b880d2f537" },
    Name := "sample-snapshot-01",
    Description := "This is the first sample snapshot for testing",
    Size := 1,
    Status := "created",
    VolumeId := "bd5b12a8-a101-11e7-941e-d77981b584d8" }

/-- The second snapshot record the client tests expect. -/
def sampleCannedSnapshot2 : VolumeSnapshotSpec :=
  { BaseModel := { Id := "3bfaf2cc-a102-11e7-8ecb-63aea739d755" },
    Name := "sample-snapshot-02",
    Description := "This is the second sample snapshot for testing",
    Size := 1,
    Status := "created",
    VolumeId := "bd5b12a8-a101-11e7-941e-d77981b584d8" }

/-- A sample fixture: each canned text decodes to the record or sequence the
client tests expect, any other text fails to decode and leaves the target as it
was, and runes outside ASCII are their own upper case. -/
def sampleFixture : Fixture where
  ByteVolume := "ByteVolume"
  ByteVolumes := "ByteVolumes"
  ByteAttachment := "ByteAttachment"
  ByteAttachments := "ByteAttachments"
  ByteSnapshot := "ByteSnapshot"
  ByteSnapshots := "ByteSnapshots"
  unmarshalVolume := fun data v =>
    if data = "ByteVolume" then (none, sampleCannedVolume)
    else (some (.other "unexpected end of JSON input"), v)
  unmarshalVolumes := fun data l =>
    if data = "ByteVolumes" then (none, [sampleCannedVolume])
    else (some (.other "unexpected end of JSON input"), l)
  unmarshalAttachment := fun data a =>
    if data = "ByteAttachment" then (none, sampleCannedAttachment)
    else (some (.other "unexpected end of JSON input"), a)
  unmarshalAttachments := fun data l =>
    if data = "ByteAttachments" then (none, [sampleCannedAttachment])
    else (some (.other "unexpected end of JSON input"), l)
  unmarshalSnapshot := fun data p =>
    if data = "ByteSnapshot" then (none, sampleCannedSnapshot)
    else (some (.other "unexpected end of JSON input"), p)
  unmarshalSnapshots := fun data l =>
    if data = "ByteSnapshots" then (none, [sampleCannedSnapshot, sampleCannedSnapshot2])
    else (some (.other "unexpected end of JSON input"), l)
  upperRune := fun c => c

/-! ## Status filtering of `getVolumesForGroup` -/

theorem getVolumesForGroupLoop_cons_ok {σ : Type} (env : Env σ) (s : σ)
    (opt : UpdateVolumeGroupOpts) (add : Bool) (v : String) (rest : List String)
    (vol : VolumeSpec) (volumesRef : List VolumeSpec) (calls : List Call)
    (hv : env.GetVolume s (NewContextFromJson opt.Context) v = .ok vol) :
    getVolumesForGroupLoop env s opt add (v :: rest) volumesRef calls =
      if vol.Status ∈ allowedStatuses add then
        getVolumesForGroupLoop env s opt add rest (volumesRef ++ [vol])
          (calls ++ [Call.dbGetVolume (NewContextFromJson opt.Context) v])
      else
        (.error (errorsNew (wrongStatusMsg vol)),
          calls ++ [Call.dbGetVolume (NewContextFromJson opt.Context) v]) := by
  cases add
  · by_cases h : vol.Status ∈ allowedStatuses false
    · rw [if_pos h]
      simp [allowedStatuses] at h
      simp only [getVolumesForGroupLoop, hv, Contained]
      simp
      tauto
    · rw [if_neg h]
      simp [allowedStatuses] at h
      simp only [getVolumesForGroupLoop, hv, Contained]
      simp
      tauto
  · by_cases h : vol.Status ∈ allowedStatuses true
    · rw [if_pos h]
      simp [allowedStatuses] at h
      simp only [getVolumesForGroupLoop, hv, Contained]
      simp
      tauto
    · rw [if_neg h]
      simp [allowedStatuses] at h
      simp only [getVolumesForGroupLoop, hv, Contained]
      simp
      tauto

theorem getVolumesForGroupLoop_ok_iff {σ : Type} (env : Env σ) (s : σ)
    (opt : UpdateVolumeGroupOpts) (add : Bool) (volumes : List String)
    (hlook : ∀ v ∈ volumes, ∃ vol, env.GetVolume s (NewContextFromJson opt.Context) v = .ok vol)
    (volumesRef : List VolumeSpec) (calls : List Call) :
    (∃ refs, (getVolumesForGroupLoop env s opt add volumes volumesRef calls).1 = .ok refs) ↔
      ∀ v ∈ volumes, ∀ vol, env.GetVolume s (NewContextFromJson opt.Context) v = .ok vol →
        vol.Status ∈ allowedStatuses add := by
  induction volumes generalizing volumesRef calls with
  | nil => simp [getVolumesForGroupLoop]
  | cons v rest ih =>
    obtain ⟨vol, hv⟩ := hlook v (List.mem_cons_self v rest)
    have hrest : ∀ w ∈ rest, ∃ vol,
        env.GetVolume s (NewContextFromJson opt.Context) w = .ok vol :=
      fun w hw => hlook w (List.mem_cons_of_mem v hw)
    rw [getVolumesForGroupLoop_cons_ok env s opt add v rest vol volumesRef calls hv]
    by_cases hst : vol.Status ∈ allowedStatuses add
    · rw [if_pos hst, ih hrest]
      constructor
      · intro h w hw vol2 hw2
        rcases List.mem_cons.mp hw with rfl | hw
        · rw [hv] at hw2
          cases hw2
          exact hst
        · exact h w hw vol2 hw2
      · intro h w hw vol2 hw2
        exact h w (List.mem_cons_of_mem v hw) vol2 hw2
    · rw [if_neg hst]
      constructor
      · rintro ⟨refs, h⟩
        cases h
      · intro h
        exact absurd (h v (List.mem_cons_self v rest) vol hv) hst

/-- C1: when every lookup succeeds, `getVolumesForGroup` succeeds exactly when
every looked-up volume has a status in the allow-list of the mode; and a volume
with status error is rejected when adding and accepted when removing. -/
theorem C1_getVolumesForGroup_status_filter {σ : Type} (env : Env σ) (s : σ)
    (opt : UpdateVolumeGroupOpts) (volumes : List String) (add : Bool)
    (hlook : ∀ v ∈ volumes, ∃ vol, env.GetVolume s (NewContextFromJson opt.Context) v = .ok vol) :
    ((∃ refs, (getVolumesForGroup env s opt volumes add).1 = .ok refs) ↔
      ∀ v ∈ volumes, ∀ vol, env.GetVolume s (NewContextFromJson opt.Context) v = .ok vol →
        vol.Status ∈ allowedStatuses add) ∧
    (∀ v vol, env.GetVolume s (NewContextFromJson opt.Context) v = .ok vol →
      vol.Status = VolumeError →
        (getVolumesForGroup env s opt [v] true).1 = .error (errorsNew (wrongStatusMsg vol)) ∧
        (getVolumesForGroup env s opt [v] false).1 = .ok [vol]) := by
  refine ⟨getVolumesForGroupLoop_ok_iff env s opt add volumes hlook [] [], ?_⟩
  intro v vol hv hst
  unfold getVolumesForGroup
  rw [getVolumesForGroupLoop_cons_ok env s opt true v [] vol [] [] hv,
    getVolumesForGroupLoop_cons_ok env s opt false v [] vol [] [] hv, hst]
  constructor
  · rw [if_neg (by decide)]
  · rw [if_pos (by decide)]
    rfl

/-- Witness of C1 on the sample world: removing the volumes "v-ok" and "v-err". -/
theorem C1_getVolumesForGroup_status_filter_witness :
    (∀ v ∈ ["v-ok", "v-err"], ∃ vol,
      sampleEnv.GetVolume [] (NewContextFromJson "") v = .ok vol) ∧
    (((∃ refs, (getVolumesForGroup sampleEnv [] {} ["v-ok", "v-err"] false).1 = .ok refs) ↔
      ∀ v ∈ ["v-ok", "v-err"], ∀ vol,
        sampleEnv.GetVolume [] (NewContextFromJson "") v = .ok vol →
          vol.Status ∈ allowedStatuses false) ∧
    (∀ v vol, sampleEnv.GetVolume [] (NewContextFromJson "") v = .ok vol →
      vol.Status = VolumeError →
        (getVolumesForGroup sampleEnv [] {} [v] true).1 = .error (errorsNew (wrongStatusMsg vol)) ∧
        (getVolumesForGroup sampleEnv [] {} [v] false).1 = .ok [vol])) :=
  have h : ∀ v ∈ ["v-ok", "v-err"], ∃ vol,
      sampleEnv.GetVolume [] (NewContextFromJson "") v = .ok vol := by
    intro v hv
    simp only [List.mem_cons, List.mem_singleton, List.not_mem_nil, or_false] at hv
    rcases hv with rfl | rfl
    · exact ⟨_, rfl⟩
    · exact ⟨_, rfl⟩
  ⟨h, C1_getVolumesForGroup_status_filter sampleEnv [] {} ["v-ok", "v-err"] false h⟩

/-! ## Status errors of `UpdateVolumeGroup` -/

theorem getVolumesForGroupLoop_cons_error {σ : Type} (env : Env σ) (s : σ)
    (opt : UpdateVolumeGroupOpts) (add : Bool) (v : String) (rest : List String)
    (err : GoError) (volumesRef : List VolumeSpec) (calls : List Call)
    (hv : env.GetVolume s (NewContextFromJson opt.Context) v = .error err) :
    getVolumesForGroupLoop env s opt add (v :: rest) volumesRef calls =
      (.error err, calls ++ [Call.dbGetVolume (NewContextFromJson opt.Context) v]) := by
  simp only [getVolumesForGroupLoop, hv]

theorem getVolumesForGroupLoop_ok_allowed {σ : Type} (env : Env σ) (s : σ)
    (opt : UpdateVolumeGroupOpts) (add : Bool) (volumes : List String)
    (volumesRef : List VolumeSpec) (calls : List Call) (refs : List VolumeSpec)
    (h : (getVolumesForGroupLoop env s opt add volumes volumesRef calls).1 = .ok refs) :
    ∀ v ∈ volumes, ∃ vol, env.GetVolume s (NewContextFromJson opt.Context) v = .ok vol ∧
      vol.Status ∈ allowedStatuses add := by
  induction volumes generalizing volumesRef calls with
  | nil => simp
  | cons v rest ih =>
    cases hv : env.GetVolume s (NewContextFromJson opt.Context) v with
    | error err =>
      rw [getVolumesForGroupLoop_cons_error env s opt add v rest err volumesRef calls hv] at h
      cases h
    | ok vol =>
      rw [getVolumesForGroupLoop_cons_ok env s opt add v rest vol volumesRef calls hv] at h
      by_cases hst : vol.Status ∈ allowedStatuses add
      · rw [if_pos hst] at h
        intro w hw
        rcases List.mem_cons.mp hw with rfl | hw
        · exact ⟨vol, hv, hst⟩
        · exact ih _ _ h w hw
      · rw [if_neg hst] at h
        cases h

theorem getVolumesForGroupLoop_error_cases {σ : Type} (env : Env σ) (s : σ)
    (opt : UpdateVolumeGroupOpts) (add : Bool) (volumes : List String)
    (volumesRef : List VolumeSpec) (calls : List Call) (err : GoError)
    (h : (getVolumesForGroupLoop env s opt add volumes volumesRef calls).1 = .error err) :
    (∃ v ∈ volumes, env.GetVolume s (NewContextFromJson opt.Context) v = .error err) ∨
    (∃ v ∈ volumes, ∃ vol, env.GetVolume s (NewContextFromJson opt.Context) v = .ok vol ∧
      vol.Status ∉ allowedStatuses add ∧ err = errorsNew (wrongStatusMsg vol)) := by
  induction volumes generalizing volumesRef calls with
  | nil => simp [getVolumesForGroupLoop] at h
  | cons v rest ih =>
    cases hv : env.GetVolume s (NewContextFromJson opt.Context) v with
    | error e =>
      rw [getVolumesForGroupLoop_cons_error env s opt add v rest e volumesRef calls hv] at h
      cases h
      exact Or.inl ⟨v, List.mem_cons_self v rest, hv⟩
    | ok vol =>
      rw [getVolumesForGroupLoop_cons_ok env s opt add v rest vol volumesRef calls hv] at h
      by_cases hst : vol.Status ∈ allowedStatuses add
      · rw [if_pos hst] at h
        rcases ih _ _ h with ⟨w, hw, hw2⟩ | ⟨w, hw, hw2⟩
        · exact Or.inl ⟨w, List.mem_cons_of_mem v hw, hw2⟩
        · exact Or.inr ⟨w, List.mem_cons_of_mem v hw, hw2⟩
      · rw [if_neg hst] at h
        cases h
        exact Or.inr ⟨v, List.mem_cons_self v rest, vol, hv, hst, rfl⟩

theorem getVolumesForGroupLoop_calls {σ : Type} (env : Env σ) (s : σ)
    (opt : UpdateVolumeGroupOpts) (add : Bool) (volumes : List String)
    (volumesRef : List VolumeSpec) (calls : List Call) :
    ∀ c ∈ (getVolumesForGroupLoop env s opt add volumes volumesRef calls).2,
      c ∈ calls ∨ ∃ v ∈ volumes, c = Call.dbGetVolume (NewContextFromJson opt.Context) v := by
  induction volumes generalizing volumesRef calls with
  | nil => simp [getVolumesForGroupLoop]
  | cons v rest ih =>
    have hnew : ∀ c ∈ calls ++ [Call.dbGetVolume (NewContextFromJson opt.Context) v],
        c ∈ calls ∨ ∃ w ∈ v :: rest, c = Call.dbGetVolume (NewContextFromJson opt.Context) w := by
      intro c hc
      rcases List.mem_append.mp hc with hc | hc
      · exact Or.inl hc
      · exact Or.inr ⟨v, List.mem_cons_self v rest, List.mem_singleton.mp hc⟩
    cases hv : env.GetVolume s (NewContextFromJson opt.Context) v with
    | error err =>
      rw [getVolumesForGroupLoop_cons_error env s opt add v rest err volumesRef calls hv]
      exact hnew
    | ok vol =>
      rw [getVolumesForGroupLoop_cons_ok env s opt add v rest vol volumesRef calls hv]
      by_cases hst : vol.Status ∈ allowedStatuses add
      · rw [if_pos hst]
        intro c hc
        rcases ih _ _ c hc with hc | ⟨w, hw, hw2⟩
        · exact hnew c hc
        · exact Or.inr ⟨w, List.mem_cons_of_mem v hw, hw2⟩
      · rw [if_neg hst]
        exact hnew

theorem getVolumesForGroup_calls_not_driver {σ : Type} (env : Env σ) (s : σ)
    (opt : UpdateVolumeGroupOpts) (add : Bool) (volumes : List String) :
    ∀ c ∈ (getVolumesForGroup env s opt volumes add).2,
      c.isDriverMethod = false ∧ c.isDrvUpdateVolumeGroup = false := by
  intro c hc
  rcases getVolumesForGroupLoop_calls env s opt add volumes [] [] c hc with hc | ⟨v, _, rfl⟩
  · cases hc
  · exact ⟨rfl, rfl⟩

theorem wrongStatusMsg_names (vol : VolumeSpec) :
    Names (wrongStatusMsg vol) vol.Id ∧ Names (wrongStatusMsg vol) vol.Status := by
  constructor
  · exact ⟨"Update group failed, wrong status for volume ", " " ++ vol.Status, by
      simp [wrongStatusMsg, String.append_assoc]⟩
  · exact ⟨"Update group failed, wrong status for volume " ++ vol.Id ++ " ", "", by
      simp [wrongStatusMsg]⟩

theorem UpdateVolumeGroupBody_offending {σ : Type} (env : Env σ) (drv : VolumeDriver) (s1 : σ)
    (opt : UpdateVolumeGroupOpts) (hbad : ∃ vol, Offending env s1 opt vol) :
    ∃ err, (UpdateVolumeGroupBody env drv s1 opt).err = some err ∧
      (UpdateVolumeGroupBody env drv s1 opt).res = pbGenericResponseError env.errCode err ∧
      (∀ c ∈ (UpdateVolumeGroupBody env drv s1 opt).calls, c.isDrvUpdateVolumeGroup = false) ∧
      ((∃ v ∈ opt.AddVolumes ++ opt.RemoveVolumes,
          env.GetVolume s1 (NewContextFromJson opt.Context) v = .error err) ∨
        (∃ vol, Offending env s1 opt vol ∧ err = errorsNew (wrongStatusMsg vol))) := by
  obtain ⟨bad, hbad⟩ := hbad
  unfold UpdateVolumeGroupBody
  rcases h1 : getVolumesForGroup env s1 opt opt.AddVolumes true with ⟨r1, c1⟩
  have hc1 := getVolumesForGroup_calls_not_driver env s1 opt true opt.AddVolumes
  rw [h1] at hc1
  cases r1 with
  | error err =>
    refine ⟨err, rfl, rfl, fun c hc => (hc1 c hc).2, ?_⟩
    have h1e : (getVolumesForGroupLoop env s1 opt true opt.AddVolumes [] []).1 = .error err := by
      have := congrArg Prod.fst h1
      exact this
    rcases getVolumesForGroupLoop_error_cases env s1 opt true _ _ _ err h1e with
      ⟨v, hv, hv2⟩ | ⟨v, hv, vol, hv2, hst, he⟩
    · exact Or.inl ⟨v, List.mem_append_left _ hv, hv2⟩
    · exact Or.inr ⟨vol, Or.inl ⟨v, hv, hv2, hst⟩, he⟩
  | ok addVolumesRef =>
    have h1o : (getVolumesForGroupLoop env s1 opt true opt.AddVolumes [] []).1 =
        .ok addVolumesRef := by
      have := congrArg Prod.fst h1
      exact this
    have hadd := getVolumesForGroupLoop_ok_allowed env s1 opt true _ _ _ _ h1o
    rcases h2 : getVolumesForGroup env s1 opt opt.RemoveVolumes false with ⟨r2, c2⟩
    have hc2 := getVolumesForGroup_calls_not_driver env s1 opt false opt.RemoveVolumes
    rw [h2] at hc2
    cases r2 with
    | error err =>
      refine ⟨err, rfl, rfl, ?_, ?_⟩
      · intro c hc
        rcases List.mem_append.mp hc with hc | hc
        · exact (hc1 c hc).2
        · exact (hc2 c hc).2
      · have h2e : (getVolumesForGroupLoop env s1 opt false opt.RemoveVolumes [] []).1 =
            .error err := by
          have := congrArg Prod.fst h2
          exact this
        rcases getVolumesForGroupLoop_error_cases env s1 opt false _ _ _ err h2e with
          ⟨v, hv, hv2⟩ | ⟨v, hv, vol, hv2, hst, he⟩
        · exact Or.inl ⟨v, List.mem_append_right _ hv, hv2⟩
        · exact Or.inr ⟨vol, Or.inr ⟨v, hv, hv2, hst⟩, he⟩
    | ok removeVolumesRef =>
      exfalso
      have h2o : (getVolumesForGroupLoop env s1 opt false opt.RemoveVolumes [] []).1 =
          .ok removeVolumesRef := by
        have := congrArg Prod.fst h2
        exact this
      have hrem := getVolumesForGroupLoop_ok_allowed env s1 opt false _ _ _ _ h2o
      rcases hbad with ⟨v, hv, hv2, hst⟩ | ⟨v, hv, hv2, hst⟩
      · obtain ⟨vol, hvol, hok⟩ := hadd v hv
        rw [hv2] at hvol
        cases hvol
        exact hst hok
      · obtain ⟨vol, hvol, hok⟩ := hrem v hv
        rw [hv2] at hvol
        cases hvol
        exact hst hok

/-- C2 (amended): when some volume of AddVolumes or RemoveVolumes has a status
outside its allow-list, `UpdateVolumeGroup` returns the error envelope of a
non-nil error and never invokes the driver's UpdateVolumeGroup.  The error is
the error of a failed lookup of a requested id, or its message names the id and
status of an offending volume; it is the latter whenever every lookup of the
request succeeds. -/
theorem C2_UpdateVolumeGroup_status_error {σ : Type} (env : Env σ) (s : σ)
    (opt : UpdateVolumeGroupOpts)
    (hbad : ∃ vol, Offending env (env.Init opt.DriverName s).2 opt vol) :
    ∃ err, (UpdateVolumeGroup env s opt).err = some err ∧
      (UpdateVolumeGroup env s opt).res = pbGenericResponseError env.errCode err ∧
      (UpdateVolumeGroup env s opt).res.isError = true ∧
      (∀ c ∈ (UpdateVolumeGroup env s opt).calls, c.isDrvUpdateVolumeGroup = false) ∧
      ((∃ v ∈ opt.AddVolumes ++ opt.RemoveVolumes,
          env.GetVolume (env.Init opt.DriverName s).2 (NewContextFromJson opt.Context) v =
            .error err) ∨
        (∃ vol, Offending env (env.Init opt.DriverName s).2 opt vol ∧
          err = errorsNew (wrongStatusMsg vol) ∧
          Names err.Error vol.Id ∧ Names err.Error vol.Status)) ∧
      ((∀ v ∈ opt.AddVolumes ++ opt.RemoveVolumes, ∃ vol,
          env.GetVolume (env.Init opt.DriverName s).2 (NewContextFromJson opt.Context) v =
            .ok vol) →
        ∃ vol, Offending env (env.Init opt.DriverName s).2 opt vol ∧
          err = errorsNew (wrongStatusMsg vol) ∧
          Names err.Error vol.Id ∧ Names err.Error vol.Status) := by
  obtain ⟨err, he, hr, hc, hwhich⟩ :=
    UpdateVolumeGroupBody_offending env (env.Init opt.DriverName s).1
      (env.Init opt.DriverName s).2 opt hbad
  have hnamed : (∃ vol, Offending env (env.Init opt.DriverName s).2 opt vol ∧
      err = errorsNew (wrongStatusMsg vol)) →
      ∃ vol, Offending env (env.Init opt.DriverName s).2 opt vol ∧
        err = errorsNew (wrongStatusMsg vol) ∧
        Names err.Error vol.Id ∧ Names err.Error vol.Status := by
    rintro ⟨vol, hoff, rfl⟩
    exact ⟨vol, hoff, rfl, wrongStatusMsg_names vol⟩
  refine ⟨err, he, hr, ?_, ?_, ?_, ?_⟩
  · show (UpdateVolumeGroupBody env _ _ opt).res.isError = true
    rw [hr]
    rfl
  · intro c hc2
    have hc3 : c = Call.driversInit opt.DriverName ∨
        c ∈ (UpdateVolumeGroupBody env (env.Init opt.DriverName s).1
            (env.Init opt.DriverName s).2 opt).calls ∨
        c = Call.driversClean (env.Init opt.DriverName s).1 := by
      simpa [UpdateVolumeGroup, initDeferClean] using hc2
    rcases hc3 with rfl | hc3 | rfl
    · rfl
    · exact hc c hc3
    · rfl
  · rcases hwhich with h | h
    · exact Or.inl h
    · exact Or.inr (hnamed h)
  · intro hall
    rcases hwhich with ⟨v, hv, hv2⟩ | h
    · obtain ⟨vol, hvol⟩ := hall v hv
      rw [hv2] at hvol
      cases hvol
    · exact hnamed h

theorem Names_data (msg part : String) (h : Names msg part) : part.data <:+: msg.data := by
  obtain ⟨pre, post, rfl⟩ := h
  exact ⟨pre.data, post.data, by simp [String.data_append]⟩

/-- Witness of C2 on the sample world: removing "v-new", whose status is "creating". -/
theorem C2_UpdateVolumeGroup_status_error_witness :
    (∃ vol, Offending sampleEnv (sampleEnv.Init sampleUpdateBadRemove.DriverName []).2
      sampleUpdateBadRemove vol) ∧
    ∃ err, (UpdateVolumeGroup sampleEnv [] sampleUpdateBadRemove).err = some err ∧
      (UpdateVolumeGroup sampleEnv [] sampleUpdateBadRemove).res =
        pbGenericResponseError sampleEnv.errCode err ∧
      (UpdateVolumeGroup sampleEnv [] sampleUpdateBadRemove).res.isError = true ∧
      (∀ c ∈ (UpdateVolumeGroup sampleEnv [] sampleUpdateBadRemove).calls,
        c.isDrvUpdateVolumeGroup = false) ∧
      ((∃ v ∈ sampleUpdateBadRemove.AddVolumes ++ sampleUpdateBadRemove.RemoveVolumes,
          sampleEnv.GetVolume (sampleEnv.Init sampleUpdateBadRemove.DriverName []).2
            (NewContextFromJson sampleUpdateBadRemove.Context) v = .error err) ∨
        (∃ vol, Offending sampleEnv (sampleEnv.Init sampleUpdateBadRemove.DriverName []).2
            sampleUpdateBadRemove vol ∧
          err = errorsNew (wrongStatusMsg vol) ∧
          Names err.Error vol.Id ∧ Names err.Error vol.Status)) ∧
      ((∀ v ∈ sampleUpdateBadRemove.AddVolumes ++ sampleUpdateBadRemove.RemoveVolumes, ∃ vol,
          sampleEnv.GetVolume (sampleEnv.Init sampleUpdateBadRemove.DriverName []).2
            (NewContextFromJson sampleUpdateBadRemove.Context) v = .ok vol) →
        ∃ vol, Offending sampleEnv (sampleEnv.Init sampleUpdateBadRemove.DriverName []).2
            sampleUpdateBadRemove vol ∧
          err = errorsNew (wrongStatusMsg vol) ∧
          Names err.Error vol.Id ∧ Names err.Error vol.Status) :=
  have h : ∃ vol, Offending sampleEnv (sampleEnv.Init sampleUpdateBadRemove.DriverName []).2
      sampleUpdateBadRemove vol :=
    ⟨sampleVolume "v-new" "creating" "",
      Or.inr ⟨"v-new", List.mem_singleton.mpr rfl, rfl, by decide⟩⟩
  ⟨h, C2_UpdateVolumeGroup_status_error sampleEnv [] sampleUpdateBadRemove h⟩

/-- Counterexample to C2 as stated: the request adds the unknown id "v-gone"
and then "v-err", whose status is error.  A volume of AddVolumes is offending,
yet the error returned is the lookup error of "v-gone", whose message does not
name the offending volume. -/
theorem C2_counterexample :
    (∃ vol, Offending sampleEnv (sampleEnv.Init sampleUpdateMissingFirst.DriverName []).2
      sampleUpdateMissingFirst vol) ∧
    (UpdateVolumeGroup sampleEnv [] sampleUpdateMissingFirst).err =
      some (GoError.other "volume not found") ∧
    ¬ ∃ err, (UpdateVolumeGroup sampleEnv [] sampleUpdateMissingFirst).err = some err ∧
      ∃ vol, Offending sampleEnv (sampleEnv.Init sampleUpdateMissingFirst.DriverName []).2
        sampleUpdateMissingFirst vol ∧ Names err.Error vol.Id ∧ Names err.Error vol.Status := by
  refine ⟨⟨sampleVolume "v-err" VolumeError "",
    Or.inl ⟨"v-err", by decide, rfl, by decide⟩⟩, rfl, ?_⟩
  rintro ⟨err, he, vol, hoff, hid, -⟩
  have herr : (UpdateVolumeGroup sampleEnv [] sampleUpdateMissingFirst).err =
      some (GoError.other "volume not found") := rfl
  rw [herr] at he
  cases he
  have hvol : vol = sampleVolume "v-err" VolumeError "" := by
    rcases hoff with ⟨v, hv, hv2, -⟩ | ⟨v, hv, -, -⟩
    · have hv3 : v = "v-gone" ∨ v = "v-err" := by
        simpa [sampleUpdateMissingFirst] using hv
      rcases hv3 with rfl | rfl
      · cases hv2
      · cases hv2
        rfl
    · cases hv
  subst hvol
  have hdata := Names_data _ _ hid
  revert hdata
  decide

/-! ## The attach precondition of `DeleteVolumeGroup` -/

theorem firstAttached_of_mem (volumes : List VolumeSpec)
    (h : ∃ vol ∈ volumes, vol.AttachStatus = VolumeAttached) :
    ∃ vol pre post, firstAttached volumes = some vol ∧ volumes = pre ++ vol :: post ∧
      (∀ w ∈ pre, w.AttachStatus ≠ VolumeAttached) ∧ vol.AttachStatus = VolumeAttached := by
  induction volumes with
  | nil =>
    obtain ⟨vol, hvol, -⟩ := h
    cases hvol
  | cons a rest ih =>
    by_cases ha : a.AttachStatus = VolumeAttached
    · exact ⟨a, [], rest, by simp [firstAttached, ha], rfl, by simp, ha⟩
    · have hrest : ∃ vol ∈ rest, vol.AttachStatus = VolumeAttached := by
        obtain ⟨vol, hvol, hst⟩ := h
        rcases List.mem_cons.mp hvol with rfl | hvol
        · exact absurd hst ha
        · exact ⟨vol, hvol, hst⟩
      obtain ⟨vol, pre, post, hf, hsplit, hpre, hst⟩ := ih hrest
      refine ⟨vol, a :: pre, post, by simp [firstAttached, ha, hf], by simp [hsplit], ?_, hst⟩
      intro w hw
      rcases List.mem_cons.mp hw with rfl | hw
      · exact ha
      · exact hpre w hw

theorem stillAttachedMsg_names (vol : VolumeSpec) : Names (stillAttachedMsg vol) vol.Id :=
  ⟨"Volume ", " is still attached, need to detach first.", rfl⟩

/-- C3: when the group's member list holds a volume whose AttachStatus is
attached, `DeleteVolumeGroup` fails at once with the error naming the first such
member in member order; the only collaborator calls are the driver
initialisation, the member listing and the deferred clean, so no driver method
is invoked and no persistence record is deleted. -/
theorem C3_DeleteVolumeGroup_attached_member {σ : Type} (env : Env σ) (s : σ)
    (opt : DeleteVolumeGroupOpts) (volumes : List VolumeSpec)
    (hlist : env.ListVolumesByGroupId (env.Init opt.DriverName s).2
      (NewContextFromJson opt.Context) opt.Id = .ok volumes)
    (hatt : ∃ vol ∈ volumes, vol.AttachStatus = VolumeAttached) :
    ∃ vol pre post, volumes = pre ++ vol :: post ∧
      (∀ w ∈ pre, w.AttachStatus ≠ VolumeAttached) ∧ vol.AttachStatus = VolumeAttached ∧
      (DeleteVolumeGroup env s opt).err = some (errorsNew (stillAttachedMsg vol)) ∧
      Names (stillAttachedMsg vol) vol.Id ∧
      (DeleteVolumeGroup env s opt).res =
        { Reply := GenericResponseError "400" (stillAttachedMsg vol) } ∧
      (DeleteVolumeGroup env s opt).res.isError = true ∧
      (DeleteVolumeGroup env s opt).calls =
        [Call.driversInit opt.DriverName,
         Call.dbListVolumesByGroupId (NewContextFromJson opt.Context) opt.Id,
         Call.driversClean (env.Init opt.DriverName s).1] ∧
      (∀ c ∈ (DeleteVolumeGroup env s opt).calls,
        c.isDriverMethod = false ∧ c.isDbDeleteVolume = false) ∧
      (DeleteVolumeGroup env s opt).groupUpdate = none ∧
      (DeleteVolumeGroup env s opt).volumesUpdate = [] := by
  obtain ⟨vol, pre, post, hf, hsplit, hpre, hst⟩ := firstAttached_of_mem volumes hatt
  have hbody : DeleteVolumeGroupBody env (env.Init opt.DriverName s).1
      (env.Init opt.DriverName s).2 opt =
      { res := { Reply := GenericResponseError "400" (errorsNew (stillAttachedMsg vol)).Error },
        err := some (errorsNew (stillAttachedMsg vol)),
        calls := [Call.dbListVolumesByGroupId (NewContextFromJson opt.Context) opt.Id],
        state := (env.Init opt.DriverName s).2 } := by
    simp only [DeleteVolumeGroupBody, hlist, hf]
  have hcalls : (DeleteVolumeGroup env s opt).calls =
      [Call.driversInit opt.DriverName,
       Call.dbListVolumesByGroupId (NewContextFromJson opt.Context) opt.Id,
       Call.driversClean (env.Init opt.DriverName s).1] := by
    simp only [DeleteVolumeGroup, hbody]
    rfl
  refine ⟨vol, pre, post, hsplit, hpre, hst, ?_, stillAttachedMsg_names vol, ?_, ?_, hcalls, ?_,
    ?_, ?_⟩
  · simp only [DeleteVolumeGroup, hbody]
  · simp only [DeleteVolumeGroup, hbody]
    rfl
  · simp only [DeleteVolumeGroup, hbody]
    rfl
  · rw [hcalls]
    intro c hc
    simp only [List.mem_cons, List.mem_singleton, List.not_mem_nil, or_false] at hc
    rcases hc with rfl | rfl | rfl <;> exact ⟨rfl, rfl⟩
  · simp only [DeleteVolumeGroup, hbody]
  · simp only [DeleteVolumeGroup, hbody]

/-- Witness of C3 on the sample world: the group "g2", whose second member is attached. -/
theorem C3_DeleteVolumeGroup_attached_member_witness :
    (sampleEnv.ListVolumesByGroupId (sampleEnv.Init sampleDeleteAttached.DriverName []).2
      (NewContextFromJson sampleDeleteAttached.Context) sampleDeleteAttached.Id =
        .ok [sampleVolume "v-ok" VolumeAvailable "", sampleVolume "v-use" VolumeInUse VolumeAttached]) ∧
    (∃ vol ∈ [sampleVolume "v-ok" VolumeAvailable "", sampleVolume "v-use" VolumeInUse VolumeAttached],
      vol.AttachStatus = VolumeAttached) ∧
    ∃ vol pre post,
      [sampleVolume "v-ok" VolumeAvailable "", sampleVolume "v-use" VolumeInUse VolumeAttached] =
        pre ++ vol :: post ∧
      (∀ w ∈ pre, w.AttachStatus ≠ VolumeAttached) ∧ vol.AttachStatus = VolumeAttached ∧
      (DeleteVolumeGroup sampleEnv [] sampleDeleteAttached).err =
        some (errorsNew (stillAttachedMsg vol)) ∧
      Names (stillAttachedMsg vol) vol.Id ∧
      (DeleteVolumeGroup sampleEnv [] sampleDeleteAttached).res =
        { Reply := GenericResponseError "400" (stillAttachedMsg vol) } ∧
      (DeleteVolumeGroup sampleEnv [] sampleDeleteAttached).res.isError = true ∧
      (DeleteVolumeGroup sampleEnv [] sampleDeleteAttached).calls =
        [Call.driversInit sampleDeleteAttached.DriverName,
         Call.dbListVolumesByGroupId (NewContextFromJson sampleDeleteAttached.Context)
           sampleDeleteAttached.Id,
         Call.driversClean (sampleEnv.Init sampleDeleteAttached.DriverName []).1] ∧
      (∀ c ∈ (DeleteVolumeGroup sampleEnv [] sampleDeleteAttached).calls,
        c.isDriverMethod = false ∧ c.isDbDeleteVolume = false) ∧
      (DeleteVolumeGroup sampleEnv [] sampleDeleteAttached).groupUpdate = none ∧
      (DeleteVolumeGroup sampleEnv [] sampleDeleteAttached).volumesUpdate = [] :=
  have hlist : sampleEnv.ListVolumesByGroupId (sampleEnv.Init sampleDeleteAttached.DriverName []).2
      (NewContextFromJson sampleDeleteAttached.Context) sampleDeleteAttached.Id =
        .ok [sampleVolume "v-ok" VolumeAvailable "",
          sampleVolume "v-use" VolumeInUse VolumeAttached] := rfl
  have hatt : ∃ vol ∈ [sampleVolume "v-ok" VolumeAvailable "",
      sampleVolume "v-use" VolumeInUse VolumeAttached], vol.AttachStatus = VolumeAttached :=
    ⟨sampleVolume "v-use" VolumeInUse VolumeAttached, by simp, rfl⟩
  ⟨hlist, hatt,
    C3_DeleteVolumeGroup_attached_member sampleEnv [] sampleDeleteAttached _ hlist hatt⟩

/-! ## The generic group delete -/

theorem deleteGroupGeneric_foldl {σ : Type} (env : Env σ) (driver : VolumeDriver)
    (opt : DeleteVolumeGroupOpts) (volumes : List VolumeSpec) (acc : GenericDelete σ) :
    (volumes.foldl (deleteGroupGenericStep env driver opt) acc).volumesUpdate =
      acc.volumesUpdate ++
        ((volumes.zip (memberOutcomes env driver opt acc.state volumes)).filter
          (fun p => p.2 == MemberOutcome.driverFailed)).map (fun p => errorUpdate p.1) ∧
    (volumes.foldl (deleteGroupGenericStep env driver opt) acc).calls =
      acc.calls ++
        (volumes.zip (memberOutcomes env driver opt acc.state volumes)).flatMap
          (fun p => if p.2 = MemberOutcome.driverFailed then [driverDeleteCall driver p.1]
            else [driverDeleteCall driver p.1, dbDeleteCall opt p.1]) ∧
    (volumes.foldl (deleteGroupGenericStep env driver opt) acc).vgUpdate =
      (if (memberOutcomes env driver opt acc.state volumes).any (fun o => o != MemberOutcome.deleted)
        then { acc.vgUpdate with Status := VolumeGroupError } else acc.vgUpdate) ∧
    (memberOutcomes env driver opt acc.state volumes).length = volumes.length := by
  induction volumes generalizing acc with
  | nil => simp [memberOutcomes]
  | cons v rest ih =>
    rw [List.foldl_cons]
    rcases hd : env.drvDeleteVolume driver { Metadata := v.Metadata } acc.state with ⟨e, s1⟩
    cases e with
    | some e =>
      have hstep : deleteGroupGenericStep env driver opt acc v =
          { vgUpdate := { acc.vgUpdate with Status := VolumeGroupError },
            volumesUpdate := acc.volumesUpdate ++ [errorUpdate v],
            calls := acc.calls ++ [driverDeleteCall driver v], state := s1 } := by
        simp only [deleteGroupGenericStep, hd]
        rfl
      have hout : memberOutcomes env driver opt acc.state (v :: rest) =
          .driverFailed :: memberOutcomes env driver opt s1 rest := by
        simp only [memberOutcomes, hd]
      obtain ⟨h1, h2, h3, h4⟩ := ih (deleteGroupGenericStep env driver opt acc v)
      rw [hstep] at h1 h2 h3 h4
      rw [hstep, hout]
      refine ⟨?_, ?_, ?_, ?_⟩
      · rw [h1]
        simp
      · rw [h2]
        simp
      · rw [h3]
        simp
      · simpa using h4
    | none =>
      rcases hb : env.dbDeleteVolume (NewContextFromJson opt.Context) v.Id s1 with ⟨e2, s2⟩
      cases e2 with
      | some e2 =>
        have hstep : deleteGroupGenericStep env driver opt acc v =
            { vgUpdate := { acc.vgUpdate with Status := VolumeGroupError },
              volumesUpdate := acc.volumesUpdate,
              calls := acc.calls ++ [driverDeleteCall driver v, dbDeleteCall opt v],
              state := s2 } := by
          simp only [deleteGroupGenericStep, hd, hb]
          rfl
        have hout : memberOutcomes env driver opt acc.state (v :: rest) =
            .dbFailed :: memberOutcomes env driver opt s2 rest := by
          simp only [memberOutcomes, hd, hb]
        obtain ⟨h1, h2, h3, h4⟩ := ih (deleteGroupGenericStep env driver opt acc v)
        rw [hstep] at h1 h2 h3 h4
        rw [hstep, hout]
        refine ⟨?_, ?_, ?_, ?_⟩
        · rw [h1]
          simp
        · rw [h2]
          simp
        · rw [h3]
          simp
        · simpa using h4
      | none =>
        have hstep : deleteGroupGenericStep env driver opt acc v =
            { vgUpdate := acc.vgUpdate, volumesUpdate := acc.volumesUpdate,
              calls := acc.calls ++ [driverDeleteCall driver v, dbDeleteCall opt v],
              state := s2 } := by
          simp only [deleteGroupGenericStep, hd, hb]
          rfl
        have hout : memberOutcomes env driver opt acc.state (v :: rest) =
            .deleted :: memberOutcomes env driver opt s2 rest := by
          simp only [memberOutcomes, hd, hb]
        obtain ⟨h1, h2, h3, h4⟩ := ih (deleteGroupGenericStep env driver opt acc v)
        rw [hstep] at h1 h2 h3 h4
        rw [hstep, hout]
        refine ⟨?_, ?_, ?_, ?_⟩
        · rw [h1]
          simp
        · rw [h2]
          simp
        · rw [h3]
          simp
        · simpa using h4

theorem memberCalls_filter_driver (driver : VolumeDriver) (opt : DeleteVolumeGroupOpts)
    (volumes : List VolumeSpec) (outs : List MemberOutcome) (hlen : outs.length = volumes.length) :
    ((volumes.zip outs).flatMap
      (fun p => if p.2 = MemberOutcome.driverFailed then [driverDeleteCall driver p.1]
        else [driverDeleteCall driver p.1, dbDeleteCall opt p.1])).filter Call.isDrvDeleteVolume =
      volumes.map (driverDeleteCall driver) := by
  induction volumes generalizing outs with
  | nil => simp
  | cons v rest ih =>
    cases outs with
    | nil => simp at hlen
    | cons o outs =>
      have hlen2 : outs.length = rest.length := by simpa using hlen
      rw [List.zip_cons_cons, List.flatMap_cons, List.filter_append, ih outs hlen2]
      by_cases ho : o = MemberOutcome.driverFailed <;>
        simp [ho, driverDeleteCall, dbDeleteCall, Call.isDrvDeleteVolume]

theorem memberCalls_filter_db (driver : VolumeDriver) (opt : DeleteVolumeGroupOpts)
    (volumes : List VolumeSpec) (outs : List MemberOutcome) :
    ((volumes.zip outs).flatMap
      (fun p => if p.2 = MemberOutcome.driverFailed then [driverDeleteCall driver p.1]
        else [driverDeleteCall driver p.1, dbDeleteCall opt p.1])).filter Call.isDbDeleteVolume =
      ((volumes.zip outs).filter (fun p => p.2 != MemberOutcome.driverFailed)).map
        (fun p => dbDeleteCall opt p.1) := by
  induction volumes generalizing outs with
  | nil => simp
  | cons v rest ih =>
    cases outs with
    | nil => simp
    | cons o outs =>
      rw [List.zip_cons_cons, List.flatMap_cons, List.filter_append, ih outs]
      by_cases ho : o = MemberOutcome.driverFailed <;>
        simp [ho, driverDeleteCall, dbDeleteCall, Call.isDbDeleteVolume]

/-- C4: the volume-update list of `deleteGroupGeneric` consists of exactly the
members whose driver DeleteVolume failed, in member order, each carrying the
member's Id and status Error; with two members where the driver fails on the
first and succeeds on the second it is the first volume alone. -/
theorem C4_deleteGroupGeneric_volumesUpdate {σ : Type} (env : Env σ) (s : σ)
    (driver : VolumeDriver) (vg : VolumeGroupSpec) (volumes : List VolumeSpec)
    (opt : DeleteVolumeGroupOpts) :
    (deleteGroupGeneric env s driver vg volumes opt).volumesUpdate =
      ((volumes.zip (memberOutcomes env driver opt s volumes)).filter
        (fun p => p.2 == MemberOutcome.driverFailed)).map
        (fun p => ({ BaseModel := { Id := p.1.Id }, Status := VolumeError } : VolumeSpec)) ∧
    (memberOutcomes env driver opt s volumes).length = volumes.length ∧
    (∀ (v1 v2 : VolumeSpec) (e : GoError) (s1 s2 : σ),
      env.drvDeleteVolume driver { Metadata := v1.Metadata } s = (some e, s1) →
      env.drvDeleteVolume driver { Metadata := v2.Metadata } s1 = (none, s2) →
      (deleteGroupGeneric env s driver vg [v1, v2] opt).volumesUpdate =
        [{ BaseModel := { Id := v1.Id }, Status := VolumeError }]) := by
  refine ⟨?_, ?_, ?_⟩
  · have h := (deleteGroupGeneric_foldl env driver opt volumes
      { vgUpdate := { BaseModel := { Id := vg.Id }, Status := vg.Status },
        volumesUpdate := [], calls := [], state := s }).1
    simpa [deleteGroupGeneric, errorUpdate] using h
  · exact (deleteGroupGeneric_foldl env driver opt volumes
      { vgUpdate := { BaseModel := { Id := vg.Id }, Status := vg.Status },
        volumesUpdate := [], calls := [], state := s }).2.2.2
  · intro v1 v2 e s1 s2 h1 h2
    simp only [deleteGroupGeneric, List.foldl_cons, List.foldl_nil, deleteGroupGenericStep, h1, h2]
    rcases env.dbDeleteVolume (NewContextFromJson opt.Context) v2.Id s2 with ⟨e2, s3⟩
    cases e2 <;> rfl

/-- C5 (amended): the group returned by `deleteGroupGeneric` carries the input
group's Id and no other field but its status, which is Error when some member's
driver DeleteVolume or persistence DeleteVolume failed and the input group's
status otherwise; so for an input status other than Error, the status is Error
exactly when some such deletion failed. -/
theorem C5_deleteGroupGeneric_group_status {σ : Type} (env : Env σ) (s : σ)
    (driver : VolumeDriver) (vg : VolumeGroupSpec) (volumes : List VolumeSpec)
    (opt : DeleteVolumeGroupOpts) :
    (deleteGroupGeneric env s driver vg volumes opt).vgUpdate.Id = vg.Id ∧
    (deleteGroupGeneric env s driver vg volumes opt).vgUpdate =
      { BaseModel := { Id := vg.Id },
        Status := if ∃ o ∈ memberOutcomes env driver opt s volumes, o ≠ MemberOutcome.deleted
          then VolumeGroupError else vg.Status } ∧
    ((∃ o ∈ memberOutcomes env driver opt s volumes, o ≠ MemberOutcome.deleted) →
      (deleteGroupGeneric env s driver vg volumes opt).vgUpdate.Status = VolumeGroupError) ∧
    ((¬ ∃ o ∈ memberOutcomes env driver opt s volumes, o ≠ MemberOutcome.deleted) →
      (deleteGroupGeneric env s driver vg volumes opt).vgUpdate.Status = vg.Status) ∧
    (vg.Status ≠ VolumeGroupError →
      ((deleteGroupGeneric env s driver vg volumes opt).vgUpdate.Status = VolumeGroupError ↔
        ∃ o ∈ memberOutcomes env driver opt s volumes, o ≠ MemberOutcome.deleted)) := by
  have h := (deleteGroupGeneric_foldl env driver opt volumes
    { vgUpdate := { BaseModel := { Id := vg.Id }, Status := vg.Status },
      volumesUpdate := [], calls := [], state := s }).2.2.1
  have hg : (deleteGroupGeneric env s driver vg volumes opt).vgUpdate =
      { BaseModel := { Id := vg.Id },
        Status := if ∃ o ∈ memberOutcomes env driver opt s volumes, o ≠ MemberOutcome.deleted
          then VolumeGroupError else vg.Status } := by
    unfold deleteGroupGeneric
    rw [h]
    by_cases hany : ∃ o ∈ memberOutcomes env driver opt s volumes, o ≠ MemberOutcome.deleted
    · have hany2 : (memberOutcomes env driver opt s volumes).any
          (fun o => o != MemberOutcome.deleted) = true := by
        simpa using hany
      simp only [hany2, if_true, if_pos hany]
    · have hany2 : ¬ (memberOutcomes env driver opt s volumes).any
          (fun o => o != MemberOutcome.deleted) = true := by
        simpa using hany
      simp only [hany2, if_false, if_neg hany]
      rfl
  refine ⟨?_, hg, ?_, ?_, ?_⟩
  · rw [hg]
    rfl
  · intro hany
    rw [hg]
    simp only [if_pos hany]
  · intro hany
    rw [hg]
    simp only [if_neg hany]
  · intro hne
    rw [hg]
    by_cases hany : ∃ o ∈ memberOutcomes env driver opt s volumes, o ≠ MemberOutcome.deleted
    · simp only [if_pos hany, true_iff]
      exact hany
    · simp only [if_neg hany]
      exact ⟨fun h => absurd h hne, fun h => absurd h hany⟩

/-- Counterexample to C5 as stated: for a group whose status is already Error
and whose one member "v-ok" is deleted by the driver and from persistence, no
deletion fails and yet the returned status is Error. -/
theorem C5_counterexample :
    memberOutcomes sampleEnv ⟨0⟩ { Id := "g4" } []
      [sampleVolume "v-ok" VolumeAvailable ""] = [MemberOutcome.deleted] ∧
    (deleteGroupGeneric sampleEnv [] ⟨0⟩ (sampleGroup "g4" VolumeGroupError)
      [sampleVolume "v-ok" VolumeAvailable ""] { Id := "g4" }).vgUpdate.Status =
        VolumeGroupError ∧
    ¬ ((deleteGroupGeneric sampleEnv [] ⟨0⟩ (sampleGroup "g4" VolumeGroupError)
        [sampleVolume "v-ok" VolumeAvailable ""] { Id := "g4" }).vgUpdate.Status =
          VolumeGroupError ↔
      ∃ o ∈ memberOutcomes sampleEnv ⟨0⟩ { Id := "g4" } []
        [sampleVolume "v-ok" VolumeAvailable ""], o ≠ MemberOutcome.deleted) := by
  have hout : memberOutcomes sampleEnv ⟨0⟩ { Id := "g4" } []
      [sampleVolume "v-ok" VolumeAvailable ""] = [MemberOutcome.deleted] := rfl
  refine ⟨hout, rfl, ?_⟩
  intro h
  obtain ⟨o, ho, hne⟩ := h.mp rfl
  rw [hout] at ho
  exact hne (List.mem_singleton.mp ho)

/-- The spec's partial-failure scenario on the sample world: of the two members
of "g1" the driver fails on "v-err" and deletes "v-ok"; the group status is
Error, the one volume update is "v-err" with status Error, and the record of
"v-ok" is the one deleted. -/
theorem deleteGroupGeneric_sample :
    (deleteGroupGeneric sampleEnv [] ⟨0⟩ (sampleGroup "g1" "available")
      [sampleVolume "v-err" VolumeError "", sampleVolume "v-ok" VolumeAvailable ""]
      sampleDeletePartial).vgUpdate = sampleGroup "g1" VolumeGroupError ∧
    (deleteGroupGeneric sampleEnv [] ⟨0⟩ (sampleGroup "g1" "available")
      [sampleVolume "v-err" VolumeError "", sampleVolume "v-ok" VolumeAvailable ""]
      sampleDeletePartial).volumesUpdate =
        [{ BaseModel := { Id := "v-err" }, Status := VolumeError }] ∧
    (deleteGroupGeneric sampleEnv [] ⟨0⟩ (sampleGroup "g1" "available")
      [sampleVolume "v-err" VolumeError "", sampleVolume "v-ok" VolumeAvailable ""]
      sampleDeletePartial).state = ["v-ok"] :=
  ⟨rfl, rfl, rfl⟩

/-- C6: `deleteGroupGeneric` never aborts early: its calls are, member by
member in member order, the driver's DeleteVolume followed, exactly when the
driver raised no error, by the persistence DeleteVolume with that member's id;
so the driver's DeleteVolume is invoked once per member whatever came before,
and the persistence DeleteVolume for exactly the members the driver deleted. -/
theorem C6_deleteGroupGeneric_calls {σ : Type} (env : Env σ) (s : σ)
    (driver : VolumeDriver) (vg : VolumeGroupSpec) (volumes : List VolumeSpec)
    (opt : DeleteVolumeGroupOpts) :
    (deleteGroupGeneric env s driver vg volumes opt).calls =
      (volumes.zip (memberOutcomes env driver opt s volumes)).flatMap
        (fun p => if p.2 = MemberOutcome.driverFailed
          then [Call.drvDeleteVolume driver { Metadata := p.1.Metadata }]
          else [Call.drvDeleteVolume driver { Metadata := p.1.Metadata },
            Call.dbDeleteVolume (NewContextFromJson opt.Context) p.1.Id]) ∧
    (memberOutcomes env driver opt s volumes).length = volumes.length ∧
    (deleteGroupGeneric env s driver vg volumes opt).calls.filter Call.isDrvDeleteVolume =
      volumes.map (fun v => Call.drvDeleteVolume driver { Metadata := v.Metadata }) ∧
    (deleteGroupGeneric env s driver vg volumes opt).calls.filter Call.isDbDeleteVolume =
      ((volumes.zip (memberOutcomes env driver opt s volumes)).filter
        (fun p => p.2 != MemberOutcome.driverFailed)).map
        (fun p => Call.dbDeleteVolume (NewContextFromJson opt.Context) p.1.Id) := by
  obtain ⟨-, h2, -, h4⟩ := deleteGroupGeneric_foldl env driver opt volumes
    { vgUpdate := { BaseModel := { Id := vg.Id }, Status := vg.Status },
      volumesUpdate := [], calls := [], state := s }
  have hc : (deleteGroupGeneric env s driver vg volumes opt).calls =
      (volumes.zip (memberOutcomes env driver opt s volumes)).flatMap
        (fun p => if p.2 = MemberOutcome.driverFailed then [driverDeleteCall driver p.1]
          else [driverDeleteCall driver p.1, dbDeleteCall opt p.1]) := by
    simpa [deleteGroupGeneric] using h2
  refine ⟨hc, h4, ?_, ?_⟩
  · rw [hc, memberCalls_filter_driver driver opt volumes _ h4]
    rfl
  · rw [hc, memberCalls_filter_db driver opt volumes _]
    rfl

/-! ## `CreateVolumeGroup` and the not-implemented sentinel -/

/-- C7: when the group is found in persistence, `CreateVolumeGroup` returns the
success envelope wrapping the persisted group with a nil error if the driver
returns no error or the NotImplementError sentinel (whatever group value the
driver returns), and the error envelope of the driver's error together with
that error if the driver returns any other error. -/
theorem C7_CreateVolumeGroup_outcomes {σ : Type} (env : Env σ) (s : σ)
    (opt : CreateVolumeGroupOpts) (vg : VolumeGroupSpec)
    (hget : env.GetVolumeGroup (env.Init opt.DriverName s).2
      (NewContextFromJson opt.Context) opt.Id = .ok vg) :
    (∀ e : GoError,
      (env.drvCreateVolumeGroup (env.Init opt.DriverName s).1 opt vg
        (env.Init opt.DriverName s).2).1.2 = some e → e.isNotImplement = false →
      (CreateVolumeGroup env s opt).res = pbGenericResponseError env.errCode e ∧
      (CreateVolumeGroup env s opt).res.isError = true ∧
      (CreateVolumeGroup env s opt).err = some e) ∧
    (((env.drvCreateVolumeGroup (env.Init opt.DriverName s).1 opt vg
        (env.Init opt.DriverName s).2).1.2 = none ∨
      ∃ m, (env.drvCreateVolumeGroup (env.Init opt.DriverName s).1 opt vg
        (env.Init opt.DriverName s).2).1.2 = some (GoError.notImplement m)) →
      (CreateVolumeGroup env s opt).res = pbGenericResponseResult (.volumeGroup vg) ∧
      (CreateVolumeGroup env s opt).res.isResult = true ∧
      (CreateVolumeGroup env s opt).err = none) := by
  rcases hd : env.drvCreateVolumeGroup (env.Init opt.DriverName s).1 opt vg
    (env.Init opt.DriverName s).2 with ⟨⟨g, e⟩, s2⟩
  have hres : (CreateVolumeGroup env s opt).res =
      (CreateVolumeGroupBody env (env.Init opt.DriverName s).1
        (env.Init opt.DriverName s).2 opt).res := rfl
  have herr : (CreateVolumeGroup env s opt).err =
      (CreateVolumeGroupBody env (env.Init opt.DriverName s).1
        (env.Init opt.DriverName s).2 opt).err := rfl
  rw [hres, herr]
  constructor
  · intro e0 he0 hni
    cases he0
    simp [CreateVolumeGroupBody, hget, hd, hni, pbGenericResponseError,
      GenericResponse.isError]
  · rintro (he0 | ⟨m, he0⟩)
    · cases he0
      simp [CreateVolumeGroupBody, hget, hd, pbGenericResponseResult,
        GenericResponse.isResult]
    · cases he0
      simp [CreateVolumeGroupBody, hget, hd, pbGenericResponseResult,
        GenericResponse.isResult, GoError.isNotImplement]

/-- Witness of C7 on the sample world: the group "g1", with a driver that does
not implement group creation. -/
theorem C7_CreateVolumeGroup_outcomes_witness :
    sampleEnv.GetVolumeGroup (sampleEnv.Init sampleCreateGroup.DriverName []).2
      (NewContextFromJson sampleCreateGroup.Context) sampleCreateGroup.Id =
        .ok (sampleGroup "g1" "available") ∧
    (CreateVolumeGroup sampleEnv [] sampleCreateGroup).res =
      pbGenericResponseResult (.volumeGroup (sampleGroup "g1" "available")) ∧
    (CreateVolumeGroup sampleEnv [] sampleCreateGroup).res.isResult = true ∧
    (CreateVolumeGroup sampleEnv [] sampleCreateGroup).err = none :=
  ⟨rfl, (C7_CreateVolumeGroup_outcomes sampleEnv [] sampleCreateGroup
    (sampleGroup "g1" "available") rfl).2 (Or.inr ⟨"not implemented", rfl⟩)⟩

/-! ## `DeleteVolumeGroup` and the not-implemented sentinel -/

/-- When the precondition checks pass and the driver's DeleteVolumeGroup returns
the NotImplementError sentinel, `DeleteVolumeGroup` runs the generic fallback
and returns its updates with the zero-valued envelope, and the local error it
returns is the sentinel itself. -/
theorem DeleteVolumeGroup_notImplement {σ : Type} (env : Env σ) (s : σ)
    (opt : DeleteVolumeGroupOpts) (volumes : List VolumeSpec) (group : VolumeGroupSpec)
    (gu : Option VolumeGroupSpec) (vu : List VolumeSpec) (e : GoError) (s2 : σ)
    (hlist : env.ListVolumesByGroupId (env.Init opt.DriverName s).2
      (NewContextFromJson opt.Context) opt.Id = .ok volumes)
    (hatt : firstAttached volumes = none)
    (hget : env.GetVolumeGroup (env.Init opt.DriverName s).2
      (NewContextFromJson opt.Context) opt.Id = .ok group)
    (hdrv : env.drvDeleteVolumeGroup (env.Init opt.DriverName s).1 opt group volumes
      (env.Init opt.DriverName s).2 = ((gu, vu, some e), s2))
    (hni : e.isNotImplement = true) :
    (DeleteVolumeGroup env s opt).err = some e ∧
    (DeleteVolumeGroup env s opt).res = {} ∧
    (DeleteVolumeGroup env s opt).res.isError = false ∧
    (DeleteVolumeGroup env s opt).groupUpdate =
      some (deleteGroupGeneric env s2 (env.Init opt.DriverName s).1 group volumes opt).vgUpdate ∧
    (DeleteVolumeGroup env s opt).volumesUpdate =
      (deleteGroupGeneric env s2 (env.Init opt.DriverName s).1 group volumes opt).volumesUpdate := by
  have hbody : DeleteVolumeGroupBody env (env.Init opt.DriverName s).1
      (env.Init opt.DriverName s).2 opt =
      { groupUpdate := some (deleteGroupGeneric env s2 (env.Init opt.DriverName s).1 group
          volumes opt).vgUpdate,
        volumesUpdate := (deleteGroupGeneric env s2 (env.Init opt.DriverName s).1 group
          volumes opt).volumesUpdate,
        res := {}, err := some e,
        calls := [Call.dbListVolumesByGroupId (NewContextFromJson opt.Context) opt.Id] ++
          [Call.dbGetVolumeGroup (NewContextFromJson opt.Context) opt.Id] ++
          [Call.drvDeleteVolumeGroup (env.Init opt.DriverName s).1 opt group volumes] ++
          (deleteGroupGeneric env s2 (env.Init opt.DriverName s).1 group volumes opt).calls,
        state := (deleteGroupGeneric env s2 (env.Init opt.DriverName s).1 group
          volumes opt).state } := by
    simp only [DeleteVolumeGroupBody, hlist, hatt, hget, hdrv, hni, if_true]
  refine ⟨?_, ?_, ?_, ?_, ?_⟩
  all_goals simp only [DeleteVolumeGroup, hbody]
  all_goals rfl

/-- When the precondition checks pass and the driver's DeleteVolumeGroup returns
no error, `DeleteVolumeGroup` returns a nil local error with the zero-valued
envelope, which is not a success envelope. -/
theorem DeleteVolumeGroup_driver_success {σ : Type} (env : Env σ) (s : σ)
    (opt : DeleteVolumeGroupOpts) (volumes : List VolumeSpec) (group : VolumeGroupSpec)
    (gu : Option VolumeGroupSpec) (vu : List VolumeSpec) (s2 : σ)
    (hlist : env.ListVolumesByGroupId (env.Init opt.DriverName s).2
      (NewContextFromJson opt.Context) opt.Id = .ok volumes)
    (hatt : firstAttached volumes = none)
    (hget : env.GetVolumeGroup (env.Init opt.DriverName s).2
      (NewContextFromJson opt.Context) opt.Id = .ok group)
    (hdrv : env.drvDeleteVolumeGroup (env.Init opt.DriverName s).1 opt group volumes
      (env.Init opt.DriverName s).2 = ((gu, vu, none), s2)) :
    (DeleteVolumeGroup env s opt).err = none ∧
    (DeleteVolumeGroup env s opt).res = {} ∧
    (DeleteVolumeGroup env s opt).res.isResult = false ∧
    (DeleteVolumeGroup env s opt).groupUpdate = gu ∧
    (DeleteVolumeGroup env s opt).volumesUpdate = vu := by
  have hbody : DeleteVolumeGroupBody env (env.Init opt.DriverName s).1
      (env.Init opt.DriverName s).2 opt =
      { groupUpdate := gu, volumesUpdate := vu, res := {}, err := none,
        calls := [Call.dbListVolumesByGroupId (NewContextFromJson opt.Context) opt.Id] ++
          [Call.dbGetVolumeGroup (NewContextFromJson opt.Context) opt.Id] ++
          [Call.drvDeleteVolumeGroup (env.Init opt.DriverName s).1 opt group volumes],
        state := s2 } := by
    simp only [DeleteVolumeGroupBody, hlist, hatt, hget, hdrv]
  refine ⟨?_, ?_, ?_, ?_, ?_⟩
  all_goals simp only [DeleteVolumeGroup, hbody]
  all_goals rfl

/-- C8 (the code at the failing input): for the sample group "g1", with no
attached member and a driver whose DeleteVolumeGroup returns the sentinel, the
generic fallback runs and the envelope is not an error envelope, but the local
error returned is the sentinel, not nil. -/
theorem C8_DeleteVolumeGroup_fallback_returns_sentinel :
    (DeleteVolumeGroup sampleEnv [] sampleDeletePartial).groupUpdate =
      some (sampleGroup "g1" VolumeGroupError) ∧
    (DeleteVolumeGroup sampleEnv [] sampleDeletePartial).volumesUpdate =
      [{ BaseModel := { Id := "v-err" }, Status := VolumeError }] ∧
    (DeleteVolumeGroup sampleEnv [] sampleDeletePartial).state = ["v-ok"] ∧
    (DeleteVolumeGroup sampleEnv [] sampleDeletePartial).res.isError = false ∧
    (DeleteVolumeGroup sampleEnv [] sampleDeletePartial).err =
      some (GoError.notImplement "not implemented") ∧
    (DeleteVolumeGroup sampleEnv [] sampleDeletePartial).err ≠ none := by
  refine ⟨rfl, rfl, rfl, rfl, rfl, ?_⟩
  intro h
  cases h

/-! ## The local error and the envelope -/

theorem CreateVolume_mirrors {σ : Type} (env : Env σ) (s : σ) (opt : CreateVolumeOpts) :
    Mirrors (CreateVolume env s opt).res (CreateVolume env s opt).err := by
  simp only [CreateVolume, initDeferClean]
  split <;> simp [Mirrors, pbGenericResponseError, pbGenericResponseResult,
    GenericResponse.isError, GenericResponse.isResult]

theorem CreateVolumeGroup_mirrors {σ : Type} (env : Env σ) (s : σ)
    (opt : CreateVolumeGroupOpts) :
    Mirrors (CreateVolumeGroup env s opt).res (CreateVolumeGroup env s opt).err := by
  simp only [CreateVolumeGroup, initDeferClean, CreateVolumeGroupBody]
  repeat' split
  all_goals simp [Mirrors, pbGenericResponseError, pbGenericResponseResult,
    GenericResponse.isError, GenericResponse.isResult]

theorem UpdateVolumeGroup_mirrors {σ : Type} (env : Env σ) (s : σ)
    (opt : UpdateVolumeGroupOpts) :
    Mirrors (UpdateVolumeGroup env s opt).res (UpdateVolumeGroup env s opt).err := by
  simp only [UpdateVolumeGroup, initDeferClean, UpdateVolumeGroupBody]
  repeat' split
  all_goals simp [Mirrors, pbGenericResponseError, pbGenericResponseResult,
    GenericResponse.isError, GenericResponse.isResult]

theorem AttachVolume_mirrors {σ : Type} (env : Env σ) (s : σ) (opt : AttachVolumeOpts) :
    Mirrors (AttachVolume env s opt).res (AttachVolume env s opt).err := by
  simp only [AttachVolume]
  repeat' split
  all_goals simp [Mirrors, pbGenericResponseError, pbGenericResponseResult,
    GenericResponse.isError, GenericResponse.isResult]

theorem DetachVolume_mirrors {σ : Type} (env : Env σ) (s : σ) (opt : DetachVolumeOpts) :
    Mirrors (DetachVolume env s opt).res (DetachVolume env s opt).err := by
  simp only [DetachVolume]
  repeat' split
  all_goals simp [Mirrors, pbGenericResponseError, pbGenericResponseResult,
    GenericResponse.isError, GenericResponse.isResult]

/-- C9 (the code at the failing input): for the sample group "g3", with no
member volumes and a driver whose DeleteVolumeGroup returns the sentinel,
`DeleteVolumeGroup` returns a non-nil local error with an envelope that is
neither an error envelope nor a success envelope: the local error does not
mirror the envelope. -/
theorem C9_DeleteVolumeGroup_error_without_error_envelope :
    (DeleteVolumeGroup sampleEnv [] sampleDeleteEmpty).err =
      some (GoError.notImplement "not implemented") ∧
    (DeleteVolumeGroup sampleEnv [] sampleDeleteEmpty).res = {} ∧
    (DeleteVolumeGroup sampleEnv [] sampleDeleteEmpty).res.isError = false ∧
    (DeleteVolumeGroup sampleEnv [] sampleDeleteEmpty).res.isResult = false ∧
    ¬ Mirrors (DeleteVolumeGroup sampleEnv [] sampleDeleteEmpty).res
      (DeleteVolumeGroup sampleEnv [] sampleDeleteEmpty).err := by
  refine ⟨rfl, rfl, rfl, rfl, ?_⟩
  intro h
  have h2 := h.1.mp rfl
  cases h2

/-! ## Unregistered access protocols -/

theorem noConnectorMsg_names (accessProtocol : String) :
    Names (noConnectorMsg accessProtocol) accessProtocol :=
  ⟨"Can not find connector (", ")!", rfl⟩

/-- C10: when the connection data decodes and no connector is registered for
the access protocol, `AttachVolume` and `DetachVolume` return the error envelope
of a non-nil error whose message names the requested protocol; their only calls
are the decoding and the connector lookup, so no connector method is invoked,
and the world is left as it was. -/
theorem C10_no_connector_for_protocol {σ : Type} (env : Env σ) (s : σ)
    (proto data : String) (connData : ConnData)
    (hdec : env.jsonUnmarshal data = .ok connData)
    (hnone : env.NewConnector s proto = none) :
    ((AttachVolume env s { AccessProtocol := proto, ConnectionData := data }).err =
        some (errorsNew (noConnectorMsg proto)) ∧
      (AttachVolume env s { AccessProtocol := proto, ConnectionData := data }).res =
        pbGenericResponseError env.errCode (errorsNew (noConnectorMsg proto)) ∧
      (AttachVolume env s { AccessProtocol := proto, ConnectionData := data }).res.isError = true ∧
      (AttachVolume env s { AccessProtocol := proto, ConnectionData := data }).calls =
        [Call.jsonUnmarshal data, Call.newConnector proto] ∧
      (∀ c ∈ (AttachVolume env s { AccessProtocol := proto, ConnectionData := data }).calls,
        c.isConnectorMethod = false) ∧
      (AttachVolume env s { AccessProtocol := proto, ConnectionData := data }).state = s) ∧
    ((DetachVolume env s { AccessProtocol := proto, ConnectionData := data }).err =
        some (errorsNew (noConnectorMsg proto)) ∧
      (DetachVolume env s { AccessProtocol := proto, ConnectionData := data }).res =
        pbGenericResponseError env.errCode (errorsNew (noConnectorMsg proto)) ∧
      (DetachVolume env s { AccessProtocol := proto, ConnectionData := data }).res.isError = true ∧
      (DetachVolume env s { AccessProtocol := proto, ConnectionData := data }).calls =
        [Call.jsonUnmarshal data, Call.newConnector proto] ∧
      (∀ c ∈ (DetachVolume env s { AccessProtocol := proto, ConnectionData := data }).calls,
        c.isConnectorMethod = false) ∧
      (DetachVolume env s { AccessProtocol := proto, ConnectionData := data }).state = s) ∧
    Names (errorsNew (noConnectorMsg proto)).Error proto := by
  have hA : AttachVolume env s { AccessProtocol := proto, ConnectionData := data } =
      { res := pbGenericResponseError env.errCode (errorsNew (noConnectorMsg proto)),
        err := some (errorsNew (noConnectorMsg proto)),
        calls := [Call.jsonUnmarshal data, Call.newConnector proto],
        state := s } := by
    simp only [AttachVolume, hdec, hnone]
    rfl
  have hD : DetachVolume env s { AccessProtocol := proto, ConnectionData := data } =
      { res := pbGenericResponseError env.errCode (errorsNew (noConnectorMsg proto)),
        err := some (errorsNew (noConnectorMsg proto)),
        calls := [Call.jsonUnmarshal data, Call.newConnector proto],
        state := s } := by
    simp only [DetachVolume, hdec, hnone]
    rfl
  have hcalls : ∀ c ∈ [Call.jsonUnmarshal data, Call.newConnector proto],
      c.isConnectorMethod = false := by
    intro c hc
    simp only [List.mem_cons, List.mem_singleton, List.not_mem_nil, or_false] at hc
    rcases hc with rfl | rfl <;> rfl
  rw [hA, hD]
  exact ⟨⟨rfl, rfl, rfl, rfl, hcalls, rfl⟩, ⟨rfl, rfl, rfl, rfl, hcalls, rfl⟩,
    noConnectorMsg_names proto⟩

/-- Witness of C10 on the sample world: the protocol "nvme" has no connector. -/
theorem C10_no_connector_for_protocol_witness :
    sampleEnv.jsonUnmarshal "\x7b\x7d" = .ok [] ∧
    sampleEnv.NewConnector [] "nvme" = none ∧
    (AttachVolume sampleEnv [] sampleAttachUnknown).err =
      some (GoError.other "Can not find connector (nvme)!") ∧
    (AttachVolume sampleEnv [] sampleAttachUnknown).calls =
      [Call.jsonUnmarshal "\x7b\x7d", Call.newConnector "nvme"] ∧
    (DetachVolume sampleEnv [] { AccessProtocol := "nvme", ConnectionData := "\x7b\x7d" }).err =
      some (GoError.other "Can not find connector (nvme)!") :=
  have h := C10_no_connector_for_protocol sampleEnv [] "nvme" "\x7b\x7d" [] rfl rfl
  ⟨rfl, rfl, h.1.1, h.1.2.2.2.1, h.2.1.1⟩

/-! ## Order of the results and of the lookups of `getVolumesForGroup` -/

theorem getVolumesForGroupLoop_ok_spec {σ : Type} (env : Env σ) (s : σ)
    (opt : UpdateVolumeGroupOpts) (add : Bool) (volumes : List String)
    (volumesRef : List VolumeSpec) (calls : List Call) (refs : List VolumeSpec)
    (h : (getVolumesForGroupLoop env s opt add volumes volumesRef calls).1 = .ok refs) :
    ∃ found, refs = volumesRef ++ found ∧
      volumes.map (env.GetVolume s (NewContextFromJson opt.Context)) = found.map Except.ok ∧
      (getVolumesForGroupLoop env s opt add volumes volumesRef calls).2 =
        calls ++ volumes.map (Call.dbGetVolume (NewContextFromJson opt.Context)) := by
  induction volumes generalizing volumesRef calls with
  | nil =>
    refine ⟨[], ?_, rfl, by simp [getVolumesForGroupLoop]⟩
    simp only [getVolumesForGroupLoop] at h
    cases h
    simp
  | cons v rest ih =>
    cases hv : env.GetVolume s (NewContextFromJson opt.Context) v with
    | error err =>
      rw [getVolumesForGroupLoop_cons_error env s opt add v rest err volumesRef calls hv] at h
      cases h
    | ok vol =>
      rw [getVolumesForGroupLoop_cons_ok env s opt add v rest vol volumesRef calls hv] at h ⊢
      by_cases hst : vol.Status ∈ allowedStatuses add
      · rw [if_pos hst] at h ⊢
        obtain ⟨found, hrefs, hmap, hcalls⟩ := ih _ _ h
        refine ⟨vol :: found, ?_, ?_, ?_⟩
        · rw [hrefs]
          simp
        · simp [hv, hmap]
        · rw [hcalls]
          simp
      · rw [if_neg hst] at h
        cases h

theorem getVolumesForGroupLoop_error_spec {σ : Type} (env : Env σ) (s : σ)
    (opt : UpdateVolumeGroupOpts) (add : Bool) (volumes : List String)
    (volumesRef : List VolumeSpec) (calls : List Call) (err : GoError)
    (h : (getVolumesForGroupLoop env s opt add volumes volumesRef calls).1 = .error err) :
    ∃ pre v post, volumes = pre ++ v :: post ∧
      (∀ w ∈ pre, ∃ vol, env.GetVolume s (NewContextFromJson opt.Context) w = .ok vol ∧
        vol.Status ∈ allowedStatuses add) ∧
      (env.GetVolume s (NewContextFromJson opt.Context) v = .error err ∨
        ∃ vol, env.GetVolume s (NewContextFromJson opt.Context) v = .ok vol ∧
          vol.Status ∉ allowedStatuses add ∧ err = errorsNew (wrongStatusMsg vol)) ∧
      (getVolumesForGroupLoop env s opt add volumes volumesRef calls).2 =
        calls ++ (pre ++ [v]).map (Call.dbGetVolume (NewContextFromJson opt.Context)) := by
  induction volumes generalizing volumesRef calls with
  | nil => simp [getVolumesForGroupLoop] at h
  | cons v rest ih =>
    cases hv : env.GetVolume s (NewContextFromJson opt.Context) v with
    | error e =>
      rw [getVolumesForGroupLoop_cons_error env s opt add v rest e volumesRef calls hv] at h ⊢
      cases h
      exact ⟨[], v, rest, rfl, by simp, Or.inl hv, by simp⟩
    | ok vol =>
      rw [getVolumesForGroupLoop_cons_ok env s opt add v rest vol volumesRef calls hv] at h ⊢
      by_cases hst : vol.Status ∈ allowedStatuses add
      · rw [if_pos hst] at h ⊢
        obtain ⟨pre, w, post, hsplit, hpre, hw, hcalls⟩ := ih _ _ h
        refine ⟨v :: pre, w, post, by simp [hsplit], ?_, hw, ?_⟩
        · intro x hx
          rcases List.mem_cons.mp hx with rfl | hx
          · exact ⟨vol, hv, hst⟩
          · exact hpre x hx
        · rw [hcalls]
          simp
      · rw [if_neg hst] at h ⊢
        cases h
        exact ⟨[], v, rest, rfl, by simp, Or.inr ⟨vol, hv, hst, rfl⟩, by simp⟩

/-- C17: when `getVolumesForGroup` succeeds, its result has one spec per
requested id, in request order and with duplicates kept, the i-th being the
record persistence returned for the i-th id, and every id was looked up once,
in order.  When it fails, the ids before some id of the request were all found
with an allowed status, the error is that id's lookup error or its wrong-status
error, and the lookups made are those of the ids up to and including it: no
later id is looked up. -/
theorem C17_getVolumesForGroup_order {σ : Type} (env : Env σ) (s : σ)
    (opt : UpdateVolumeGroupOpts) (volumes : List String) (add : Bool) :
    (∀ refs, (getVolumesForGroup env s opt volumes add).1 = .ok refs →
      refs.length = volumes.length ∧
      volumes.map (env.GetVolume s (NewContextFromJson opt.Context)) = refs.map Except.ok ∧
      (getVolumesForGroup env s opt volumes add).2 =
        volumes.map (Call.dbGetVolume (NewContextFromJson opt.Context))) ∧
    (∀ err, (getVolumesForGroup env s opt volumes add).1 = .error err →
      ∃ pre v post, volumes = pre ++ v :: post ∧
        (∀ w ∈ pre, ∃ vol, env.GetVolume s (NewContextFromJson opt.Context) w = .ok vol ∧
          vol.Status ∈ allowedStatuses add) ∧
        (env.GetVolume s (NewContextFromJson opt.Context) v = .error err ∨
          ∃ vol, env.GetVolume s (NewContextFromJson opt.Context) v = .ok vol ∧
            vol.Status ∉ allowedStatuses add ∧ err = errorsNew (wrongStatusMsg vol)) ∧
        (getVolumesForGroup env s opt volumes add).2 =
          (pre ++ [v]).map (Call.dbGetVolume (NewContextFromJson opt.Context))) := by
  constructor
  · intro refs h
    obtain ⟨found, hrefs, hmap, hcalls⟩ :=
      getVolumesForGroupLoop_ok_spec env s opt add volumes [] [] refs h
    have hfr : refs = found := by simpa using hrefs
    subst hfr
    refine ⟨?_, hmap, ?_⟩
    · have hlen := congrArg List.length hmap
      simpa using hlen.symm
    · unfold getVolumesForGroup
      rw [hcalls]
      simp
  · intro err h
    obtain ⟨pre, v, post, hsplit, hpre, hv, hcalls⟩ :=
      getVolumesForGroupLoop_error_spec env s opt add volumes [] [] err h
    refine ⟨pre, v, post, hsplit, hpre, hv, ?_⟩
    unfold getVolumesForGroup
    rw [hcalls]
    simp

/-- The spec's status-filtering scenario on the sample world: resolving
"v-ok", "v-err", "v-use" for addition stops at "v-err" with its wrong-status
error and never looks "v-use" up; for removal all three are returned in order. -/
theorem getVolumesForGroup_sample :
    getVolumesForGroup sampleEnv [] {} ["v-ok", "v-err", "v-use"] true =
      (.error (GoError.other "Update group failed, wrong status for volume v-err error"),
        [Call.dbGetVolume (NewContextFromJson "") "v-ok",
         Call.dbGetVolume (NewContextFromJson "") "v-err"]) ∧
    (getVolumesForGroup sampleEnv [] {} ["v-ok", "v-err", "v-use"] false).1 =
      .ok [sampleVolume "v-ok" VolumeAvailable "", sampleVolume "v-err" VolumeError "",
        sampleVolume "v-use" VolumeInUse VolumeAttached] :=
  ⟨rfl, rfl⟩

/-! ## Driver initialisation and clean -/

theorem initDeferCleanRet_calls {σ : Type} (env : Env σ) (driverName : String) (s : σ)
    (body : VolumeDriver → σ → Ret σ) :
    (initDeferCleanRet env driverName s body).calls =
      Call.driversInit driverName ::
        ((body (env.Init driverName s).1 (env.Init driverName s).2).calls ++
          [Call.driversClean (env.Init driverName s).1]) := by
  unfold initDeferCleanRet
  rcases env.Init driverName s with ⟨drv, s1⟩
  simp only
  cases body drv s1 <;> rfl

theorem initReplicationDeferClean_calls {σ : Type} (env : Env σ) (driverName : String) (s : σ)
    (body : Option ReplicationDriver → σ → Ret σ) :
    (initReplicationDeferClean env driverName s body).calls =
      Call.initReplicationDriver driverName ::
        ((body (env.InitReplicationDriver driverName s).1.1
            (env.InitReplicationDriver driverName s).2).calls ++
          [Call.cleanReplicationDriver (env.InitReplicationDriver driverName s).1.1]) := by
  unfold initReplicationDeferClean
  rcases env.InitReplicationDriver driverName s with ⟨⟨driver, e⟩, s1⟩
  simp only
  cases body driver s1 <;> rfl

theorem replicationOp_calls {σ : Type} (env : Env σ) (driverName : String) (s : σ)
    (op : ReplicationDriver → σ → Option GoError × σ) (call : ReplicationDriver → Call)
    (hcall : ∀ d, (call d).isInitOrClean = false) :
    Bracketed (replicationOp env driverName s op call).calls
      (Call.initReplicationDriver driverName)
      (Call.cleanReplicationDriver (env.InitReplicationDriver driverName s).1.1) := by
  unfold replicationOp
  rw [initReplicationDeferClean_calls]
  refine ⟨_, rfl, ?_⟩
  intro c hc
  cases hdrv : (env.InitReplicationDriver driverName s).1.1 with
  | none =>
    rw [hdrv] at hc
    cases hc
  | some d =>
    rw [hdrv] at hc
    simp only at hc
    rcases hop : op d (env.InitReplicationDriver driverName s).2 with ⟨e, s2⟩
    rw [hop] at hc
    cases e <;>
      · simp only [Ret.calls, List.mem_singleton] at hc
        rw [hc]
        exact hcall d

theorem initDeferClean_bracketed {σ : Type} (env : Env σ) (driverName : String) (s : σ)
    (body : VolumeDriver → σ → Rpc σ)
    (h : ∀ drv s1, ∀ c ∈ (body drv s1).calls, c.isInitOrClean = false) :
    Bracketed (initDeferClean env driverName s body).calls (Call.driversInit driverName)
      (Call.driversClean (env.Init driverName s).1) :=
  ⟨(body (env.Init driverName s).1 (env.Init driverName s).2).calls, rfl, h _ _⟩

theorem initDeferCleanRet_bracketed {σ : Type} (env : Env σ) (driverName : String) (s : σ)
    (body : VolumeDriver → σ → Ret σ)
    (h : ∀ drv s1, ∀ c ∈ (body drv s1).calls, c.isInitOrClean = false) :
    Bracketed (initDeferCleanRet env driverName s body).calls (Call.driversInit driverName)
      (Call.driversClean (env.Init driverName s).1) :=
  ⟨(body (env.Init driverName s).1 (env.Init driverName s).2).calls,
    initDeferCleanRet_calls env driverName s body, h _ _⟩

theorem CreateVolume_bracketed {σ : Type} (env : Env σ) (s : σ) (opt : CreateVolumeOpts) :
    Bracketed (CreateVolume env s opt).calls (Call.driversInit opt.DriverName)
      (Call.driversClean (env.Init opt.DriverName s).1) := by
  apply initDeferClean_bracketed
  intro drv s1 c hc
  split at hc <;>
    · simp only [List.mem_singleton] at hc
      rw [hc]
      rfl

theorem DeleteVolume_bracketed {σ : Type} (env : Env σ) (s : σ) (opt : DeleteVolumeOpts) :
    Bracketed (DeleteVolume env s opt).calls (Call.driversInit opt.DriverName)
      (Call.driversClean (env.Init opt.DriverName s).1) := by
  apply initDeferClean_bracketed
  intro drv s1 c hc
  split at hc <;>
    · simp only [List.mem_singleton] at hc
      rw [hc]
      rfl

theorem ExtendVolume_bracketed {σ : Type} (env : Env σ) (s : σ) (opt : ExtendVolumeOpts) :
    Bracketed (ExtendVolume env s opt).calls (Call.driversInit opt.DriverName)
      (Call.driversClean (env.Init opt.DriverName s).1) := by
  apply initDeferClean_bracketed
  intro drv s1 c hc
  split at hc <;>
    · simp only [List.mem_singleton] at hc
      rw [hc]
      rfl

theorem CreateVolumeAttachment_bracketed {σ : Type} (env : Env σ) (s : σ)
    (opt : CreateVolumeAttachmentOpts) :
    Bracketed (CreateVolumeAttachment env s opt).calls (Call.driversInit opt.DriverName)
      (Call.driversClean (env.Init opt.DriverName s).1) := by
  apply initDeferCleanRet_bracketed
  intro drv s1 c hc
  split at hc <;>
    · simp only [Ret.calls, List.mem_singleton] at hc
      rw [hc]
      rfl

theorem DeleteVolumeAttachment_bracketed {σ : Type} (env : Env σ) (s : σ)
    (opt : DeleteVolumeAttachmentOpts) :
    Bracketed (DeleteVolumeAttachment env s opt).calls (Call.driversInit opt.DriverName)
      (Call.driversClean (env.Init opt.DriverName s).1) := by
  apply initDeferClean_bracketed
  intro drv s1 c hc
  split at hc <;>
    · simp only [List.mem_singleton] at hc
      rw [hc]
      rfl

theorem CreateVolumeSnapshot_bracketed {σ : Type} (env : Env σ) (s : σ)
    (opt : CreateVolumeSnapshotOpts) :
    Bracketed (CreateVolumeSnapshot env s opt).calls (Call.driversInit opt.DriverName)
      (Call.driversClean (env.Init opt.DriverName s).1) := by
  apply initDeferClean_bracketed
  intro drv s1 c hc
  split at hc <;>
    · simp only [List.mem_singleton] at hc
      rw [hc]
      rfl

theorem DeleteVolumeSnapshot_bracketed {σ : Type} (env : Env σ) (s : σ)
    (opt : DeleteVolumeSnapshotOpts) :
    Bracketed (DeleteVolumeSnapshot env s opt).calls (Call.driversInit opt.DriverName)
      (Call.driversClean (env.Init opt.DriverName s).1) := by
  apply initDeferClean_bracketed
  intro drv s1 c hc
  split at hc <;>
    · simp only [List.mem_singleton] at hc
      rw [hc]
      rfl

theorem CreateReplication_bracketed {σ : Type} (env : Env σ) (s : σ)
    (opt : CreateReplicationOpts) :
    Bracketed (CreateReplication env s opt).calls (Call.initReplicationDriver opt.DriverName)
      (Call.cleanReplicationDriver (env.InitReplicationDriver opt.DriverName s).1.1) := by
  unfold CreateReplication
  rw [initReplicationDeferClean_calls]
  refine ⟨_, rfl, ?_⟩
  intro c hc
  cases hdrv : (env.InitReplicationDriver opt.DriverName s).1.1 with
  | none =>
    rw [hdrv] at hc
    cases hc
  | some d =>
    rw [hdrv] at hc
    simp only at hc
    split at hc <;>
      · simp only [Ret.calls, List.mem_singleton] at hc
        rw [hc]
        rfl

theorem CreateVolumeGroup_bracketed {σ : Type} (env : Env σ) (s : σ)
    (opt : CreateVolumeGroupOpts) :
    Bracketed (CreateVolumeGroup env s opt).calls (Call.driversInit opt.DriverName)
      (Call.driversClean (env.Init opt.DriverName s).1) := by
  apply initDeferClean_bracketed
  intro drv s1 c hc
  unfold CreateVolumeGroupBody at hc
  simp only at hc
  repeat' split at hc
  all_goals
    simp only [List.mem_cons, List.mem_singleton, List.not_mem_nil, or_false] at hc
    first
      | (rw [hc]; rfl)
      | (rcases hc with rfl | rfl <;> rfl)

theorem getVolumesForGroup_calls_not_init {σ : Type} (env : Env σ) (s : σ)
    (opt : UpdateVolumeGroupOpts) (add : Bool) (volumes : List String) :
    ∀ c ∈ (getVolumesForGroup env s opt volumes add).2, c.isInitOrClean = false := by
  intro c hc
  rcases getVolumesForGroupLoop_calls env s opt add volumes [] [] c hc with hc | ⟨v, _, rfl⟩
  · cases hc
  · rfl

theorem UpdateVolumeGroup_bracketed {σ : Type} (env : Env σ) (s : σ)
    (opt : UpdateVolumeGroupOpts) :
    Bracketed (UpdateVolumeGroup env s opt).calls (Call.driversInit opt.DriverName)
      (Call.driversClean (env.Init opt.DriverName s).1) := by
  apply initDeferClean_bracketed
  intro drv s1 c hc
  have hc1 := getVolumesForGroup_calls_not_init env s1 opt true opt.AddVolumes
  have hc2 := getVolumesForGroup_calls_not_init env s1 opt false opt.RemoveVolumes
  unfold UpdateVolumeGroupBody at hc
  rcases h1 : getVolumesForGroup env s1 opt opt.AddVolumes true with ⟨r1, c1⟩
  rcases h2 : getVolumesForGroup env s1 opt opt.RemoveVolumes false with ⟨r2, c2⟩
  rw [h1] at hc hc1
  rw [h2] at hc hc2
  have hx : (Call.dbGetVolumeGroup (NewContextFromJson opt.Context) opt.Id).isInitOrClean =
      false := rfl
  cases r1 with
  | error err => exact hc1 c hc
  | ok addVolumesRef =>
    cases r2 with
    | error err =>
      rcases List.mem_append.mp hc with hc | hc
      · exact hc1 c hc
      · exact hc2 c hc
    | ok removeVolumesRef =>
      simp only at hc
      cases hg : env.GetVolumeGroup s1 (NewContextFromJson opt.Context) opt.Id with
      | error err =>
        rw [hg] at hc
        simp only [List.mem_append, List.mem_singleton] at hc
        rcases hc with (hc | hc) | hc
        · exact hc1 c hc
        · exact hc2 c hc
        · rw [hc]
          rfl
      | ok group =>
        rw [hg] at hc
        have hmem : c ∈ c1 ++ c2 ++ [Call.dbGetVolumeGroup (NewContextFromJson opt.Context) opt.Id]
            ++ [Call.drvUpdateVolumeGroup drv opt group addVolumesRef removeVolumesRef] := by
          simp only at hc
          repeat' split at hc
          all_goals exact hc
        simp only [List.mem_append, List.mem_singleton] at hmem
        rcases hmem with ((hc | hc) | hc) | hc
        · exact hc1 c hc
        · exact hc2 c hc
        · rw [hc]
          rfl
        · rw [hc]
          rfl

theorem deleteGroupGeneric_calls_not_init {σ : Type} (env : Env σ) (s : σ)
    (driver : VolumeDriver) (vg : VolumeGroupSpec) (volumes : List VolumeSpec)
    (opt : DeleteVolumeGroupOpts) :
    ∀ c ∈ (deleteGroupGeneric env s driver vg volumes opt).calls, c.isInitOrClean = false := by
  have h := (deleteGroupGeneric_foldl env driver opt volumes
    { vgUpdate := { BaseModel := { Id := vg.Id }, Status := vg.Status },
      volumesUpdate := [], calls := [], state := s }).2.1
  intro c hc
  unfold deleteGroupGeneric at hc
  rw [h] at hc
  simp only [List.nil_append, List.mem_flatMap] at hc
  obtain ⟨p, -, hp⟩ := hc
  split at hp
  · rw [List.mem_singleton.mp hp]
    rfl
  · simp only [List.mem_cons, List.mem_singleton, List.not_mem_nil, or_false] at hp
    rcases hp with rfl | rfl <;> rfl

theorem DeleteVolumeGroup_bracketed {σ : Type} (env : Env σ) (s : σ)
    (opt : DeleteVolumeGroupOpts) :
    Bracketed (DeleteVolumeGroup env s opt).calls (Call.driversInit opt.DriverName)
      (Call.driversClean (env.Init opt.DriverName s).1) := by
  refine ⟨(DeleteVolumeGroupBody env (env.Init opt.DriverName s).1
    (env.Init opt.DriverName s).2 opt).calls, rfl, ?_⟩
  generalize (env.Init opt.DriverName s).1 = drv
  generalize (env.Init opt.DriverName s).2 = s1
  intro c hc
  unfold DeleteVolumeGroupBody at hc
  simp only at hc
  repeat' split at hc
  all_goals
    simp only [List.mem_append, List.mem_cons, List.mem_singleton, List.not_mem_nil,
      or_false] at hc
    first
      | (rw [hc]; rfl)
      | (rcases hc with rfl | rfl <;> rfl)
      | (rcases hc with (rfl | rfl) | rfl <;> rfl)
      | (rcases hc with ((rfl | rfl) | rfl) | hc
         · rfl
         · rfl
         · rfl
         · exact deleteGroupGeneric_calls_not_init env _ drv _ _ opt c hc)

theorem Bracketed_filter (calls : List Call) (init clean : Call)
    (hi : init.isInitOrClean = true) (hc : clean.isInitOrClean = true)
    (h : Bracketed calls init clean) :
    calls.filter Call.isInitOrClean = [init, clean] := by
  obtain ⟨middle, rfl, hmid⟩ := h
  have hnil : middle.filter Call.isInitOrClean = [] := by
    rw [List.filter_eq_nil_iff]
    intro c hcm
    rw [hmid c hcm]
    exact Bool.false_ne_true
  simp [List.filter_cons, List.filter_append, hi, hc, hnil]

theorem callsOf_bracketed {σ : Type} (env : Env σ) (s : σ) (req : Request)
    (h : req.isHostSide = false) :
    ∃ init clean, req.initCall = some init ∧ req.cleanCall env s = some clean ∧
      init.isInitOrClean = true ∧ clean.isInitOrClean = true ∧
      Bracketed (callsOf env s req) init clean := by
  cases req with
  | createVolume opt => exact ⟨_, _, rfl, rfl, rfl, rfl, CreateVolume_bracketed env s opt⟩
  | deleteVolume opt => exact ⟨_, _, rfl, rfl, rfl, rfl, DeleteVolume_bracketed env s opt⟩
  | extendVolume opt => exact ⟨_, _, rfl, rfl, rfl, rfl, ExtendVolume_bracketed env s opt⟩
  | createVolumeAttachment opt =>
    exact ⟨_, _, rfl, rfl, rfl, rfl, CreateVolumeAttachment_bracketed env s opt⟩
  | deleteVolumeAttachment opt =>
    exact ⟨_, _, rfl, rfl, rfl, rfl, DeleteVolumeAttachment_bracketed env s opt⟩
  | createVolumeSnapshot opt =>
    exact ⟨_, _, rfl, rfl, rfl, rfl, CreateVolumeSnapshot_bracketed env s opt⟩
  | deleteVolumeSnapshot opt =>
    exact ⟨_, _, rfl, rfl, rfl, rfl, DeleteVolumeSnapshot_bracketed env s opt⟩
  | attachVolume opt => cases h
  | detachVolume opt => cases h
  | createReplication opt =>
    exact ⟨_, _, rfl, rfl, rfl, rfl, CreateReplication_bracketed env s opt⟩
  | deleteReplication opt =>
    exact ⟨_, _, rfl, rfl, rfl, rfl, replicationOp_calls env opt.DriverName s _ _ (fun _ => rfl)⟩
  | enableReplication opt =>
    exact ⟨_, _, rfl, rfl, rfl, rfl, replicationOp_calls env opt.DriverName s _ _ (fun _ => rfl)⟩
  | disableReplication opt =>
    exact ⟨_, _, rfl, rfl, rfl, rfl, replicationOp_calls env opt.DriverName s _ _ (fun _ => rfl)⟩
  | failoverReplication opt =>
    exact ⟨_, _, rfl, rfl, rfl, rfl, replicationOp_calls env opt.DriverName s _ _ (fun _ => rfl)⟩
  | createVolumeGroup opt =>
    exact ⟨_, _, rfl, rfl, rfl, rfl, CreateVolumeGroup_bracketed env s opt⟩
  | updateVolumeGroup opt =>
    exact ⟨_, _, rfl, rfl, rfl, rfl, UpdateVolumeGroup_bracketed env s opt⟩
  | deleteVolumeGroup opt =>
    exact ⟨_, _, rfl, rfl, rfl, rfl, DeleteVolumeGroup_bracketed env s opt⟩

/-- C11 (amended): every handler other than the host-side `AttachVolume` and
`DetachVolume` starts by initialising a driver for the driver name of the
request (`drivers.Init`, or `drivers.InitReplicationDriver` for a replication
request), and on every path it leaves on, a panic included, its last call is
the clean (`drivers.Clean`, or `drivers.CleanReplicationDriver`) on the driver
that initialisation returned; between the two no driver is initialised or
cleaned, so the clean runs exactly once and after every driver and persistence
operation. -/
theorem C11_driver_init_and_clean {σ : Type} (env : Env σ) (s : σ) (req : Request)
    (h : req.isHostSide = false) :
    ∃ init clean middle, req.initCall = some init ∧ req.cleanCall env s = some clean ∧
      callsOf env s req = init :: (middle ++ [clean]) ∧
      (∀ c ∈ middle, c.isInitOrClean = false) ∧
      (callsOf env s req).filter Call.isInitOrClean = [init, clean] := by
  obtain ⟨init, clean, hi, hc, hit, hct, hb⟩ := callsOf_bracketed env s req h
  have hf := Bracketed_filter _ init clean hit hct hb
  obtain ⟨middle, hcalls, hmid⟩ := hb
  exact ⟨init, clean, middle, hi, hc, hcalls, hmid, hf⟩

/-- Witness of C11 on the sample world: deleting the group "g1" through the
generic fallback. -/
theorem C11_driver_init_and_clean_witness :
    (Request.deleteVolumeGroup sampleDeletePartial).isHostSide = false ∧
    ∃ init clean middle,
      (Request.deleteVolumeGroup sampleDeletePartial).initCall = some init ∧
      (Request.deleteVolumeGroup sampleDeletePartial).cleanCall sampleEnv [] = some clean ∧
      callsOf sampleEnv [] (Request.deleteVolumeGroup sampleDeletePartial) =
        init :: (middle ++ [clean]) ∧
      (∀ c ∈ middle, c.isInitOrClean = false) ∧
      (callsOf sampleEnv [] (Request.deleteVolumeGroup sampleDeletePartial)).filter
        Call.isInitOrClean = [init, clean] :=
  ⟨rfl, C11_driver_init_and_clean sampleEnv [] (Request.deleteVolumeGroup sampleDeletePartial) rfl⟩

/-- Counterexample to C11 as stated: `AttachVolume` for the registered protocol
"iscsi" succeeds after decoding, resolving the connector and attaching; it
initialises no driver and no clean runs. -/
theorem C11_counterexample :
    (AttachVolume sampleEnv [] sampleAttachIscsi).err = none ∧
    callsOf sampleEnv [] (Request.attachVolume sampleAttachIscsi) =
      [Call.jsonUnmarshal "\x7b\x7d", Call.newConnector "iscsi", Call.conAttach ⟨0⟩ []] ∧
    (callsOf sampleEnv [] (Request.attachVolume sampleAttachIscsi)).filter
      Call.isInitOrClean = [] ∧
    ¬ ∃ init clean middle, init.isInitOrClean = true ∧ clean.isInitOrClean = true ∧
      callsOf sampleEnv [] (Request.attachVolume sampleAttachIscsi) =
        init :: (middle ++ [clean]) := by
  refine ⟨rfl, rfl, rfl, ?_⟩
  rintro ⟨init, clean, middle, hi, -, hcalls⟩
  have h0 : callsOf sampleEnv [] (Request.attachVolume sampleAttachIscsi) =
      [Call.jsonUnmarshal "\x7b\x7d", Call.newConnector "iscsi", Call.conAttach ⟨0⟩ []] := rfl
  rw [h0] at hcalls
  injection hcalls with hhead _
  rw [← hhead] at hi
  cases hi

/-! ## Replication driver resolution -/

/-- Whatever error the resolution of the replication driver returns, when it
returns a driver `CreateReplication` invokes the driver's CreateReplication. -/
theorem CreateReplication_invokes_operation {σ : Type} (env : Env σ) (s : σ)
    (opt : CreateReplicationOpts) (d : ReplicationDriver) (e : Option GoError) (s1 : σ)
    (hinit : env.InitReplicationDriver opt.DriverName s = ((some d, e), s1)) :
    (CreateReplication env s opt).calls =
      [Call.initReplicationDriver opt.DriverName, Call.repCreateReplication d opt,
       Call.cleanReplicationDriver (some d)] := by
  unfold CreateReplication
  rw [initReplicationDeferClean_calls, hinit]
  simp only
  rcases env.repCreateReplication d opt s1 with ⟨⟨r, e2⟩, s2⟩
  cases e2 <;> cases r <;> rfl

/-- Whatever error the resolution of the replication driver returns, when it
returns the nil driver `CreateReplication` panics at the method call: it
returns no envelope and no error, and the deferred clean runs on the nil driver. -/
theorem CreateReplication_nil_driver {σ : Type} (env : Env σ) (s : σ)
    (opt : CreateReplicationOpts) (e : Option GoError) (s1 : σ)
    (hinit : env.InitReplicationDriver opt.DriverName s = ((none, e), s1)) :
    CreateReplication env s opt =
      .panicked [Call.initReplicationDriver opt.DriverName, Call.cleanReplicationDriver none]
        (env.CleanReplicationDriver none s1) := by
  unfold CreateReplication initReplicationDeferClean
  rw [hinit]
  rfl

/-- The same for the four other replication handlers: with a driver returned,
the operation is invoked whatever the error of the resolution. -/
theorem replicationOp_invokes_operation {σ : Type} (env : Env σ) (driverName : String) (s : σ)
    (op : ReplicationDriver → σ → Option GoError × σ) (call : ReplicationDriver → Call)
    (d : ReplicationDriver) (e : Option GoError) (s1 : σ)
    (hinit : env.InitReplicationDriver driverName s = ((some d, e), s1)) :
    (replicationOp env driverName s op call).calls =
      [Call.initReplicationDriver driverName, call d, Call.cleanReplicationDriver (some d)] := by
  unfold replicationOp
  rw [initReplicationDeferClean_calls, hinit]
  simp only
  rcases op d s1 with ⟨e2, s2⟩
  cases e2 <;> rfl

/-- The same for the four other replication handlers: with the nil driver
returned, the handler panics whatever the error of the resolution. -/
theorem replicationOp_nil_driver {σ : Type} (env : Env σ) (driverName : String) (s : σ)
    (op : ReplicationDriver → σ → Option GoError × σ) (call : ReplicationDriver → Call)
    (e : Option GoError) (s1 : σ)
    (hinit : env.InitReplicationDriver driverName s = ((none, e), s1)) :
    replicationOp env driverName s op call =
      .panicked [Call.initReplicationDriver driverName, Call.cleanReplicationDriver none]
        (env.CleanReplicationDriver none s1) := by
  unfold replicationOp initReplicationDeferClean
  rw [hinit]
  rfl

/-- The two failing resolutions of the sample world: that of "nowhere" fails
with the nil driver, and `CreateReplication` panics without returning an
envelope; that of "broken" fails with a driver, and `CreateReplication` invokes
the driver's CreateReplication and returns a success envelope with a nil error. -/
theorem CreateReplication_sample :
    sampleEnv.InitReplicationDriver sampleReplicationUnknown.DriverName [] =
      ((none, some (GoError.other "unknown replication driver")), []) ∧
    CreateReplication sampleEnv [] sampleReplicationUnknown =
      .panicked [Call.initReplicationDriver "nowhere", Call.cleanReplicationDriver none] [] ∧
    sampleEnv.InitReplicationDriver sampleReplicationBroken.DriverName [] =
      ((some ⟨1⟩, some (GoError.other "replication driver setup failed")), []) ∧
    CreateReplication sampleEnv [] sampleReplicationBroken =
      .returned
        { res := pbGenericResponseResult (.replication
            { BaseModel := { Id := "r1" }, Name := "replica", PoolId := "p1", ProfileId := "f1" }),
          err := none,
          calls := [Call.initReplicationDriver "broken",
            Call.repCreateReplication ⟨1⟩ sampleReplicationBroken,
            Call.cleanReplicationDriver (some ⟨1⟩)],
          state := [] } ∧
    (∃ c ∈ (CreateReplication sampleEnv [] sampleReplicationBroken).calls,
      c.isReplicationMethod = true) :=
  ⟨rfl, rfl, rfl, rfl, Call.repCreateReplication ⟨1⟩ sampleReplicationBroken, by decide, rfl⟩

/-! ## The client SDK against the fake transport -/

theorem stringsToUpper_POST (f : Char → Char) : stringsToUpper f "POST" = "POST" := rfl

theorem stringsToUpper_PUT (f : Char → Char) : stringsToUpper f "PUT" = "PUT" := rfl

theorem stringsToUpper_GET (f : Char → Char) : stringsToUpper f "GET" = "GET" := rfl

theorem stringsToUpper_DELETE (f : Char → Char) : stringsToUpper f "DELETE" = "DELETE" := rfl

theorem Recv_delete (fx : Fixture) (url method : String) (input out : Out)
    (h : stringsToUpper fx.upperRune method = "DELETE") :
    Recv fx url method input out = (none, out) := by
  unfold Recv
  simp [h]

theorem Recv_post_volume (fx : Fixture) (url method : String) (input : Out) (v cv : VolumeSpec)
    (hm : stringsToUpper fx.upperRune method = "POST" ∨
      stringsToUpper fx.upperRune method = "PUT" ∨
      stringsToUpper fx.upperRune method = "GET")
    (h : fx.unmarshalVolume fx.ByteVolume v = (none, cv)) :
    Recv fx url method input (.volume v) = (none, .volume cv) := by
  unfold Recv
  rcases hm with hm | hm | hm <;> simp [hm, h]

theorem Recv_post_attachment (fx : Fixture) (url method : String) (input : Out)
    (a ca : VolumeAttachmentSpec)
    (hm : stringsToUpper fx.upperRune method = "POST" ∨
      stringsToUpper fx.upperRune method = "PUT" ∨
      stringsToUpper fx.upperRune method = "GET")
    (h : fx.unmarshalAttachment fx.ByteAttachment a = (none, ca)) :
    Recv fx url method input (.attachment a) = (none, .attachment ca) := by
  unfold Recv
  rcases hm with hm | hm | hm <;> simp [hm, h]

theorem Recv_post_snapshot (fx : Fixture) (url method : String) (input : Out)
    (p cp : VolumeSnapshotSpec)
    (hm : stringsToUpper fx.upperRune method = "POST" ∨
      stringsToUpper fx.upperRune method = "PUT" ∨
      stringsToUpper fx.upperRune method = "GET")
    (h : fx.unmarshalSnapshot fx.ByteSnapshot p = (none, cp)) :
    Recv fx url method input (.snapshot p) = (none, .snapshot cp) := by
  unfold Recv
  rcases hm with hm | hm | hm <;> simp [hm, h]

theorem Recv_get_volumes (fx : Fixture) (url method : String) (input : Out)
    (l cl : List VolumeSpec)
    (hm : stringsToUpper fx.upperRune method = "GET")
    (h : fx.unmarshalVolumes fx.ByteVolumes l = (none, cl)) :
    Recv fx url method input (.volumes l) = (none, .volumes cl) := by
  unfold Recv
  simp [hm, h]

theorem Recv_get_attachments (fx : Fixture) (url method : String) (input : Out)
    (l cl : List VolumeAttachmentSpec)
    (hm : stringsToUpper fx.upperRune method = "GET")
    (h : fx.unmarshalAttachments fx.ByteAttachments l = (none, cl)) :
    Recv fx url method input (.attachments l) = (none, .attachments cl) := by
  unfold Recv
  simp [hm, h]

theorem Recv_get_snapshots (fx : Fixture) (url method : String) (input : Out)
    (l cl : List VolumeSnapshotSpec)
    (hm : stringsToUpper fx.upperRune method = "GET")
    (h : fx.unmarshalSnapshots fx.ByteSnapshots l = (none, cl)) :
    Recv fx url method input (.snapshots l) = (none, .snapshots cl) := by
  unfold Recv
  simp [hm, h]

/-- C13: against the fake transport, when the canned texts decode into fresh
targets, CreateVolume, GetVolume and UpdateVolume return the canned volume
record for every input spec and id, ListVolumes returns the canned sequence as
it is, and likewise the attachment and the snapshot operations: the SDK changes
nothing in what the transport decoded. -/
theorem C13_sdk_returns_canned_records (fx : Fixture)
    (cv : VolumeSpec) (cvs : List VolumeSpec)
    (ca : VolumeAttachmentSpec) (cas : List VolumeAttachmentSpec)
    (cp : VolumeSnapshotSpec) (cps : List VolumeSnapshotSpec)
    (hv : fx.unmarshalVolume fx.ByteVolume {} = (none, cv))
    (hvs : fx.unmarshalVolumes fx.ByteVolumes [] = (none, cvs))
    (ha : fx.unmarshalAttachment fx.ByteAttachment {} = (none, ca))
    (has : fx.unmarshalAttachments fx.ByteAttachments [] = (none, cas))
    (hp : fx.unmarshalSnapshot fx.ByteSnapshot {} = (none, cp))
    (hps : fx.unmarshalSnapshots fx.ByteSnapshots [] = (none, cps)) :
    (∀ (body : VolumeSpec) (id : String),
      (fv fx).CreateVolume body = .ok cv ∧ (fv fx).GetVolume id = .ok cv ∧
      (fv fx).UpdateVolume id body = .ok cv) ∧
    (fv fx).ListVolumes = .ok cvs ∧
    (∀ (body : VolumeAttachmentSpec) (id : String),
      (fv fx).CreateVolumeAttachment body = .ok ca ∧ (fv fx).GetVolumeAttachment id = .ok ca ∧
      (fv fx).UpdateVolumeAttachment id body = .ok ca) ∧
    (fv fx).ListVolumeAttachments = .ok cas ∧
    (∀ (body : VolumeSnapshotSpec) (id : String),
      (fv fx).CreateVolumeSnapshot body = .ok cp ∧ (fv fx).GetVolumeSnapshot id = .ok cp ∧
      (fv fx).UpdateVolumeSnapshot id body = .ok cp) ∧
    (fv fx).ListVolumeSnapshots = .ok cps := by
  have hPOST := stringsToUpper_POST fx.upperRune
  have hPUT := stringsToUpper_PUT fx.upperRune
  have hGET := stringsToUpper_GET fx.upperRune
  refine ⟨fun body id => ⟨?_, ?_, ?_⟩, ?_, fun body id => ⟨?_, ?_, ?_⟩, ?_,
    fun body id => ⟨?_, ?_, ?_⟩, ?_⟩
  · simp only [VolumeMgr.CreateVolume, sdkCall, fv, NewFakeVolumeReceiver]
    rw [Recv_post_volume fx _ _ _ _ cv (Or.inl hPOST) hv]
    rfl
  · simp only [VolumeMgr.GetVolume, sdkCall, fv, NewFakeVolumeReceiver]
    rw [Recv_post_volume fx _ _ _ _ cv (Or.inr (Or.inr hGET)) hv]
    rfl
  · simp only [VolumeMgr.UpdateVolume, sdkCall, fv, NewFakeVolumeReceiver]
    rw [Recv_post_volume fx _ _ _ _ cv (Or.inr (Or.inl hPUT)) hv]
    rfl
  · simp only [VolumeMgr.ListVolumes, sdkCall, fv, NewFakeVolumeReceiver]
    rw [Recv_get_volumes fx _ _ _ _ cvs hGET hvs]
    rfl
  · simp only [VolumeMgr.CreateVolumeAttachment, sdkCall, fv, NewFakeVolumeReceiver]
    rw [Recv_post_attachment fx _ _ _ _ ca (Or.inl hPOST) ha]
    rfl
  · simp only [VolumeMgr.GetVolumeAttachment, sdkCall, fv, NewFakeVolumeReceiver]
    rw [Recv_post_attachment fx _ _ _ _ ca (Or.inr (Or.inr hGET)) ha]
    rfl
  · simp only [VolumeMgr.UpdateVolumeAttachment, sdkCall, fv, NewFakeVolumeReceiver]
    rw [Recv_post_attachment fx _ _ _ _ ca (Or.inr (Or.inl hPUT)) ha]
    rfl
  · simp only [VolumeMgr.ListVolumeAttachments, sdkCall, fv, NewFakeVolumeReceiver]
    rw [Recv_get_attachments fx _ _ _ _ cas hGET has]
    rfl
  · simp only [VolumeMgr.CreateVolumeSnapshot, sdkCall, fv, NewFakeVolumeReceiver]
    rw [Recv_post_snapshot fx _ _ _ _ cp (Or.inl hPOST) hp]
    rfl
  · simp only [VolumeMgr.GetVolumeSnapshot, sdkCall, fv, NewFakeVolumeReceiver]
    rw [Recv_post_snapshot fx _ _ _ _ cp (Or.inr (Or.inr hGET)) hp]
    rfl
  · simp only [VolumeMgr.UpdateVolumeSnapshot, sdkCall, fv, NewFakeVolumeReceiver]
    rw [Recv_post_snapshot fx _ _ _ _ cp (Or.inr (Or.inl hPUT)) hp]
    rfl
  · simp only [VolumeMgr.ListVolumeSnapshots, sdkCall, fv, NewFakeVolumeReceiver]
    rw [Recv_get_snapshots fx _ _ _ _ cps hGET hps]
    rfl

/-- Witness of C13 on the sample fixture, whose canned texts decode to the
records the client tests expect. -/
theorem C13_sdk_returns_canned_records_witness :
    sampleFixture.unmarshalVolume sampleFixture.ByteVolume {} = (none, sampleCannedVolume) ∧
    (fv sampleFixture).CreateVolume {} = .ok sampleCannedVolume ∧
    (fv sampleFixture).ListVolumes = .ok [sampleCannedVolume] ∧
    (fv sampleFixture).GetVolumeAttachment "f2dda3d2-bf79-11e7-8665-f750b088f63e" =
      .ok sampleCannedAttachment ∧
    (fv sampleFixture).ListVolumeSnapshots = .ok [sampleCannedSnapshot, sampleCannedSnapshot2] :=
  have h := C13_sdk_returns_canned_records sampleFixture sampleCannedVolume [sampleCannedVolume]
    sampleCannedAttachment [sampleCannedAttachment] sampleCannedSnapshot
    [sampleCannedSnapshot, sampleCannedSnapshot2] rfl rfl rfl rfl rfl rfl
  ⟨rfl, (h.1 {} "").1, h.2.1,
    (h.2.2.1 {} "f2dda3d2-bf79-11e7-8665-f750b088f63e").2.1, h.2.2.2.2.2⟩

/-- C14: against the fake transport the three SDK delete operations return no
error for every id and input spec; and for a verb that is DELETE in any letter
case the transport returns no error and leaves every output target as it was. -/
theorem C14_delete_succeeds (fx : Fixture) :
    (∀ (id : String) (body : VolumeSpec), (fv fx).DeleteVolume id body = none) ∧
    (∀ (id : String) (body : VolumeAttachmentSpec),
      (fv fx).DeleteVolumeAttachment id body = none) ∧
    (∀ (id : String) (body : VolumeSnapshotSpec),
      (fv fx).DeleteVolumeSnapshot id body = none) ∧
    (∀ (url method : String) (input out : Out),
      stringsToUpper fx.upperRune method = "DELETE" →
        Recv fx url method input out = (none, out)) ∧
    (∀ (url : String) (input out : Out),
      Recv fx url "DELETE" input out = (none, out) ∧
      Recv fx url "delete" input out = (none, out) ∧
      Recv fx url "Delete" input out = (none, out) ∧
      Recv fx url "dElEtE" input out = (none, out)) := by
  have hD := stringsToUpper_DELETE fx.upperRune
  refine ⟨?_, ?_, ?_, ?_, ?_⟩
  · intro id body
    simp only [VolumeMgr.DeleteVolume, fv, NewFakeVolumeReceiver]
    rw [Recv_delete fx _ _ _ _ hD]
  · intro id body
    simp only [VolumeMgr.DeleteVolumeAttachment, fv, NewFakeVolumeReceiver]
    rw [Recv_delete fx _ _ _ _ hD]
  · intro id body
    simp only [VolumeMgr.DeleteVolumeSnapshot, fv, NewFakeVolumeReceiver]
    rw [Recv_delete fx _ _ _ _ hD]
  · intro url method input out h
    exact Recv_delete fx url method input out h
  · intro url input out
    exact ⟨Recv_delete fx url _ input out rfl, Recv_delete fx url _ input out rfl,
      Recv_delete fx url _ input out rfl, Recv_delete fx url _ input out rfl⟩

/-- C15: for a verb that is GET, POST or PUT in any letter case and an output
target that is none of the six shapes, the fake transport returns the error
"output format not supported!" and leaves the output target as it was. -/
theorem C15_unsupported_output_shape (fx : Fixture) (url method : String) (input out : Out)
    (hverb : stringsToUpper fx.upperRune method = "GET" ∨
      stringsToUpper fx.upperRune method = "POST" ∨
      stringsToUpper fx.upperRune method = "PUT")
    (hshape : out.isSupportedShape = false) :
    Recv fx url method input out = (some (errorsNew "output format not supported!"), out) := by
  unfold Recv
  cases out with
  | nil => rcases hverb with h | h | h <;> simp [h, errOutputFormat]
  | other typeName => rcases hverb with h | h | h <;> simp [h, errOutputFormat]
  | volume v => cases hshape
  | volumes l => cases hshape
  | attachment a => cases hshape
  | attachments l => cases hshape
  | snapshot p => cases hshape
  | snapshots l => cases hshape

/-- Witness of C15 on the sample fixture: the verb "get" with a string-keyed
map as the output target. -/
theorem C15_unsupported_output_shape_witness :
    (stringsToUpper sampleFixture.upperRune "get" = "GET" ∨
      stringsToUpper sampleFixture.upperRune "get" = "POST" ∨
      stringsToUpper sampleFixture.upperRune "get" = "PUT") ∧
    (Out.other "map[string]string").isSupportedShape = false ∧
    Recv sampleFixture "volumes" "get" Out.nil (Out.other "map[string]string") =
      (some (errorsNew "output format not supported!"), Out.other "map[string]string") :=
  ⟨Or.inl rfl, rfl,
    C15_unsupported_output_shape sampleFixture "volumes" "get" Out.nil
      (Out.other "map[string]string") (Or.inl rfl) rfl⟩

/-- The sequence shapes are decoded for GET only: with POST or PUT a sequence
target gets the same "output format not supported!" error and is left as it was. -/
theorem Recv_post_sequence_unsupported (fx : Fixture) (url method : String) (input : Out)
    (l : List VolumeSpec)
    (hverb : stringsToUpper fx.upperRune method = "POST" ∨
      stringsToUpper fx.upperRune method = "PUT") :
    Recv fx url method input (.volumes l) = (some errOutputFormat, .volumes l) := by
  unfold Recv
  rcases hverb with h | h <;> simp [h]

/-! ## The error of the replication driver resolution is discarded -/

theorem CreateReplication_outcome {σ : Type} (env : Env σ) (s : σ)
    (opt : CreateReplicationOpts) (d : ReplicationDriver) (e : Option GoError) (s1 : σ)
    (hinit : env.InitReplicationDriver opt.DriverName s = ((some d, e), s1)) :
    (∀ r err s2, env.repCreateReplication d opt s1 = ((r, some err), s2) →
      CreateReplication env s opt =
        errorReturn env err
          [Call.initReplicationDriver opt.DriverName, Call.repCreateReplication d opt,
           Call.cleanReplicationDriver (some d)]
          (env.CleanReplicationDriver (some d) s2)) ∧
    (∀ replica s2, env.repCreateReplication d opt s1 = ((some replica, none), s2) →
      CreateReplication env s opt =
        successReturn
          (.replication
            { replica with PoolId := opt.PoolId, ProfileId := opt.ProfileId, Name := opt.Name })
          [Call.initReplicationDriver opt.DriverName, Call.repCreateReplication d opt,
           Call.cleanReplicationDriver (some d)]
          (env.CleanReplicationDriver (some d) s2)) := by
  constructor
  · intro r err s2 hop
    unfold CreateReplication initReplicationDeferClean
    rw [hinit]
    simp only [hop]
    rfl
  · intro replica s2 hop
    unfold CreateReplication initReplicationDeferClean
    rw [hinit]
    simp only [hop]
    rfl

theorem replicationOp_outcome {σ : Type} (env : Env σ) (driverName : String) (s : σ)
    (op : ReplicationDriver → σ → Option GoError × σ) (call : ReplicationDriver → Call)
    (d : ReplicationDriver) (e : Option GoError) (s1 : σ)
    (hinit : env.InitReplicationDriver driverName s = ((some d, e), s1)) :
    (∀ err s2, op d s1 = (some err, s2) →
      replicationOp env driverName s op call =
        errorReturn env err
          [Call.initReplicationDriver driverName, call d, Call.cleanReplicationDriver (some d)]
          (env.CleanReplicationDriver (some d) s2)) ∧
    (∀ s2, op d s1 = (none, s2) →
      replicationOp env driverName s op call =
        successReturn .nil
          [Call.initReplicationDriver driverName, call d, Call.cleanReplicationDriver (some d)]
          (env.CleanReplicationDriver (some d) s2)) := by
  constructor
  · intro err s2 hop
    unfold replicationOp initReplicationDeferClean
    rw [hinit]
    simp only [hop]
    rfl
  · intro s2 hop
    unfold replicationOp initReplicationDeferClean
    rw [hinit]
    simp only [hop]
    rfl

/-- C12 (amended): in the five replication handlers the error of resolving the
replication driver is discarded.  Whenever the resolution returns a driver, with
an error or without, the handler invokes its replication operation on that
driver, once, between the initialisation and the deferred clean, and what it
returns is that operation's outcome: the error envelope of the operation's error
together with that error, or a success envelope with a nil error (for
`CreateReplication` wrapping the returned spec stamped with the PoolId,
ProfileId and Name of the request). -/
theorem C12_replication_resolution_error_discarded {σ : Type} (env : Env σ) (s : σ)
    (driverName : String) (d : ReplicationDriver) (e : Option GoError) (s1 : σ)
    (hinit : env.InitReplicationDriver driverName s = ((some d, e), s1)) :
    (∀ opt : CreateReplicationOpts, opt.DriverName = driverName →
      (∀ r err s2, env.repCreateReplication d opt s1 = ((r, some err), s2) →
        CreateReplication env s opt =
          errorReturn env err
            [Call.initReplicationDriver driverName, Call.repCreateReplication d opt,
             Call.cleanReplicationDriver (some d)]
            (env.CleanReplicationDriver (some d) s2)) ∧
      (∀ replica s2, env.repCreateReplication d opt s1 = ((some replica, none), s2) →
        CreateReplication env s opt =
          successReturn
            (.replication
              { replica with PoolId := opt.PoolId, ProfileId := opt.ProfileId, Name := opt.Name })
            [Call.initReplicationDriver driverName, Call.repCreateReplication d opt,
             Call.cleanReplicationDriver (some d)]
            (env.CleanReplicationDriver (some d) s2))) ∧
    (∀ opt : DeleteReplicationOpts, opt.DriverName = driverName →
      (∀ err s2, env.repDeleteReplication d opt s1 = (some err, s2) →
        DeleteReplication env s opt =
          errorReturn env err
            [Call.initReplicationDriver driverName, Call.repDeleteReplication d opt,
             Call.cleanReplicationDriver (some d)]
            (env.CleanReplicationDriver (some d) s2)) ∧
      (∀ s2, env.repDeleteReplication d opt s1 = (none, s2) →
        DeleteReplication env s opt =
          successReturn .nil
            [Call.initReplicationDriver driverName, Call.repDeleteReplication d opt,
             Call.cleanReplicationDriver (some d)]
            (env.CleanReplicationDriver (some d) s2))) ∧
    (∀ opt : EnableReplicationOpts, opt.DriverName = driverName →
      (∀ err s2, env.repEnableReplication d opt s1 = (some err, s2) →
        EnableReplication env s opt =
          errorReturn env err
            [Call.initReplicationDriver driverName, Call.repEnableReplication d opt,
             Call.cleanReplicationDriver (some d)]
            (env.CleanReplicationDriver (some d) s2)) ∧
      (∀ s2, env.repEnableReplication d opt s1 = (none, s2) →
        EnableReplication env s opt =
          successReturn .nil
            [Call.initReplicationDriver driverName, Call.repEnableReplication d opt,
             Call.cleanReplicationDriver (some d)]
            (env.CleanReplicationDriver (some d) s2))) ∧
    (∀ opt : DisableReplicationOpts, opt.DriverName = driverName →
      (∀ err s2, env.repDisableReplication d opt s1 = (some err, s2) →
        DisableReplication env s opt =
          errorReturn env err
            [Call.initReplicationDriver driverName, Call.repDisableReplication d opt,
             Call.cleanReplicationDriver (some d)]
            (env.CleanReplicationDriver (some d) s2)) ∧
      (∀ s2, env.repDisableReplication d opt s1 = (none, s2) →
        DisableReplication env s opt =
          successReturn .nil
            [Call.initReplicationDriver driverName, Call.repDisableReplication d opt,
             Call.cleanReplicationDriver (some d)]
            (env.CleanReplicationDriver (some d) s2))) ∧
    (∀ opt : FailoverReplicationOpts, opt.DriverName = driverName →
      (∀ err s2, env.repFailoverReplication d opt s1 = (some err, s2) →
        FailoverReplication env s opt =
          errorReturn env err
            [Call.initReplicationDriver driverName, Call.repFailoverReplication d opt,
             Call.cleanReplicationDriver (some d)]
            (env.CleanReplicationDriver (some d) s2)) ∧
      (∀ s2, env.repFailoverReplication d opt s1 = (none, s2) →
        FailoverReplication env s opt =
          successReturn .nil
            [Call.initReplicationDriver driverName, Call.repFailoverReplication d opt,
             Call.cleanReplicationDriver (some d)]
            (env.CleanReplicationDriver (some d) s2))) := by
  refine ⟨?_, ?_, ?_, ?_, ?_⟩
  · intro opt hname
    subst hname
    exact CreateReplication_outcome env s opt d e s1 hinit
  · intro opt hname
    subst hname
    exact replicationOp_outcome env opt.DriverName s (fun d => env.repDeleteReplication d opt)
      (fun d => Call.repDeleteReplication d opt) d e s1 hinit
  · intro opt hname
    subst hname
    exact replicationOp_outcome env opt.DriverName s (fun d => env.repEnableReplication d opt)
      (fun d => Call.repEnableReplication d opt) d e s1 hinit
  · intro opt hname
    subst hname
    exact replicationOp_outcome env opt.DriverName s (fun d => env.repDisableReplication d opt)
      (fun d => Call.repDisableReplication d opt) d e s1 hinit
  · intro opt hname
    subst hname
    exact replicationOp_outcome env opt.DriverName s (fun d => env.repFailoverReplication d opt)
      (fun d => Call.repFailoverReplication d opt) d e s1 hinit

/-- Witness of C12 on the sample world: the resolution of "broken" returns a
driver and a setup error, and `CreateReplication` returns the success envelope
of the driver's CreateReplication. -/
theorem C12_replication_resolution_error_discarded_witness :
    sampleEnv.InitReplicationDriver "broken" [] =
      ((some ⟨1⟩, some (GoError.other "replication driver setup failed")), []) ∧
    CreateReplication sampleEnv [] sampleReplicationBroken =
      successReturn
        (.replication
          { BaseModel := { Id := "r1" }, Name := "replica", PoolId := "p1", ProfileId := "f1" })
        [Call.initReplicationDriver "broken",
         Call.repCreateReplication ⟨1⟩ sampleReplicationBroken,
         Call.cleanReplicationDriver (some ⟨1⟩)]
        [] ∧
    DeleteReplication sampleEnv [] { Id := "r1", DriverName := "broken" } =
      successReturn .nil
        [Call.initReplicationDriver "broken",
         Call.repDeleteReplication ⟨1⟩ { Id := "r1", DriverName := "broken" },
         Call.cleanReplicationDriver (some ⟨1⟩)]
        [] :=
  have h := C12_replication_resolution_error_discarded sampleEnv [] "broken" ⟨1⟩
    (some (GoError.other "replication driver setup failed")) [] rfl
  ⟨rfl, (h.1 sampleReplicationBroken rfl).2 { BaseModel := { Id := "r1" } } [] rfl,
    (h.2.1 { Id := "r1", DriverName := "broken" } rfl).2 [] rfl⟩

/-- Counterexample to C12 as stated: on the sample world the resolution of the
replication driver "broken" fails with an error, yet `CreateReplication`
invokes the driver's CreateReplication and returns a success envelope with a
nil error: it returns no error envelope, no non-nil error, and its calls hold a
replication operation. -/
theorem C12_counterexample :
    (sampleEnv.InitReplicationDriver sampleReplicationBroken.DriverName []).1.2 =
      some (GoError.other "replication driver setup failed") ∧
    (∃ r, CreateReplication sampleEnv [] sampleReplicationBroken = .returned r ∧
      r.res.isError = false ∧ r.err = none ∧
      ∃ c ∈ r.calls, c.isReplicationMethod = true) ∧
    ¬ ∃ r, CreateReplication sampleEnv [] sampleReplicationBroken = .returned r ∧
      r.res.isError = true ∧ r.err ≠ none ∧ ∀ c ∈ r.calls, c.isReplicationMethod = false := by
  refine ⟨rfl, ⟨_, rfl, rfl, rfl,
    Call.repCreateReplication ⟨1⟩ sampleReplicationBroken, by decide, rfl⟩, ?_⟩
  rintro ⟨r, hr, hres, -, -⟩
  have h0 : CreateReplication sampleEnv [] sampleReplicationBroken =
      successReturn
        (.replication
          { BaseModel := { Id := "r1" }, Name := "replica", PoolId := "p1", ProfileId := "f1" })
        [Call.initReplicationDriver "broken",
         Call.repCreateReplication ⟨1⟩ sampleReplicationBroken,
         Call.cleanReplicationDriver (some ⟨1⟩)]
        [] := rfl
  rw [h0] at hr
  unfold successReturn at hr
  injection hr with hr
  rw [← hr] at hres
  cases hres

end Dock
